import Mathlib

/-!
# SNS push adapter: dispatch pipeline

A shallow embedding of `src/SNSPushAdapter.js` and theorems about it.

JavaScript values are embedded as follows.

* An object field that holds a string or is missing is an `Option String`
  (`none` is `undefined`).  A value is *truthy* when it is a non-empty string.
* The object literal `{}` used as `deviceMap` keeps its own properties in
  insertion order and may have an array installed as its prototype (the effect
  of assigning to the key `__proto__`); reads fall through to the properties
  inherited from `Object.prototype`.
* A device token is a string, so that `toString('hex')` returns it unchanged.
* A function that can throw returns `Except JSError _`.
* The gateway (`AWS.SNS`) is a pair of response functions; the order in which
  it calls back is a schedule, a list of chain numbers.  Each entry of the
  schedule runs the callback of the outstanding request of that chain together
  with the promise reactions it triggers; a request that is not scheduled is
  never answered.
-/

set_option autoImplicit false

namespace SNS

/-! ## JavaScript values -/

/-- Errors the adapter code can throw. -/
inductive JSError where
  /-- Thrown by `new Parse.Error(code, message)`. -/
  | parseError (code : Nat) (message : String)
  /-- A `TypeError` raised by the language itself. -/
  | typeError (message : String)
  deriving DecidableEq, Repr

/-- Equality of results of fallible functions is decidable. -/
instance instDecidableEqExcept {ε α : Type} [DecidableEq ε] [DecidableEq α] :
    DecidableEq (Except ε α)
  | .ok a, .ok b => if h : a = b then isTrue (by rw [h]) else isFalse (fun h1 => h (by cases h1; rfl))
  | .error a, .error b =>
    if h : a = b then isTrue (by rw [h]) else isFalse (fun h1 => h (by cases h1; rfl))
  | .ok _, .error _ => isFalse (fun h => by cases h)
  | .error _, .ok _ => isFalse (fun h => by cases h)

/-- JavaScript truthiness of a field that is a string or `undefined`. -/
def truthy : Option String → Bool
  | some s => s != ""
  | none => false

/-- The property key a value is coerced to when it indexes an object. -/
def toPropertyKey : Option String → String
  | some s => s
  | none => "undefined"

/-- String-keyed properties every object inherits from `Object.prototype`. -/
def objectPrototypeKeys : List String :=
  ["constructor", "__defineGetter__", "__defineSetter__", "hasOwnProperty",
   "__lookupGetter__", "__lookupSetter__", "isPrototypeOf", "propertyIsEnumerable",
   "toString", "valueOf", "__proto__", "toLocaleString"]

/-- String-keyed methods an array inherits from `Array.prototype`, as of
ECMAScript 2023 (`length` and `constructor` are handled apart). -/
def arrayPrototypeKeys : List String :=
  ["at", "concat", "copyWithin", "fill", "find", "findIndex", "findLast",
   "findLastIndex", "lastIndexOf", "pop", "push", "reverse", "shift", "unshift",
   "slice", "sort", "splice", "includes", "indexOf", "join", "keys", "entries",
   "values", "forEach", "filter", "flat", "flatMap", "map", "every", "some",
   "reduce", "reduceRight", "toReversed", "toSorted", "toSpliced", "with"]

/-- The array index a property key denotes, if it is a canonical numeric string
(decimal digits, no leading zero) below `2^32 - 1`. -/
def arrayIndex? (k : String) : Option Nat :=
  let cs := k.toList
  if cs ≠ [] ∧ cs.all Char.isDigit ∧ (cs = ['0'] ∨ cs.head? ≠ some '0') then
    let n := cs.foldl (fun n c => 10 * n + (c.toNat - 48)) 0
    if n < 4294967295 then some n else none
  else none

/-- The number an array-index key denotes (`0` for any other key). -/
def indexValue (k : String) : Nat := (arrayIndex? k).getD 0

/-! ## Data model -/

/-- An installation record as `send` receives it. -/
structure Installation where
  deviceToken : Option String := none
  deviceType : Option String := none
  pushType : Option String := none
  appIdentifier : Option String := none
  deriving DecidableEq, Repr

/-- The object `classifyInstallations` pushes into a bucket; the senders later
set `deviceType` on it. -/
structure Device where
  deviceToken : String
  appIdentifier : Option String := none
  deviceType : Option String := none
  deriving DecidableEq, Repr

/-- The object `deviceMap`: own properties in insertion order, and the array
installed as prototype if `__proto__` was assigned. -/
structure DeviceMap where
  own : List (String × List Device) := []
  proto : Option (List Device) := none
  deriving DecidableEq, Repr

/-- What reading `deviceMap[key]` yields. -/
inductive PropertyValue where
  | undefined
  /-- An array held as an own property. -/
  | ownArray (devices : List Device)
  /-- The array installed as prototype, read through the `__proto__` getter. -/
  | protoArray (devices : List Device)
  /-- A number (the inherited `length`). -/
  | number (n : Nat)
  /-- Any other inherited value: a function, `Object.prototype`, an array element. -/
  | inherited
  deriving DecidableEq, Repr

/-- Own-property lookup in an object listed by its own properties. -/
def lookupOwn {α : Type} : List (String × α) → String → Option α
  | [], _ => none
  | (k, v) :: rest, key => if k = key then some v else lookupOwn rest key

/-- Own-property write: replaces the value in place, or appends a new property. -/
def assignOwn {α : Type} : List (String × α) → String → α → List (String × α)
  | [], key, v => [(key, v)]
  | (k, v0) :: rest, key, v =>
    if k = key then (k, v) :: rest else (k, v0) :: assignOwn rest key v

/-- The assignment `deviceMap[key] = v` for an array `v`: the key `__proto__`
goes to the inherited setter and replaces the prototype. -/
def DeviceMap.assign (m : DeviceMap) (key : String) (v : List Device) : DeviceMap :=
  if key = "__proto__" then { m with proto := some v }
  else { m with own := assignOwn m.own key v }

/-- The read `deviceMap[key]`: own properties first, then the prototype chain. -/
def DeviceMap.read (m : DeviceMap) (key : String) : PropertyValue :=
  match lookupOwn m.own key with
  | some v => .ownArray v
  | none =>
    match m.proto with
    | some a =>
      if key = "__proto__" then .protoArray a
      else if key = "length" then .number a.length
      else if (match arrayIndex? key with | some i => decide (i < a.length) | none => false)
        then .inherited
      else if key ∈ arrayPrototypeKeys ∨ key ∈ objectPrototypeKeys then .inherited
      else .undefined
    | none => if key ∈ objectPrototypeKeys then .inherited else .undefined

/-- The bucket a caller reads as `deviceMap[key]` when it is an array. -/
def DeviceMap.bucket (m : DeviceMap) (key : String) : Option (List Device) :=
  match m.read key with
  | .ownArray v => some v
  | .protoArray v => some v
  | _ => none

/-- The list `Object.keys(deviceMap)`: own keys, array indices first in
ascending order, then the other keys in insertion order. -/
def DeviceMap.keys (m : DeviceMap) : List String :=
  let ks := m.own.map Prod.fst
  (ks.filter fun k => (arrayIndex? k).isSome).insertionSort
      (fun k1 k2 => indexValue k1 ≤ indexValue k2) ++
    ks.filter fun k => (arrayIndex? k).isNone

/-! ## Installation classifier -/

/-- The platform key of an installation: `pushType` when truthy, else `deviceType`. -/
def Installation.effectivePushType (i : Installation) : Option String :=
  if truthy i.pushType then i.pushType else i.deviceType

/-- The property key `deviceMap` is indexed with for an installation. -/
def Installation.platformKey (i : Installation) : String :=
  toPropertyKey i.effectivePushType

/-- One iteration of the loop over `installations`. -/
def classifyStep (m : DeviceMap) (installation : Installation) : Except JSError DeviceMap :=
  match installation.deviceToken with
  | none => .ok m
  | some token =>
    if token = "" then .ok m
    else
      let device : Device :=
        { deviceToken := token, appIdentifier := installation.appIdentifier }
      let key := installation.platformKey
      match m.read key with
      | .undefined => .ok m
      | .number 0 => .ok m
      | .ownArray v => .ok { m with own := assignOwn m.own key (v ++ [device]) }
      | .protoArray v => .ok { m with proto := some (v ++ [device]) }
      | _ => .error (.typeError "deviceMap[pushType].push is not a function")

/-- The loop over `installations`, which stops at the first exception. -/
def classifyLoop : DeviceMap → List Installation → Except JSError DeviceMap
  | m, [] => .ok m
  | m, i :: rest =>
    match classifyStep m i with
    | .ok m1 => classifyLoop m1 rest
    | .error e => .error e

/-- The map holding an empty array for each valid push type. -/
def initDeviceMap (validPushTypes : List String) : DeviceMap :=
  validPushTypes.foldl (fun m validPushType => m.assign validPushType []) {}

/-- `SNSPushAdapter.prototype.classifyInstallations`. -/
def classifyInstallations (installations : List Installation)
    (validPushTypes : List String) : Except JSError DeviceMap :=
  classifyLoop (initDeviceMap validPushTypes) installations
/-! ## Configuration and construction -/

/-- One platform variant of the configuration. -/
structure VariantConfig where
  ARN : Option String := none
  production : Option Bool := none
  bundleId : Option String := none
  deriving DecidableEq, Repr

/-- The value under a key of `pushTypes`: one variant object, or an array of them. -/
inductive PushTypeConfig where
  | single (config : VariantConfig)
  | many (configs : List VariantConfig)
  deriving DecidableEq, Repr

/-- The argument of the constructor.  `pushTypes` is an object, listed by its
own properties in `Object.keys` order. -/
structure PushConfig where
  accessKey : Option String := none
  secretKey : Option String := none
  region : Option String := none
  pushTypes : Option (List (String × PushTypeConfig)) := none
  deriving DecidableEq, Repr

/-- The bound sender methods stored in `senderMap`. -/
inductive Sender where
  | sendToAPNS
  | sendToGCM
  | sendToADM
  deriving DecidableEq, Repr

/-- The settings handed to `AWS.config.update`. -/
structure AWSConfig where
  accessKeyId : Option String
  secretAccessKey : Option String
  region : String
  deriving DecidableEq, Repr

/-- The fields the constructor sets on `this`. -/
structure Adapter where
  validPushTypes : List String
  availablePushTypes : List String
  snsConfig : Option (List (String × PushTypeConfig))
  senderMap : List (String × Sender)
  awsConfig : AWSConfig
  deriving DecidableEq, Repr

/-- The constant `Parse.Error.PUSH_MISCONFIGURED`. -/
def PUSH_MISCONFIGURED : Nat := 115

/-- The constant `DEFAULT_REGION`. -/
def DEFAULT_REGION : String := "us-east-1"

/-- The list `this.validPushTypes`. -/
def validPushTypes : List String := ["ios", "gcm", "adm"]

/-- The `switch (pushType)` of the constructor. -/
def senderFor (pushType : String) : Option Sender :=
  if pushType = "ios" then some .sendToAPNS
  else if pushType = "gcm" then some .sendToGCM
  else if pushType = "adm" then some .sendToADM
  else none

/-- The loop of the constructor over the keys of `pushTypes`; `allKeys` is the
whole key array, which the error message prints. -/
def registerPushTypes (allKeys : List String) :
    List String → List String → List (String × Sender) →
      Except JSError (List String × List (String × Sender))
  | [], available, senderMap => .ok (available, senderMap)
  | pushType :: rest, available, senderMap =>
    if pushType ∉ validPushTypes then
      .error (.parseError PUSH_MISCONFIGURED
        ("Push to " ++ ",".intercalate allKeys ++ " is not supported"))
    else
      registerPushTypes allKeys rest (available ++ [pushType])
        (match senderFor pushType with
          | some sender => assignOwn senderMap pushType sender
          | none => senderMap)

/-- The constructor `SNSPushAdapter(pushConfig)`. -/
def SNSPushAdapter (pushConfig : PushConfig) : Except JSError Adapter :=
  if !truthy pushConfig.accessKey || !truthy pushConfig.secretKey then
    .error (.parseError PUSH_MISCONFIGURED "Need to provide AWS keys")
  else
    let pushTypes := (pushConfig.pushTypes.getD []).map Prod.fst
    match registerPushTypes pushTypes pushTypes [] [] with
    | .error e => .error e
    | .ok (available, senderMap) =>
      .ok { validPushTypes := validPushTypes
            availablePushTypes := available
            snsConfig := pushConfig.pushTypes
            senderMap := senderMap
            awsConfig :=
              { accessKeyId := pushConfig.accessKey
                secretAccessKey := pushConfig.secretKey
                region := if truthy pushConfig.region then pushConfig.region.getD ""
                          else DEFAULT_REGION } }

/-- `SNSPushAdapter.prototype.getValidPushTypes`. -/
def getValidPushTypes (a : Adapter) : List String := a.availablePushTypes

/-! ## Payload builder -/

/-- The notification passed to `send`: `data` is the JSON text of the
notification data (`none` when it is `undefined`). -/
structure Notification where
  data : Option String := none
  expirationTime : Option Nat := none
  deriving DecidableEq, Repr

/-- The libraries the payload builders call. -/
structure Libs where
  /-- The text `APNS.generateNotification(data, expirationTime).compile()`. -/
  apnsCompile : Option String → Option Nat → String
  /-- The JSON text of `GCM.generateGCMPayload(data, pushId, timeStamp, expirationTime)`. -/
  gcmPayload : Option String → String → Nat → Option Nat → String
  /-- The function `utils.randomString`. -/
  randomString : Nat → String
  /-- The value of `Date.now()`. -/
  dateNow : Nat

/-- A payload envelope: an object listed by its own properties. -/
abbrev Payload := List (String × String)

/-- `SNSPushAdapter.generateiOSPayload`. -/
def generateiOSPayload (libs : Libs) (data : Notification) (production : Bool) : Payload :=
  let envelopeKey := if production then "APNS" else "APNS_SANDBOX"
  [(envelopeKey, libs.apnsCompile data.data data.expirationTime)]

/-- `SNSPushAdapter.generateGCMPayload`: a falsy `pushId` or `timeStamp` is
replaced by a random string or the current time. -/
def generateGCMPayload (libs : Libs) (data : Notification) (pushId : Option String)
    (timeStamp : Option Nat) : Payload :=
  let pushId := if truthy pushId then pushId.getD "" else libs.randomString 10
  let timeStamp :=
    match timeStamp with
    | some t => if t = 0 then libs.dateNow else t
    | none => libs.dateNow
  [("GCM", libs.gcmPayload data.data pushId timeStamp data.expirationTime)]

/-- `SNSPushAdapter.generateADMPayload`: the JSON text of `{data: data.data}`,
in which an `undefined` member is left out. -/
def generateADMPayload (data : Notification) : Payload :=
  let body :=
    match data.data with
    | some d => "\x7b\"data\":" ++ d ++ "\x7d"
    | none => "\x7b\x7d"
  [("ADM", body)]

/-- Two hexadecimal digits. -/
def hex2 (n : Nat) : String :=
  String.mk [Nat.digitChar (n / 16 % 16), Nat.digitChar (n % 16)]

/-- The escape `JSON.stringify` writes for one character of a string. -/
def jsonEscape (c : Char) : String :=
  if c = '"' then "\\\""
  else if c = '\\' then "\\\\"
  else if c = '\n' then "\\n"
  else if c = '\r' then "\\r"
  else if c = '\t' then "\\t"
  else if c.toNat = 8 then "\\b"
  else if c.toNat = 12 then "\\f"
  else if c.toNat < 32 then "\\u00" ++ hex2 c.toNat
  else String.singleton c

/-- `JSON.stringify` of a string. -/
def jsonQuote (s : String) : String :=
  "\"" ++ String.join (s.toList.map jsonEscape) ++ "\""

/-- `JSON.stringify` of a payload envelope. -/
def jsonStringify (payload : Payload) : String :=
  "\x7b" ++ ",".intercalate (payload.map fun kv => jsonQuote kv.1 ++ ":" ++ jsonQuote kv.2)
    ++ "\x7d"

/-! ## Gateway -/

/-- The request of `sns.createPlatformEndpoint`. -/
structure CreateParams where
  PlatformApplicationArn : Option String
  Token : String
  deriving DecidableEq, Repr

/-- The request of `sns.publish`. -/
structure PublishParams where
  Message : String
  MessageStructure : String
  TargetArn : String
  deriving DecidableEq, Repr

/-- The error object a gateway callback receives. -/
structure GatewayError where
  message : String := ""
  stack : Option String := none
  deriving DecidableEq, Repr

/-- The `data` argument of the endpoint-creation callback. -/
structure CreateData where
  EndpointArn : Option String := none
  deriving DecidableEq, Repr

/-- The arguments `(err, data)` of the endpoint-creation callback. -/
structure CreateResponse where
  err : Option GatewayError := none
  data : Option CreateData := none
  deriving DecidableEq, Repr

/-- The `data` argument of the publish callback. -/
structure PublishData where
  MessageId : Option String := none
  deriving DecidableEq, Repr

/-- The arguments `(err, data)` of the publish callback. -/
structure PublishResponse where
  err : Option GatewayError := none
  data : Option PublishData := none
  deriving DecidableEq, Repr

/-- The gateway client `this.sns`: what it answers to each request.  The number
is the position, in the array `sendPromises`, of the promise the request
belongs to. -/
structure Gateway where
  createPlatformEndpoint : Nat → CreateParams → CreateResponse
  publish : Nat → PublishParams → PublishResponse

/-- A request made to the gateway, with the number of the promise it belongs to. -/
inductive GatewayCall where
  | createPlatformEndpoint (chain : Nat) (params : CreateParams)
  | publish (chain : Nat) (params : PublishParams)
  deriving DecidableEq, Repr

/-! ## Endpoint resolver and publish -/

/-- The value `exchangeTokenPromise` resolves with. -/
structure Exchange where
  device : Device
  arn : String
  deriving DecidableEq, Repr

/-- The value `exchangeTokenPromise` rejects with. -/
structure Rejection where
  device : Device
  transmitted : Bool
  deriving DecidableEq, Repr

/-- How a callback leaves its promise: resolved, rejected, or still pending
because the callback threw. -/
inductive Settled (α : Type) where
  | resolved (value : α)
  | rejected (reason : Rejection)
  | threw (e : JSError)
  deriving DecidableEq, Repr

/-- The `device` member of a dispatch result. -/
structure ReportedDevice where
  deviceType : Option String
  deviceToken : String
  deriving DecidableEq, Repr

/-- The `response` member of a dispatch result. -/
inductive ResponseField where
  /-- The member was never assigned. -/
  | absent
  /-- The member holds `err.stack`. -/
  | stack (text : String)
  /-- The member holds the `data` of the publish callback. -/
  | data (d : Option PublishData)
  deriving DecidableEq, Repr

/-- The object `sendSNSPayload` resolves with. -/
structure DispatchResult where
  device : ReportedDevice
  transmitted : Bool
  response : ResponseField
  deriving DecidableEq, Repr

/-- `SNSPushAdapter.prototype.getPlatformArn`: the request it hands to
`sns.createPlatformEndpoint`. -/
def getPlatformArn (device : Device) (arn : Option String) : CreateParams :=
  { PlatformApplicationArn := arn, Token := device.deviceToken }

/-- `SNSPushAdapter.prototype.exchangeTokenPromise`: the callback it passes to
`getPlatformArn`, run on the gateway's answer. -/
def exchangeTokenPromise (device : Device) (response : CreateResponse) : Settled Exchange :=
  match response.err with
  | none =>
    match response.data with
    | none => .threw (.typeError "Cannot read property 'EndpointArn' of null")
    | some data =>
      if truthy data.EndpointArn then
        .resolved { device := device, arn := data.EndpointArn.getD "" }
      else .threw (.typeError "Cannot read property 'stack' of null")
  | some _ => .rejected { device := device, transmitted := false }

/-- The request object `sendSNSPayload` hands to `sns.publish`. -/
def publishRequest (arn : String) (payload : Payload) : PublishParams :=
  { Message := jsonStringify payload, MessageStructure := "json", TargetArn := arn }

/-- `SNSPushAdapter.prototype.sendSNSPayload`: the callback it passes to
`sns.publish`, run on the gateway's answer; the promise is always resolved.
The token is a string, on which `toString('hex')` is the identity. -/
def sendSNSPayload (device : Device) (response : PublishResponse) : DispatchResult :=
  let reported : ReportedDevice :=
    { deviceType := device.deviceType, deviceToken := device.deviceToken }
  match response.err with
  | some err =>
    { device := reported, transmitted := false,
      response := if truthy err.stack then .stack (err.stack.getD "") else .absent }
  | none => { device := reported, transmitted := true, response := .data response.data }

/-! ## Dispatch coordinator -/

/-- A promise built by `sendToSNS`: the device, payload and platform ARN its
callbacks close over. -/
structure SendPromise where
  device : Device
  payload : Payload
  platformArn : Option String
  deriving DecidableEq, Repr

/-- `SNSPushAdapter.prototype.sendToSNS`: one promise per device, in order. -/
def sendToSNS (payload : Payload) (devices : List Device) (platformArn : Option String) :
    List SendPromise :=
  devices.map fun device => { device := device, payload := payload, platformArn := platformArn }

/-- The test of `sendToAPNS` that puts a device into `deviceSends`. -/
def matchesVariant (iosConfig : VariantConfig) (device : Device) : Bool :=
  if !truthy device.appIdentifier then true
  else decide (device.appIdentifier = iosConfig.bundleId)

/-- The body of the loop of `sendToAPNS` for one variant. -/
def sendToVariant (libs : Libs) (data : Notification) (devices : List Device)
    (iosConfig : VariantConfig) : List SendPromise :=
  let production := iosConfig.production.getD false
  let payload := generateiOSPayload libs data production
  let deviceSends := devices.filter (matchesVariant iosConfig)
  if deviceSends.length > 0 then sendToSNS payload deviceSends iosConfig.ARN else []

/-- The assignment `device.deviceType = ...` the senders make on every device. -/
def setDeviceType (deviceType : String) (devices : List Device) : List Device :=
  devices.map fun device => { device with deviceType := some deviceType }

/-- The read `this.snsConfig[pushType]`, which throws when `snsConfig` is `undefined`. -/
def readConfig (a : Adapter) (pushType : String) : Except JSError (Option PushTypeConfig) :=
  match a.snsConfig with
  | none => .error (.typeError ("Cannot read property '" ++ pushType ++ "' of undefined"))
  | some config => .ok (lookupOwn config pushType)

/-- The array `iosConfigs` that `sendToAPNS` builds from `this.snsConfig['ios']`. -/
def iosConfigs (iosPushConfig : PushTypeConfig) : List VariantConfig :=
  match iosPushConfig with
  | .many configs => configs
  | .single config => [config]

/-- `SNSPushAdapter.prototype.sendToAPNS`. -/
def sendToAPNS (a : Adapter) (libs : Libs) (data : Notification) (devices : List Device) :
    Except JSError (List SendPromise) :=
  match readConfig a "ios" with
  | .error e => .error e
  | .ok none => .error (.typeError "Cannot read property 'production' of undefined")
  | .ok (some iosPushConfig) =>
    .ok ((iosConfigs iosPushConfig).flatMap
      (sendToVariant libs data (setDeviceType "ios" devices)))

/-- The read `pushConfig.ARN` of `sendToGCM` and `sendToADM`; an array has no
such property. -/
def platformArn (a : Adapter) (pushType : String) : Except JSError (Option String) :=
  match readConfig a pushType with
  | .error e => .error e
  | .ok none => .error (.typeError "Cannot read property 'ARN' of undefined")
  | .ok (some (.single config)) => .ok config.ARN
  | .ok (some (.many _)) => .ok none

/-- `SNSPushAdapter.prototype.sendToGCM`. -/
def sendToGCM (a : Adapter) (libs : Libs) (data : Notification) (devices : List Device) :
    Except JSError (List SendPromise) :=
  let payload := generateGCMPayload libs data none none
  match platformArn a "gcm" with
  | .error e => .error e
  | .ok arn => .ok (sendToSNS payload (setDeviceType "gcm" devices) arn)

/-- `SNSPushAdapter.prototype.sendToADM`. -/
def sendToADM (a : Adapter) (data : Notification) (devices : List Device) :
    Except JSError (List SendPromise) :=
  let payload := generateADMPayload data
  match platformArn a "adm" with
  | .error e => .error e
  | .ok arn => .ok (sendToSNS payload (setDeviceType "adm" devices) arn)

/-- The call `sender(data, devices)` through `this.senderMap[pushType]`. -/
def callSender (a : Adapter) (libs : Libs) (data : Notification) (pushType : String)
    (devices : List Device) : Except JSError (List SendPromise) :=
  match lookupOwn a.senderMap pushType with
  | none => .error (.typeError "sender is not a function")
  | some .sendToAPNS => sendToAPNS a libs data devices
  | some .sendToGCM => sendToGCM a libs data devices
  | some .sendToADM => sendToADM a data devices

/-- The `forEach` of `send` over `Object.keys(deviceMap)`: the promises pushed
to `sendPromises` so far, and the exception that ended the loop, if any. -/
def collectPromises (a : Adapter) (libs : Libs) (data : Notification) (deviceMap : DeviceMap) :
    List String → List SendPromise → List SendPromise × Option JSError
  | [], sendPromises => (sendPromises, none)
  | pushType :: rest, sendPromises =>
    let devices := (lookupOwn deviceMap.own pushType).getD []
    if devices.length > 0 then
      match callSender a libs data pushType devices with
      | .error e => (sendPromises, some e)
      | .ok results => collectPromises a libs data deviceMap rest (sendPromises ++ results)
    else collectPromises a libs data deviceMap rest sendPromises

/-! ## Promise chains and the event loop -/

/-- Where the chain `exchangeTokenPromise(...).then(sendSNSPayload ...)` of one
promise stands. -/
inductive Progress where
  /-- Waiting for the callback of `createPlatformEndpoint`. -/
  | resolving
  /-- Waiting for the callback of `publish` to the endpoint `arn`. -/
  | publishing (arn : String)
  | fulfilled (result : DispatchResult)
  | rejected (reason : Rejection)
  /-- A callback threw: the promise stays pending for ever. -/
  | threw (e : JSError)
  deriving DecidableEq, Repr

/-- A promise of `sendPromises` with its position and its progress. -/
structure Chain where
  id : Nat
  promise : SendPromise
  progress : Progress
  deriving DecidableEq, Repr

/-- The promises of `sendPromises` numbered from `start`, all waiting for
their endpoint. -/
def numberFrom : Nat → List SendPromise → List Chain
  | _, [] => []
  | start, p :: rest =>
    { id := start, promise := p, progress := .resolving } :: numberFrom (start + 1) rest

/-- The effect of one gateway callback on its chain: the new chain, the
request the callback issues, and the rejection it causes. -/
def callback (sns : Gateway) (c : Chain) : Chain × List GatewayCall × Option Rejection :=
  match c.progress with
  | .resolving =>
    let response :=
      sns.createPlatformEndpoint c.id (getPlatformArn c.promise.device c.promise.platformArn)
    match exchangeTokenPromise c.promise.device response with
    | .resolved x =>
      ({ c with progress := .publishing x.arn },
        [.publish c.id (publishRequest x.arn c.promise.payload)], none)
    | .rejected reason => ({ c with progress := .rejected reason }, [], some reason)
    | .threw e => ({ c with progress := .threw e }, [], none)
  | .publishing arn =>
    let response := sns.publish c.id (publishRequest arn c.promise.payload)
    ({ c with progress := .fulfilled (sendSNSPayload c.promise.device response) }, [], none)
  | _ => (c, [], none)

/-- The state of a dispatch: the chains, the requests made so far, and the
first rejection `Promise.all` has seen. -/
structure Dispatch where
  chains : List Chain
  calls : List GatewayCall
  rejection : Option Rejection
  deriving DecidableEq, Repr

/-- The gateway calls back the outstanding request of chain `i`. -/
def deliver (sns : Gateway) (st : Dispatch) (i : Nat) : Dispatch :=
  let hit := st.chains.filter fun c => c.id = i
  { chains := st.chains.map fun c => if c.id = i then (callback sns c).1 else c
    calls := st.calls ++ hit.flatMap fun c => (callback sns c).2.1
    rejection := st.rejection <|> (hit.filterMap fun c => (callback sns c).2.2).head? }

/-- The event loop: the gateway calls back in the order of `schedule`; a
request whose chain is not scheduled any more is never answered. -/
def runSchedule (sns : Gateway) : Dispatch → List Nat → Dispatch
  | st, [] => st
  | st, i :: rest => runSchedule sns (deliver sns st i) rest

/-- The results of the chains when every one is fulfilled. -/
def allFulfilled : List Chain → Option (List DispatchResult)
  | [] => some []
  | c :: rest =>
    match c.progress, allFulfilled rest with
    | .fulfilled result, some results => some (result :: results)
    | _, _ => none

/-- How the call `send(...)` ends. -/
inductive Outcome where
  /-- An exception left `send` before it returned a promise. -/
  | threw (e : JSError)
  /-- The returned promise was rejected. -/
  | rejected (reason : Rejection)
  /-- The returned promise was fulfilled with the result list. -/
  | fulfilled (results : List DispatchResult)
  /-- The returned promise never settles. -/
  | pending
  deriving DecidableEq, Repr

/-- The promise `Promise.all(sendPromises).then(flatten)`: rejected with the
first rejection, fulfilled with the results in the order of `sendPromises`. -/
def settle (st : Dispatch) : Outcome :=
  match st.rejection with
  | some reason => .rejected reason
  | none =>
    match allFulfilled st.chains with
    | some results => .fulfilled results
    | none => .pending

/-- A run of `send`: the requests made to the gateway, in order, and the outcome. -/
structure SendRun where
  calls : List GatewayCall
  outcome : Outcome
  deriving DecidableEq, Repr

/-- The request `createPlatformEndpoint` a chain makes when it is built. -/
def createCall (c : Chain) : GatewayCall :=
  .createPlatformEndpoint c.id (getPlatformArn c.promise.device c.promise.platformArn)

/-- `SNSPushAdapter.prototype.send`, run against a gateway that calls back in
the order of `schedule`. -/
def send (a : Adapter) (libs : Libs) (sns : Gateway) (schedule : List Nat)
    (data : Notification) (installations : List Installation) : SendRun :=
  match classifyInstallations installations a.availablePushTypes with
  | .error e => { calls := [], outcome := .threw e }
  | .ok deviceMap =>
    let collected := collectPromises a libs data deviceMap deviceMap.keys []
    let chains := numberFrom 0 collected.1
    let final := runSchedule sns
      { chains := chains, calls := chains.map createCall, rejection := none } schedule
    { calls := final.calls
      outcome :=
        match collected.2 with
        | some e => .threw e
        | none => settle final }

/-! ## Vocabulary of the specification -/

/-- The device object built from an installation that carries a token. -/
def Installation.toDevice (i : Installation) : Device :=
  { deviceToken := i.deviceToken.getD "", appIdentifier := i.appIdentifier }

/-- The bucket of platform `P` as the specification describes it. -/
def expectedBucket (installations : List Installation) (P : String) : List Device :=
  (installations.filter
    (fun i => truthy i.deviceToken && decide (i.platformKey = P))).map Installation.toDevice


/-- What an installation adds to the bucket of `P`. -/
def contribution (i : Installation) (P : String) : List Device :=
  if truthy i.deviceToken && decide (i.platformKey = P) then [i.toDevice] else []

/-- The iOS variants an adapter is configured with (none without an `ios` entry). -/
def iosVariants (a : Adapter) : List VariantConfig :=
  match a.snsConfig with
  | none => []
  | some config =>
    match lookupOwn config "ios" with
    | none => []
    | some iosPushConfig => iosConfigs iosPushConfig

/-- The appIdentifier rule: an absent or empty `appIdentifier` matches every
variant, any other one must equal the `bundleId` of the variant. -/
def matchesAppIdentifier (appIdentifier : Option String) (variant : VariantConfig) : Bool :=
  !truthy appIdentifier || decide (appIdentifier = variant.bundleId)

/-- The number of results one installation routed through `pushType` accounts
for: one per matching variant on `ios`, one on the other platforms. -/
def resultsPerInstallation (a : Adapter) (pushType : String) (appIdentifier : Option String) :
    Nat :=
  if pushType = "ios" then ((iosVariants a).filter (matchesAppIdentifier appIdentifier)).length
  else 1

/-- The number of results the specification expects from a batch: the sum,
over the installations with a token and a configured platform, of their
results. -/
def expectedResultCount (a : Adapter) (installations : List Installation) : Nat :=
  ((installations.filter fun i =>
      truthy i.deviceToken && decide (i.platformKey ∈ a.availablePushTypes)).map
    fun i => resultsPerInstallation a i.platformKey i.appIdentifier).sum

/-- An endpoint resolution succeeds: no error, and an endpoint identifier. -/
def CreateResponse.succeeds (response : CreateResponse) : Bool :=
  response.err.isNone &&
    match response.data with
    | some data => truthy data.EndpointArn
    | none => false

/-- A fulfilled chain reports the device of its promise. -/
def Chain.reportsOwnDevice (c : Chain) : Prop :=
  ∀ r, c.progress = .fulfilled r →
    r.device = { deviceType := c.promise.device.deviceType,
                 deviceToken := c.promise.device.deviceToken }

/-- The ARN a platform other than `ios` is configured with. -/
def configuredArn (a : Adapter) (pushType : String) : Option String :=
  match a.snsConfig with
  | none => none
  | some config =>
    match lookupOwn config pushType with
    | some (.single variant) => variant.ARN
    | _ => none

/-- The sends of one iOS variant: the devices of the bucket that match it, each
with the payload and the ARN of the variant. -/
def variantSends (libs : Libs) (data : Notification) (bucket : List Device)
    (variant : VariantConfig) : List SendPromise :=
  (bucket.filter fun d => matchesAppIdentifier d.appIdentifier variant).map fun d =>
    { device := { d with deviceType := some "ios" }
      payload := generateiOSPayload libs data (variant.production.getD false)
      platformArn := variant.ARN }

/-- The sends of one platform: variant by variant on `ios`, the whole bucket
with the one payload and ARN of the platform on `gcm` and `adm`. -/
def platformSends (a : Adapter) (libs : Libs) (data : Notification) (pushType : String)
    (bucket : List Device) : List SendPromise :=
  if pushType = "ios" then (iosVariants a).flatMap (variantSends libs data bucket)
  else if pushType = "gcm" then
    bucket.map fun d =>
      { device := { d with deviceType := some "gcm" }
        payload := generateGCMPayload libs data none none
        platformArn := configuredArn a "gcm" }
  else if pushType = "adm" then
    bucket.map fun d =>
      { device := { d with deviceType := some "adm" }
        payload := generateADMPayload data
        platformArn := configuredArn a "adm" }
  else []

/-- The sends of a batch, in the order the specification gives: platform by
platform in the order of the configured keys, each platform on the bucket of
its installations. -/
def dispatchPlan (a : Adapter) (libs : Libs) (data : Notification)
    (installations : List Installation) : List SendPromise :=
  a.availablePushTypes.flatMap fun pushType =>
    platformSends a libs data pushType (expectedBucket installations pushType)

/-- The device a result reports for a send. -/
def SendPromise.reported (p : SendPromise) : ReportedDevice :=
  { deviceType := p.device.deviceType, deviceToken := p.device.deviceToken }

/-- The endpoint identifier in the answer to an endpoint-creation request. -/
def CreateResponse.endpointArn (response : CreateResponse) : String :=
  match response.data with
  | some data => data.EndpointArn.getD ""
  | none => ""

/-- The result of a chain that resolves and publishes, from the answers of the
gateway alone. -/
def expectedResult (sns : Gateway) (c : Chain) : DispatchResult :=
  sendSNSPayload c.promise.device
    (sns.publish c.id (publishRequest
      (sns.createPlatformEndpoint c.id
        (getPlatformArn c.promise.device c.promise.platformArn)).endpointArn
      c.promise.payload))

/-- The tokens of the endpoint-creation requests of a run, in the order they
were made. -/
def createTokens : List GatewayCall → List String
  | [] => []
  | .createPlatformEndpoint _ params :: rest => params.Token :: createTokens rest
  | .publish _ _ :: rest => createTokens rest

/-- What a publish request of a run is: the request of a chain that waited for
its endpoint, was called back, and whose resolution succeeded. -/
def IsPublishOf (sns : Gateway) (chains : List Chain) (schedule : List Nat)
    (call : GatewayCall) : Prop :=
  ∃ c ∈ chains, c.progress = .resolving ∧ c.id ∈ schedule ∧
    (sns.createPlatformEndpoint c.id
      (getPlatformArn c.promise.device c.promise.platformArn)).succeeds = true ∧
    call = .publish c.id (publishRequest
      (sns.createPlatformEndpoint c.id
        (getPlatformArn c.promise.device c.promise.platformArn)).endpointArn
      c.promise.payload)

/-- The dispatch `send` starts from: the promises numbered, each waiting for
its endpoint, and their endpoint-creation requests made. -/
def startDispatch (promises : List SendPromise) : Dispatch :=
  { chains := numberFrom 0 promises
    calls := (numberFrom 0 promises).map createCall
    rejection := none }

/-- The devices the results report, in the order the code fixes: platform by
platform in the order of the configured keys, on `ios` variant by variant in
the order of the configuration, and within a platform or variant in the order
of the installations. -/
def expectedDevices (a : Adapter) (installations : List Installation) : List ReportedDevice :=
  a.availablePushTypes.flatMap fun pushType =>
    if pushType = "ios" then
      (iosVariants a).flatMap fun variant =>
        (installations.filter fun i =>
            (truthy i.deviceToken && decide (i.platformKey = "ios")) &&
              matchesAppIdentifier i.appIdentifier variant).map
          fun i => { deviceType := some "ios", deviceToken := i.deviceToken.getD "" }
    else
      (installations.filter fun i =>
          truthy i.deviceToken && decide (i.platformKey = pushType)).map
        fun i => { deviceType := some pushType, deviceToken := i.deviceToken.getD "" }

/-! ## Scenarios -/

/-- Libraries that return fixed texts. -/
def scenarioLibs : Libs :=
  { apnsCompile := fun _ _ => "apns"
    gcmPayload := fun _ _ _ _ => "gcm"
    randomString := fun _ => "pushid"
    dateNow := 1 }

/-- A configuration with one iOS variant and GCM. -/
def scenarioConfig : PushConfig :=
  { accessKey := some "key"
    secretKey := some "secret"
    pushTypes := some
      [("ios", .single { ARN := some "arn:ios", production := some true,
                         bundleId := some "bundleA" }),
       ("gcm", .single { ARN := some "arn:gcm" })] }

/-- The adapter built from `scenarioConfig`. -/
def scenarioAdapter : Adapter :=
  { validPushTypes := ["ios", "gcm", "adm"]
    availablePushTypes := ["ios", "gcm"]
    snsConfig := scenarioConfig.pushTypes
    senderMap := [("ios", .sendToAPNS), ("gcm", .sendToGCM)]
    awsConfig := { accessKeyId := some "key", secretAccessKey := some "secret",
                   region := "us-east-1" } }

/-- Three devices across `ios` and `gcm`. -/
def scenarioBatch : List Installation :=
  [{ deviceToken := some "t1", deviceType := some "ios" },
   { deviceToken := some "t2", deviceType := some "gcm" },
   { deviceToken := some "t3", deviceType := some "ios" }]

/-- A gateway on which every request succeeds. -/
def scenarioGateway : Gateway :=
  { createPlatformEndpoint := fun _ _ => { data := some { EndpointArn := some "arn:endpoint" } }
    publish := fun _ _ => { data := some { MessageId := some "id" } } }

/-- A gateway on which endpoint resolution fails for the token `t2`. -/
def failingGateway : Gateway :=
  { createPlatformEndpoint := fun _ params =>
      if params.Token = "t2" then { err := some { message := "failed", stack := some "trace" } }
      else { data := some { EndpointArn := some "arn:endpoint" } }
    publish := fun _ _ => { data := some { MessageId := some "id" } } }

/-- Two iOS variants, `bundleA` and `bundleB`. -/
def twoVariants : List VariantConfig :=
  [{ ARN := some "arn:A", production := some true, bundleId := some "bundleA" },
   { ARN := some "arn:B", production := some false, bundleId := some "bundleB" }]

/-- An adapter configured with the two iOS variants. -/
def twoVariantAdapter : Adapter :=
  { validPushTypes := ["ios", "gcm", "adm"]
    availablePushTypes := ["ios"]
    snsConfig := some [("ios", .many twoVariants)]
    senderMap := [("ios", .sendToAPNS)]
    awsConfig := { accessKeyId := some "key", secretAccessKey := some "secret",
                   region := "us-east-1" } }

/-- A gateway on which every resolution succeeds and every publish fails with
an error that carries a stack. -/
def publishFailingGateway : Gateway :=
  { createPlatformEndpoint := fun _ _ => { data := some { EndpointArn := some "arn:endpoint" } }
    publish := fun _ _ => { err := some { message := "failed", stack := some "trace" } } }

/-- A configuration with the two iOS variants and no other platform. -/
def iosOnlyConfig : PushConfig :=
  { accessKey := some "key"
    secretKey := some "secret"
    pushTypes := some [("ios", .many twoVariants)] }

/-- Libraries whose GCM generator shows the push identifier and the timestamp
it is given, with a given random string and clock. -/
def echoLibs (random : String) (now : Nat) : Libs :=
  { apnsCompile := fun _ _ => "apns"
    gcmPayload := fun _ pushId timeStamp _ => pushId ++ ":" ++ String.mk (List.replicate timeStamp 't')
    randomString := fun _ => random
    dateNow := now }

/-- A gateway that answers the endpoint creation for the token `t2` without
error and without endpoint identifier. -/
def noEndpointGateway : Gateway :=
  { createPlatformEndpoint := fun _ params =>
      if params.Token = "t2" then { data := some {} }
      else { data := some { EndpointArn := some "arn:endpoint" } }
    publish := fun _ _ => { data := some { MessageId := some "id" } } }

/-- Two devices, one on `ios` and one on `gcm`. -/
def twoDeviceBatch : List Installation :=
  [{ deviceToken := some "t1", deviceType := some "ios" },
   { deviceToken := some "t2", deviceType := some "gcm" }]

/-- A configuration with two iOS variants, production and sandbox, of the one
bundle `bundleA`. -/
def sharedBundleConfig : PushConfig :=
  { accessKey := some "key"
    secretKey := some "secret"
    pushTypes := some
      [("ios", .many
        [{ ARN := some "arn:production", production := some true, bundleId := some "bundleA" },
         { ARN := some "arn:sandbox", production := some false, bundleId := some "bundleA" }])] }

/-- The adapter built from `sharedBundleConfig`. -/
def sharedBundleAdapter : Adapter :=
  { validPushTypes := ["ios", "gcm", "adm"]
    availablePushTypes := ["ios"]
    snsConfig := sharedBundleConfig.pushTypes
    senderMap := [("ios", .sendToAPNS)]
    awsConfig := { accessKeyId := some "key", secretAccessKey := some "secret",
                   region := "us-east-1" } }

/-! ## Lemmas on the device map -/

theorem lookupOwn_assignOwn {α : Type} (l : List (String × α)) (k k' : String)
    (v : α) :
    lookupOwn (assignOwn l k v) k' = if k = k' then some v else lookupOwn l k' := by
  induction l with
  | nil => simp [assignOwn, lookupOwn]
  | cons hd tl ih =>
    obtain ⟨k0, v0⟩ := hd
    by_cases h0 : k0 = k
    · subst h0
      by_cases h1 : k0 = k' <;> simp [assignOwn, lookupOwn, h1]
    · by_cases h1 : k0 = k'
      · subst h1
        have : ¬ k = k0 := fun h => h0 h.symm
        simp [assignOwn, lookupOwn, h0, this]
      · simp [assignOwn, lookupOwn, h0, h1, ih]

theorem keys_assignOwn_of_mem {α : Type} (l : List (String × α)) (k : String)
    (v w : α) (h : lookupOwn l k = some w) :
    (assignOwn l k v).map Prod.fst = l.map Prod.fst := by
  induction l with
  | nil => simp [lookupOwn] at h
  | cons hd tl ih =>
    obtain ⟨k0, v0⟩ := hd
    by_cases h0 : k0 = k
    · simp [assignOwn, h0]
    · simp only [lookupOwn, h0, if_false] at h
      simp [assignOwn, h0, ih h]

theorem lookupOwn_eq_none_iff {α : Type} (l : List (String × α)) (k : String) :
    lookupOwn l k = none ↔ k ∉ l.map Prod.fst := by
  induction l with
  | nil => simp [lookupOwn]
  | cons hd tl ih =>
    obtain ⟨k0, v0⟩ := hd
    by_cases h0 : k0 = k
    · simp [lookupOwn, h0]
    · have : ¬ k = k0 := fun h => h0 h.symm
      simp [lookupOwn, h0, ih, this]

theorem keys_assignOwn_of_not_mem {α : Type} (l : List (String × α)) (k : String)
    (v : α) (h : lookupOwn l k = none) :
    (assignOwn l k v).map Prod.fst = l.map Prod.fst ++ [k] := by
  induction l with
  | nil => simp [assignOwn]
  | cons hd tl ih =>
    obtain ⟨k0, v0⟩ := hd
    by_cases h0 : k0 = k
    · simp [lookupOwn, h0] at h
    · simp only [lookupOwn, h0, if_false] at h
      simp [assignOwn, h0, ih h]

theorem bucket_eq (m : DeviceMap) (P : String) :
    m.bucket P =
      match lookupOwn m.own P with
      | some v => some v
      | none => if P = "__proto__" then m.proto else none := by
  unfold DeviceMap.bucket DeviceMap.read
  cases h : lookupOwn m.own P with
  | some v => simp
  | none =>
    cases hp : m.proto with
    | none =>
      by_cases hk : P ∈ objectPrototypeKeys <;> simp [hk]
    | some a =>
      by_cases h1 : P = "__proto__"
      · simp [h1]
      · simp only [h1, if_false]
        split_ifs <;> rfl


/-! ## Lemmas on the classifier -/

theorem expectedBucket_cons (i : Installation) (rest : List Installation) (P : String) :
    expectedBucket (i :: rest) P = contribution i P ++ expectedBucket rest P := by
  unfold expectedBucket contribution
  by_cases h : (truthy i.deviceToken && decide (i.platformKey = P)) = true
  · simp [List.filter_cons, h]
  · simp [List.filter_cons, h]

theorem classifyStep_bucket (m m1 : DeviceMap) (i : Installation) (P : String)
    (h : classifyStep m i = .ok m1) :
    m1.bucket P = (m.bucket P).map (· ++ contribution i P) := by
  unfold classifyStep at h
  cases ht : i.deviceToken with
  | none =>
    simp only [ht] at h
    cases h
    simp [contribution, ht, truthy]
  | some token =>
    simp only [ht] at h
    by_cases he : token = ""
    · simp only [he, if_true] at h
      cases h
      simp [contribution, ht, truthy, he]
    · simp only [he, if_false] at h
      have htr : truthy i.deviceToken = true := by simp [ht, truthy, he]
      have hdev : ({ deviceToken := token, appIdentifier := i.appIdentifier } : Device)
          = i.toDevice := by simp [Installation.toDevice, ht]
      rw [hdev] at h
      rw [bucket_eq, bucket_eq]
      cases hr : m.read i.platformKey with
      | undefined =>
        simp only [hr] at h
        cases h
        by_cases hP : i.platformKey = P
        · subst hP
          have hb : m.bucket i.platformKey = none := by simp [DeviceMap.bucket, hr]
          rw [bucket_eq] at hb
          rw [hb]; rfl
        · simp [contribution, hP]
      | number n =>
        by_cases hP : i.platformKey = P
        · subst hP
          have hb : m.bucket i.platformKey = none := by simp [DeviceMap.bucket, hr]
          rw [bucket_eq] at hb
          cases n with
          | zero =>
            simp only [hr] at h
            cases h
            rw [hb]; rfl
          | succ k => simp [hr] at h
        · cases n with
          | zero =>
            simp only [hr] at h
            cases h
            simp [contribution, hP]
          | succ k => simp [hr] at h
      | inherited => simp [hr] at h
      | ownArray v =>
        simp only [hr] at h
        cases h
        have hl : lookupOwn m.own i.platformKey = some v := by
          unfold DeviceMap.read at hr
          cases hl : lookupOwn m.own i.platformKey with
          | some w => simp [hl] at hr; rw [hr]
          | none =>
            simp only [hl] at hr
            cases hp : m.proto with
            | none => simp only [hp] at hr; split_ifs at hr
            | some a => simp only [hp] at hr; split_ifs at hr
        simp only [lookupOwn_assignOwn]
        by_cases hP : i.platformKey = P
        · subst hP
          simp [hl, contribution, htr]
        · simp only [hP, if_false]
          cases lookupOwn m.own P with
          | some w => simp [contribution, hP]
          | none =>
            by_cases h2 : P = "__proto__"
            · subst h2
              simp [contribution, hP]
            · simp [contribution, hP, h2]
      | protoArray v =>
        simp only [hr] at h
        cases h
        have hl : lookupOwn m.own i.platformKey = none ∧ i.platformKey = "__proto__"
            ∧ m.proto = some v := by
          unfold DeviceMap.read at hr
          cases hl : lookupOwn m.own i.platformKey with
          | some w => simp [hl] at hr
          | none =>
            simp only [hl] at hr
            cases hp : m.proto with
            | none => simp only [hp] at hr; split_ifs at hr
            | some a =>
              simp only [hp] at hr
              split_ifs at hr with h1
              · simp at hr
                simp [h1, hr]
        obtain ⟨hl1, hl2, hl3⟩ := hl
        by_cases hP : i.platformKey = P
        · subst hP
          rw [hl2] at hl1
          simp [hl1, hl2, hl3, contribution, htr]
        · have hP2 : ¬ P = "__proto__" := fun h => hP (by rw [hl2, h])
          cases lookupOwn m.own P with
          | some w => simp [contribution, hP]
          | none => simp [contribution, hP, hP2]
theorem classifyLoop_bucket (installations : List Installation) (m m1 : DeviceMap)
    (P : String) (h : classifyLoop m installations = .ok m1) :
    m1.bucket P = (m.bucket P).map (· ++ expectedBucket installations P) := by
  induction installations generalizing m with
  | nil =>
    simp only [classifyLoop] at h
    cases h
    simp [expectedBucket]
  | cons i rest ih =>
    simp only [classifyLoop] at h
    cases hs : classifyStep m i with
    | error e => simp [hs] at h
    | ok m2 =>
      simp only [hs] at h
      rw [ih m2 h, classifyStep_bucket m m2 i P hs, expectedBucket_cons]
      cases m.bucket P <;> simp

theorem bucket_assign (m : DeviceMap) (k P : String) (v : List Device)
    (hm : lookupOwn m.own "__proto__" = none) :
    (m.assign k v).bucket P = if k = P then some v else m.bucket P := by
  rw [bucket_eq, bucket_eq]
  unfold DeviceMap.assign
  by_cases hk : k = "__proto__"
  · subst hk
    simp only [if_true]
    by_cases hP : "__proto__" = P
    · subst hP
      simp [hm]
    · have hP2 : ¬ P = "__proto__" := fun h => hP h.symm
      simp [hP, hP2]
  · simp only [hk, if_false, lookupOwn_assignOwn]
    by_cases hP : k = P
    · simp [hP]
    · simp [hP]

theorem assign_noOwnProto (m : DeviceMap) (k : String) (v : List Device)
    (hm : lookupOwn m.own "__proto__" = none) :
    lookupOwn (m.assign k v).own "__proto__" = none := by
  unfold DeviceMap.assign
  by_cases hk : k = "__proto__"
  · simp [hk, hm]
  · simp [hk, lookupOwn_assignOwn, hm]

theorem foldl_assign_bucket (vps : List String) (m : DeviceMap) (P : String)
    (hm : lookupOwn m.own "__proto__" = none) :
    (vps.foldl (fun m vp => m.assign vp []) m).bucket P =
      if P ∈ vps then some [] else m.bucket P := by
  induction vps generalizing m with
  | nil => simp
  | cons vp rest ih =>
    simp only [List.foldl_cons]
    rw [ih (m.assign vp []) (assign_noOwnProto m vp [] hm), bucket_assign m vp P [] hm]
    by_cases h1 : P ∈ rest
    · simp [h1]
    · by_cases h2 : vp = P
      · simp [h2]
      · have : ¬ P = vp := fun h => h2 h.symm
        simp [h1, h2, this]

theorem initDeviceMap_bucket (vps : List String) (P : String) (hP : P ∈ vps) :
    (initDeviceMap vps).bucket P = some [] := by
  unfold initDeviceMap
  rw [foldl_assign_bucket vps {} P (by simp [lookupOwn])]
  simp [hP]

theorem classifyInstallations_bucket (installations : List Installation)
    (vps : List String) (m : DeviceMap) (P : String) (hP : P ∈ vps)
    (h : classifyInstallations installations vps = .ok m) :
    m.bucket P = some (expectedBucket installations P) := by
  unfold classifyInstallations at h
  rw [classifyLoop_bucket installations _ m P h, initDeviceMap_bucket vps P hP]
  simp
/-- Own keys of a device map, in insertion order. -/
theorem ownKeys_assign (m : DeviceMap) (k : String) (v : List Device) :
    (m.assign k v).own.map Prod.fst =
      if k = "__proto__" then m.own.map Prod.fst
      else if k ∈ m.own.map Prod.fst then m.own.map Prod.fst
      else m.own.map Prod.fst ++ [k] := by
  unfold DeviceMap.assign
  by_cases hk : k = "__proto__"
  · simp [hk]
  · simp only [hk, if_false]
    by_cases hmem : k ∈ m.own.map Prod.fst
    · simp only [hmem, if_true]
      cases hl : lookupOwn m.own k with
      | none => exact absurd hmem ((lookupOwn_eq_none_iff m.own k).mp hl)
      | some w => exact keys_assignOwn_of_mem m.own k v w hl
    · simp only [hmem, if_false]
      exact keys_assignOwn_of_not_mem m.own k v ((lookupOwn_eq_none_iff m.own k).mpr hmem)

theorem proto_assign (m : DeviceMap) (k : String) (v : List Device) (hk : k ≠ "__proto__") :
    (m.assign k v).proto = m.proto := by
  unfold DeviceMap.assign
  simp [hk]

theorem foldl_assign_proto (vps : List String) (m : DeviceMap)
    (h : "__proto__" ∉ vps) :
    (vps.foldl (fun m vp => m.assign vp []) m).proto = m.proto := by
  induction vps generalizing m with
  | nil => rfl
  | cons vp rest ih =>
    simp only [List.foldl_cons]
    rw [ih _ (fun hmem => h (List.mem_cons_of_mem _ hmem))]
    exact proto_assign m vp [] (fun e => h (by rw [← e]; exact List.mem_cons_self _ _))

theorem foldl_assign_mem (vps : List String) (m : DeviceMap) (k : String) :
    k ∈ (vps.foldl (fun m vp => m.assign vp []) m).own.map Prod.fst ↔
      k ∈ m.own.map Prod.fst ∨ (k ∈ vps ∧ k ≠ "__proto__") := by
  induction vps generalizing m with
  | nil => simp
  | cons vp rest ih =>
    simp only [List.foldl_cons]
    rw [ih, ownKeys_assign]
    by_cases h1 : vp = "__proto__"
    · subst h1
      simp only [if_true, List.mem_cons]
      constructor
      · rintro (h | ⟨h, h2⟩)
        · exact Or.inl h
        · exact Or.inr ⟨Or.inr h, h2⟩
      · rintro (h | ⟨h | h, h2⟩)
        · exact Or.inl h
        · exact absurd h h2
        · exact Or.inr ⟨h, h2⟩
    · simp only [h1, if_false, List.mem_cons]
      by_cases h2 : vp ∈ m.own.map Prod.fst
      · simp only [h2, if_true]
        constructor
        · rintro (h | ⟨h, h3⟩)
          · exact Or.inl h
          · exact Or.inr ⟨Or.inr h, h3⟩
        · rintro (h | ⟨h | h, h3⟩)
          · exact Or.inl h
          · subst h; exact Or.inl h2
          · exact Or.inr ⟨h, h3⟩
      · simp only [h2, if_false, List.mem_append, List.mem_singleton]
        constructor
        · rintro ((h | h) | ⟨h, h3⟩)
          · exact Or.inl h
          · subst h; exact Or.inr ⟨Or.inl rfl, h1⟩
          · exact Or.inr ⟨Or.inr h, h3⟩
        · rintro (h | ⟨h | h, h3⟩)
          · exact Or.inl (Or.inl h)
          · exact Or.inl (Or.inr h)
          · exact Or.inr ⟨h, h3⟩

theorem foldl_assign_nodup (vps : List String) (m : DeviceMap)
    (h : (m.own.map Prod.fst).Nodup) :
    ((vps.foldl (fun m vp => m.assign vp []) m).own.map Prod.fst).Nodup := by
  induction vps generalizing m with
  | nil => exact h
  | cons vp rest ih =>
    simp only [List.foldl_cons]
    apply ih
    rw [ownKeys_assign]
    split_ifs with h1 h2
    · exact h
    · exact h
    · exact List.Nodup.append h (List.nodup_singleton _) (by simpa using h2)

theorem foldl_assign_keys (vps : List String) (m : DeviceMap)
    (hnd : vps.Nodup) (hp : "__proto__" ∉ vps) (hd : ∀ k ∈ vps, k ∉ m.own.map Prod.fst) :
    (vps.foldl (fun m vp => m.assign vp []) m).own.map Prod.fst =
      m.own.map Prod.fst ++ vps := by
  induction vps generalizing m with
  | nil => simp
  | cons vp rest ih =>
    simp only [List.foldl_cons]
    have h1 : vp ≠ "__proto__" := fun e => hp (by rw [← e]; exact List.mem_cons_self _ _)
    have h2 : vp ∉ m.own.map Prod.fst := hd vp (List.mem_cons_self _ _)
    have hk : (m.assign vp []).own.map Prod.fst = m.own.map Prod.fst ++ [vp] := by
      rw [ownKeys_assign]; simp [h1, h2]
    rw [ih (m.assign vp []) (List.nodup_cons.mp hnd).2
      (fun hmem => hp (List.mem_cons_of_mem _ hmem)) ?_, hk]
    · simp
    · intro k hk1
      rw [hk]
      simp only [List.mem_append, List.mem_singleton, not_or]
      refine ⟨hd k (List.mem_cons_of_mem _ hk1), ?_⟩
      rintro rfl
      exact (List.nodup_cons.mp hnd).1 hk1

theorem classifyStep_own (m m1 : DeviceMap) (i : Installation)
    (h : classifyStep m i = .ok m1) :
    m1.own.map Prod.fst = m.own.map Prod.fst ∧ m1.proto.isSome = m.proto.isSome := by
  unfold classifyStep at h
  cases ht : i.deviceToken with
  | none => simp only [ht] at h; cases h; exact ⟨rfl, rfl⟩
  | some token =>
    simp only [ht] at h
    by_cases he : token = ""
    · simp only [he, if_true] at h; cases h; exact ⟨rfl, rfl⟩
    · simp only [he, if_false] at h
      cases hr : m.read i.platformKey with
      | undefined => simp only [hr] at h; cases h; exact ⟨rfl, rfl⟩
      | number n =>
        cases n with
        | zero => simp only [hr] at h; cases h; exact ⟨rfl, rfl⟩
        | succ k => simp [hr] at h
      | inherited => simp [hr] at h
      | ownArray v =>
        simp only [hr] at h
        cases h
        refine ⟨?_, rfl⟩
        unfold DeviceMap.read at hr
        cases hl : lookupOwn m.own i.platformKey with
        | some w => exact keys_assignOwn_of_mem m.own _ _ w hl
        | none =>
          simp only [hl] at hr
          cases hp : m.proto with
          | none => simp only [hp] at hr; split_ifs at hr
          | some a => simp only [hp] at hr; split_ifs at hr
      | protoArray v =>
        simp only [hr] at h
        cases h
        refine ⟨rfl, ?_⟩
        unfold DeviceMap.read at hr
        cases hl : lookupOwn m.own i.platformKey with
        | some w => simp [hl] at hr
        | none =>
          simp only [hl] at hr
          cases hp : m.proto with
          | none => simp only [hp] at hr; split_ifs at hr
          | some a => simp

theorem classifyLoop_own (installations : List Installation) (m m1 : DeviceMap)
    (h : classifyLoop m installations = .ok m1) :
    m1.own.map Prod.fst = m.own.map Prod.fst ∧ m1.proto.isSome = m.proto.isSome := by
  induction installations generalizing m with
  | nil => simp only [classifyLoop] at h; cases h; exact ⟨rfl, rfl⟩
  | cons i rest ih =>
    simp only [classifyLoop] at h
    cases hs : classifyStep m i with
    | error e => simp [hs] at h
    | ok m2 =>
      simp only [hs] at h
      obtain ⟨h1, h2⟩ := ih m2 h
      obtain ⟨h3, h4⟩ := classifyStep_own m m2 i hs
      exact ⟨h1.trans h3, h2.trans h4⟩
theorem read_of_noProto (m : DeviceMap) (k : String) (hp : m.proto = none) :
    m.read k =
      match lookupOwn m.own k with
      | some v => .ownArray v
      | none => if k ∈ objectPrototypeKeys then .inherited else .undefined := by
  unfold DeviceMap.read
  cases lookupOwn m.own k with
  | some v => rfl
  | none => simp [hp]

theorem classifyStep_noToken (m : DeviceMap) (i : Installation)
    (h : truthy i.deviceToken = false) : classifyStep m i = .ok m := by
  unfold classifyStep
  cases ht : i.deviceToken with
  | none => rfl
  | some token =>
    have : token = "" := by simpa [truthy, ht] using h
    simp [this]

theorem classifyStep_unknownKey (m m1 : DeviceMap) (i : Installation)
    (hp : m.proto = none) (hk : i.platformKey ∉ m.own.map Prod.fst)
    (h : classifyStep m i = .ok m1) : m1 = m := by
  unfold classifyStep at h
  cases ht : i.deviceToken with
  | none => simp only [ht] at h; cases h; rfl
  | some token =>
    simp only [ht] at h
    by_cases he : token = ""
    · simp only [he, if_true] at h; cases h; rfl
    · simp only [he, if_false] at h
      rw [read_of_noProto m _ hp, (lookupOwn_eq_none_iff m.own _).mpr hk] at h
      by_cases hi : i.platformKey ∈ objectPrototypeKeys
      · simp [hi] at h
      · simp only [hi, if_false] at h; cases h; rfl

theorem classifyStep_ok_of_safe (m : DeviceMap) (i : Installation)
    (hp : m.proto = none)
    (hk : truthy i.deviceToken = true →
      i.platformKey ∈ m.own.map Prod.fst ∨ i.platformKey ∉ objectPrototypeKeys) :
    ∃ m1, classifyStep m i = .ok m1 ∧ m1.proto = none
      ∧ m1.own.map Prod.fst = m.own.map Prod.fst := by
  by_cases ht : truthy i.deviceToken = true
  · unfold classifyStep
    cases hd : i.deviceToken with
    | none => simp [truthy, hd] at ht
    | some token =>
      have he : ¬ token = "" := by simpa [truthy, hd] using ht
      simp only [he, if_false]
      rw [read_of_noProto m _ hp]
      cases hl : lookupOwn m.own i.platformKey with
      | some v =>
        exact ⟨_, rfl, hp, keys_assignOwn_of_mem m.own _ _ v hl⟩
      | none =>
        have hnot : i.platformKey ∉ m.own.map Prod.fst := (lookupOwn_eq_none_iff _ _).mp hl
        have : i.platformKey ∉ objectPrototypeKeys := by
          rcases hk ht with h | h
          · exact absurd h hnot
          · exact h
        simp only [this, if_false]
        exact ⟨m, rfl, hp, rfl⟩
  · have hf : truthy i.deviceToken = false := by simpa using ht
    exact ⟨m, classifyStep_noToken m i hf, hp, rfl⟩

theorem classifyLoop_ok_of_safe (installations : List Installation) (m : DeviceMap)
    (hp : m.proto = none)
    (hk : ∀ i ∈ installations, truthy i.deviceToken = true →
      i.platformKey ∈ m.own.map Prod.fst ∨ i.platformKey ∉ objectPrototypeKeys) :
    ∃ m1, classifyLoop m installations = .ok m1 := by
  induction installations generalizing m with
  | nil => exact ⟨m, rfl⟩
  | cons i rest ih =>
    obtain ⟨m2, h2, hp2, hk2⟩ :=
      classifyStep_ok_of_safe m i hp (hk i (List.mem_cons_self _ _))
    simp only [classifyLoop, h2]
    apply ih m2 hp2
    intro j hj
    rw [hk2]
    exact hk j (List.mem_cons_of_mem _ hj)

theorem initDeviceMap_proto (vps : List String) (h : "__proto__" ∉ vps) :
    (initDeviceMap vps).proto = none := by
  unfold initDeviceMap
  rw [foldl_assign_proto vps {} h]

theorem initDeviceMap_mem (vps : List String) (k : String) :
    k ∈ (initDeviceMap vps).own.map Prod.fst ↔ k ∈ vps ∧ k ≠ "__proto__" := by
  unfold initDeviceMap
  rw [foldl_assign_mem]
  simp

theorem initDeviceMap_nodup (vps : List String) :
    ((initDeviceMap vps).own.map Prod.fst).Nodup := by
  unfold initDeviceMap
  exact foldl_assign_nodup vps {} (by simp)

/-- Classification returns whenever no record with a token has a platform key
that names an inherited property without being a valid push type. -/
theorem classifyInstallations_ok_of_safe (installations : List Installation)
    (vps : List String) (hproto : "__proto__" ∉ vps)
    (hk : ∀ i ∈ installations, truthy i.deviceToken = true →
      i.platformKey ∈ vps ∨ i.platformKey ∉ objectPrototypeKeys) :
    ∃ m, classifyInstallations installations vps = .ok m := by
  unfold classifyInstallations
  apply classifyLoop_ok_of_safe _ _ (initDeviceMap_proto vps hproto)
  intro i hi ht
  rcases hk i hi ht with h | h
  · left
    rw [initDeviceMap_mem]
    exact ⟨h, fun e => hproto (e ▸ h)⟩
  · exact Or.inr h

theorem classifyLoop_append (xs ys : List Installation) (m : DeviceMap) :
    classifyLoop m (xs ++ ys) =
      match classifyLoop m xs with
      | .ok m1 => classifyLoop m1 ys
      | .error e => .error e := by
  induction xs generalizing m with
  | nil => simp [classifyLoop]
  | cons i rest ih =>
    simp only [List.cons_append, classifyLoop]
    cases classifyStep m i with
    | error e => rfl
    | ok m2 => exact ih m2

/-- A record without a token leaves the classification unchanged. -/
theorem classifyInstallations_noToken (xs ys : List Installation) (r : Installation)
    (vps : List String) (h : truthy r.deviceToken = false) :
    classifyInstallations (xs ++ r :: ys) vps = classifyInstallations (xs ++ ys) vps := by
  unfold classifyInstallations
  rw [classifyLoop_append, classifyLoop_append]
  cases classifyLoop (initDeviceMap vps) xs with
  | error e => rfl
  | ok m => simp [classifyLoop, classifyStep_noToken m r h]
/-! ## Lemmas on the constructor -/

theorem registerPushTypes_ok (allKeys rest available : List String)
    (senderMap : List (String × Sender)) (h : ∀ k ∈ rest, k ∈ validPushTypes) :
    ∃ sm, registerPushTypes allKeys rest available senderMap = .ok (available ++ rest, sm)
      ∧ ∀ k, lookupOwn sm k = if k ∈ rest then senderFor k else lookupOwn senderMap k := by
  induction rest generalizing available senderMap with
  | nil => exact ⟨senderMap, by simp [registerPushTypes], by simp⟩
  | cons p rest ih =>
    have hp : p ∈ validPushTypes := h p (List.mem_cons_self _ _)
    have hs : ∃ s, senderFor p = some s := by
      simp only [validPushTypes, List.mem_cons, List.mem_singleton, List.not_mem_nil,
        or_false] at hp
      rcases hp with rfl | rfl | rfl
      · exact ⟨.sendToAPNS, by decide⟩
      · exact ⟨.sendToGCM, by decide⟩
      · exact ⟨.sendToADM, by decide⟩
    obtain ⟨s, hs⟩ := hs
    obtain ⟨sm, h1, h2⟩ := ih (available ++ [p]) (assignOwn senderMap p s)
      (fun k hk => h k (List.mem_cons_of_mem _ hk))
    refine ⟨sm, ?_, ?_⟩
    · simp only [registerPushTypes, hp, not_true_eq_false, if_false, hs, h1]
      simp
    · intro k
      rw [h2 k, lookupOwn_assignOwn]
      by_cases hk : k ∈ rest
      · simp [hk]
      · by_cases hkp : p = k
        · subst hkp
          simp [hk, hs]
        · have : ¬ k = p := fun e => hkp e.symm
          simp [hk, hkp, this]

theorem registerPushTypes_error (allKeys rest available : List String)
    (senderMap : List (String × Sender)) (h : ∃ k ∈ rest, k ∉ validPushTypes) :
    registerPushTypes allKeys rest available senderMap =
      .error (.parseError PUSH_MISCONFIGURED
        ("Push to " ++ ",".intercalate allKeys ++ " is not supported")) := by
  induction rest generalizing available senderMap with
  | nil => simp at h
  | cons p rest ih =>
    by_cases hp : p ∈ validPushTypes
    · simp only [registerPushTypes, hp, not_true_eq_false, if_false]
      apply ih
      obtain ⟨k, hk, hk2⟩ := h
      rcases List.mem_cons.mp hk with rfl | hk
      · exact absurd hp hk2
      · exact ⟨k, hk, hk2⟩
    · simp [registerPushTypes, hp]

/-- The keys of `pushConfig.pushTypes`. -/
theorem SNSPushAdapter_ok (pushConfig : PushConfig) (a : Adapter)
    (h : SNSPushAdapter pushConfig = .ok a) :
    a.availablePushTypes = (pushConfig.pushTypes.getD []).map Prod.fst
      ∧ (∀ k ∈ a.availablePushTypes, k ∈ validPushTypes)
      ∧ a.snsConfig = pushConfig.pushTypes
      ∧ ∀ k ∈ a.availablePushTypes, lookupOwn a.senderMap k = senderFor k := by
  unfold SNSPushAdapter at h
  by_cases hkeys : (!truthy pushConfig.accessKey || !truthy pushConfig.secretKey) = true
  · rw [if_pos hkeys] at h
    cases h
  rw [if_neg hkeys] at h
  by_cases hv : ∀ k ∈ (pushConfig.pushTypes.getD []).map Prod.fst, k ∈ validPushTypes
  · obtain ⟨sm, h1, h2⟩ := registerPushTypes_ok ((pushConfig.pushTypes.getD []).map Prod.fst)
      ((pushConfig.pushTypes.getD []).map Prod.fst) [] [] hv
    simp only [h1, List.nil_append] at h
    cases h
    refine ⟨rfl, hv, rfl, ?_⟩
    intro k hk
    simp only at hk
    rw [h2 k]
    simp [hk]
  · have he := registerPushTypes_error ((pushConfig.pushTypes.getD []).map Prod.fst)
      ((pushConfig.pushTypes.getD []).map Prod.fst) [] []
      (by push_neg at hv; exact hv)
    simp [he] at h
/-! ## Lemmas on the senders -/

theorem lookupOwn_isSome_of_mem {α : Type} (l : List (String × α)) (k : String)
    (h : k ∈ l.map Prod.fst) : ∃ v, lookupOwn l k = some v := by
  cases hl : lookupOwn l k with
  | some v => exact ⟨v, rfl⟩
  | none => exact absurd h ((lookupOwn_eq_none_iff l k).mp hl)

theorem sendToSNS_length (payload : Payload) (devices : List Device) (arn : Option String) :
    (sendToSNS payload devices arn).length = devices.length := by
  simp [sendToSNS]

theorem sendToVariant_eq (libs : Libs) (data : Notification) (devices : List Device)
    (V : VariantConfig) :
    sendToVariant libs data devices V =
      sendToSNS (generateiOSPayload libs data (V.production.getD false))
        (devices.filter (matchesVariant V)) V.ARN := by
  unfold sendToVariant
  by_cases h : (devices.filter (matchesVariant V)).length > 0
  · simp [h]
  · have h0 : devices.filter (matchesVariant V) = [] := by
      apply List.eq_nil_of_length_eq_zero
      omega
    simp [h0, sendToSNS]

theorem matchesVariant_setDeviceType (V : VariantConfig) (t : String) (d : Device) :
    matchesVariant V { d with deviceType := some t } = matchesAppIdentifier d.appIdentifier V := by
  unfold matchesVariant matchesAppIdentifier
  by_cases h : truthy d.appIdentifier = true <;> simp [h]

theorem filter_setDeviceType (V : VariantConfig) (t : String) (devices : List Device) :
    (setDeviceType t devices).filter (matchesVariant V) =
      setDeviceType t (devices.filter fun d => matchesAppIdentifier d.appIdentifier V) := by
  unfold setDeviceType
  induction devices with
  | nil => rfl
  | cons d rest ih =>
    simp only [List.map_cons, List.filter_cons, matchesVariant_setDeviceType]
    by_cases h : matchesAppIdentifier d.appIdentifier V = true
    · simp [h, ih]
    · simp [h, ih]

theorem sum_ite_eq_length_filter {α : Type} (q : α → Bool) (xs : List α) :
    (xs.map fun x => if q x = true then 1 else 0).sum = (xs.filter q).length := by
  induction xs with
  | nil => simp
  | cons x xs ihx =>
    by_cases h : q x = true <;> simp [List.filter_cons, h, ihx, Nat.add_comm]

theorem sum_length_filter_swap {α β : Type} (p : α → β → Bool) (xs : List α) (ys : List β) :
    (xs.map fun x => (ys.filter fun y => p x y).length).sum =
      (ys.map fun y => (xs.filter fun x => p x y).length).sum := by
  induction ys with
  | nil => simp
  | cons y rest ih =>
    have h1 : ∀ x, ((y :: rest).filter fun y => p x y).length =
        (if p x y = true then 1 else 0) + (rest.filter fun y => p x y).length := by
      intro x
      by_cases h : p x y = true <;> simp [List.filter_cons, h, Nat.add_comm]
    simp only [h1, List.map_cons, List.sum_cons, List.sum_map_add, ih]
    congr 1
    exact sum_ite_eq_length_filter (fun x => p x y) xs

theorem flatMap_length {α β : Type} (f : α → List β) (xs : List α) :
    (xs.flatMap f).length = (xs.map fun x => (f x).length).sum := by
  induction xs with
  | nil => simp
  | cons x rest ih => simp [List.flatMap_cons, ih]

theorem sendToAPNS_ios_length (libs : Libs) (data : Notification) (devices : List Device)
    (variants : List VariantConfig) :
    (variants.flatMap (sendToVariant libs data (setDeviceType "ios" devices))).length =
      (devices.map fun d =>
        (variants.filter (matchesAppIdentifier d.appIdentifier)).length).sum := by
  rw [flatMap_length]
  have h : ∀ V, (sendToVariant libs data (setDeviceType "ios" devices) V).length =
      (devices.filter fun d => matchesAppIdentifier d.appIdentifier V).length := by
    intro V
    rw [sendToVariant_eq, sendToSNS_length, filter_setDeviceType]
    simp [setDeviceType]
  simp only [h]
  exact sum_length_filter_swap (fun V d => matchesAppIdentifier d.appIdentifier V)
    variants devices

theorem callSender_ok (pushConfig : PushConfig) (a : Adapter) (libs : Libs)
    (data : Notification) (pushType : String) (devices : List Device)
    (ha : SNSPushAdapter pushConfig = .ok a) (hk : pushType ∈ a.availablePushTypes) :
    ∃ ps, callSender a libs data pushType devices = .ok ps ∧
      ps.length = (devices.map fun d => resultsPerInstallation a pushType d.appIdentifier).sum := by
  obtain ⟨h1, h2, h3, h4⟩ := SNSPushAdapter_ok pushConfig a ha
  have hs := h4 pushType hk
  have hv := h2 pushType hk
  rw [h1] at hk
  cases hpt : pushConfig.pushTypes with
  | none => simp [hpt] at hk
  | some config =>
    simp only [hpt, Option.getD_some] at hk
    obtain ⟨c, hc⟩ := lookupOwn_isSome_of_mem config pushType hk
    have hsns : a.snsConfig = some config := by rw [h3, hpt]
    simp only [validPushTypes, List.mem_cons, List.mem_singleton, List.not_mem_nil,
      or_false] at hv
    unfold callSender
    rw [hs]
    rcases hv with rfl | rfl | rfl
    · refine ⟨(iosConfigs c).flatMap (sendToVariant libs data (setDeviceType "ios" devices)),
        ?_, ?_⟩
      · simp [senderFor, sendToAPNS, readConfig, hsns, hc]
      · rw [sendToAPNS_ios_length]
        simp [resultsPerInstallation, iosVariants, hsns, hc]
    · refine ⟨sendToSNS (generateGCMPayload libs data none none) (setDeviceType "gcm" devices)
        (match c with | .single config => config.ARN | .many _ => none), ?_, ?_⟩
      · cases c <;> simp [senderFor, sendToGCM, platformArn, readConfig, hsns, hc]
      · simp [sendToSNS_length, setDeviceType, resultsPerInstallation]
    · refine ⟨sendToSNS (generateADMPayload data) (setDeviceType "adm" devices)
        (match c with | .single config => config.ARN | .many _ => none), ?_, ?_⟩
      · cases c <;> simp [senderFor, sendToADM, platformArn, readConfig, hsns, hc]
      · simp [sendToSNS_length, setDeviceType, resultsPerInstallation]
/-! ## Lemmas on the collection of promises -/

theorem arrayIndex_validPushTypes (k : String) (h : k ∈ validPushTypes) :
    arrayIndex? k = none := by
  simp only [validPushTypes, List.mem_cons, List.mem_singleton, List.not_mem_nil,
    or_false] at h
  rcases h with rfl | rfl | rfl <;> decide

theorem keys_eq_own (m : DeviceMap) (h : ∀ k ∈ m.own.map Prod.fst, arrayIndex? k = none) :
    m.keys = m.own.map Prod.fst := by
  unfold DeviceMap.keys
  have h1 : (m.own.map Prod.fst).filter (fun k => (arrayIndex? k).isSome) = [] := by
    rw [List.filter_eq_nil_iff]
    intro k hk
    simp [h k hk]
  have h2 : (m.own.map Prod.fst).filter (fun k => (arrayIndex? k).isNone) =
      m.own.map Prod.fst := by
    rw [List.filter_eq_self]
    intro k hk
    simp [h k hk]
  simp only [h1, h2, List.insertionSort, List.nil_append]

theorem proto_notMem_validPushTypes : "__proto__" ∉ validPushTypes := by decide

/-- The device map `send` builds for a constructed adapter: its keys are the
configured platforms and each bucket holds the matching installations. -/
theorem classify_of_adapter (pushConfig : PushConfig) (a : Adapter)
    (installations : List Installation) (m : DeviceMap)
    (ha : SNSPushAdapter pushConfig = .ok a)
    (hm : classifyInstallations installations a.availablePushTypes = .ok m) :
    m.keys.Nodup ∧ (∀ k, k ∈ m.keys ↔ k ∈ a.availablePushTypes) ∧
      (∀ k ∈ m.keys, lookupOwn m.own k = some (expectedBucket installations k)) ∧
      (a.availablePushTypes.Nodup → m.keys = a.availablePushTypes) := by
  obtain ⟨_, h2, _, _⟩ := SNSPushAdapter_ok pushConfig a ha
  have hproto : "__proto__" ∉ a.availablePushTypes :=
    fun h => proto_notMem_validPushTypes (h2 _ h)
  have hown := (classifyLoop_own installations _ m hm).1
  have hmem : ∀ k, k ∈ m.own.map Prod.fst ↔ k ∈ a.availablePushTypes := by
    intro k
    rw [hown, initDeviceMap_mem]
    exact ⟨fun h => h.1, fun h => ⟨h, fun e => hproto (e ▸ h)⟩⟩
  have hkeys : m.keys = m.own.map Prod.fst :=
    keys_eq_own m (fun k hk => arrayIndex_validPushTypes k (h2 k ((hmem k).mp hk)))
  refine ⟨?_, ?_, ?_, ?_⟩
  · rw [hkeys, hown]
    exact initDeviceMap_nodup _
  · intro k
    rw [hkeys]
    exact hmem k
  · intro k hk
    rw [hkeys] at hk
    have hb := classifyInstallations_bucket installations a.availablePushTypes m k
      ((hmem k).mp hk) hm
    obtain ⟨v, hv⟩ := lookupOwn_isSome_of_mem m.own k hk
    rw [bucket_eq, hv] at hb
    rw [hv]
    exact hb
  · intro hnd
    rw [hkeys, hown]
    unfold initDeviceMap
    rw [foldl_assign_keys a.availablePushTypes {} hnd hproto (by simp)]
    simp

theorem collectPromises_length (pushConfig : PushConfig) (a : Adapter) (libs : Libs)
    (data : Notification) (m : DeviceMap) (ks : List String) (acc : List SendPromise)
    (ha : SNSPushAdapter pushConfig = .ok a) (hk : ∀ k ∈ ks, k ∈ a.availablePushTypes) :
    (collectPromises a libs data m ks acc).2 = none ∧
      (collectPromises a libs data m ks acc).1.length = acc.length +
        (ks.map fun k => (((lookupOwn m.own k).getD []).map fun d =>
          resultsPerInstallation a k d.appIdentifier).sum).sum := by
  induction ks generalizing acc with
  | nil => simp [collectPromises]
  | cons k rest ih =>
    have hrest : ∀ k ∈ rest, k ∈ a.availablePushTypes :=
      fun k hk1 => hk k (List.mem_cons_of_mem _ hk1)
    unfold collectPromises
    by_cases hlen : ((lookupOwn m.own k).getD []).length > 0
    · obtain ⟨ps, hps, hl⟩ := callSender_ok pushConfig a libs data k
        ((lookupOwn m.own k).getD []) ha (hk k (List.mem_cons_self _ _))
      simp only [hlen, if_true, hps]
      obtain ⟨h1, h2⟩ := ih (acc ++ ps) hrest
      refine ⟨h1, ?_⟩
      rw [h2, List.length_append, hl]
      simp [Nat.add_assoc]
    · have h0 : (lookupOwn m.own k).getD [] = [] := by
        apply List.eq_nil_of_length_eq_zero
        omega
      simp only [hlen, if_false]
      obtain ⟨h1, h2⟩ := ih acc hrest
      refine ⟨h1, ?_⟩
      rw [h2]
      simp [h0]

theorem sum_contribution (w : String → Option String → Nat) (i : Installation)
    (ks : List String) (hnd : ks.Nodup) :
    (ks.map fun k => ((contribution i k).map fun d => w k d.appIdentifier).sum).sum =
      if truthy i.deviceToken && decide (i.platformKey ∈ ks) then
        w i.platformKey i.appIdentifier else 0 := by
  induction ks with
  | nil => simp
  | cons k rest ih =>
    obtain ⟨hk, hrest⟩ := List.nodup_cons.mp hnd
    simp only [List.map_cons, List.sum_cons, ih hrest]
    by_cases ht : truthy i.deviceToken = true
    · by_cases h1 : i.platformKey = k
      · have h2 : i.platformKey ∉ rest := by rw [h1]; exact hk
        simp [contribution, ht, h1, Installation.toDevice, hk]
      · by_cases h2 : i.platformKey ∈ rest
        · simp [contribution, ht, h1, h2]
        · simp [contribution, ht, h1, h2]
    · simp [contribution, ht]

theorem sum_expectedBucket (w : String → Option String → Nat)
    (installations : List Installation) (ks : List String) (hnd : ks.Nodup) :
    (ks.map fun k => ((expectedBucket installations k).map fun d =>
        w k d.appIdentifier).sum).sum =
      ((installations.filter fun i =>
          truthy i.deviceToken && decide (i.platformKey ∈ ks)).map
        fun i => w i.platformKey i.appIdentifier).sum := by
  induction installations with
  | nil => simp [expectedBucket]
  | cons i rest ih =>
    simp only [expectedBucket_cons, List.map_append, List.sum_append, List.sum_map_add,
      sum_contribution w i ks hnd, ih]
    by_cases h : (truthy i.deviceToken && decide (i.platformKey ∈ ks)) = true
    · simp [List.filter_cons, h]
    · simp [List.filter_cons, h]

/-- The number of promises `send` collects for a constructed adapter. -/
theorem collected_length (pushConfig : PushConfig) (a : Adapter) (libs : Libs)
    (data : Notification) (installations : List Installation) (m : DeviceMap)
    (ha : SNSPushAdapter pushConfig = .ok a)
    (hm : classifyInstallations installations a.availablePushTypes = .ok m) :
    (collectPromises a libs data m m.keys []).2 = none ∧
      (collectPromises a libs data m m.keys []).1.length =
        expectedResultCount a installations := by
  obtain ⟨hnd, hmem, hb, _⟩ := classify_of_adapter pushConfig a installations m ha hm
  obtain ⟨h1, h2⟩ := collectPromises_length pushConfig a libs data m m.keys [] ha
    (fun k hk => (hmem k).mp hk)
  refine ⟨h1, ?_⟩
  rw [h2]
  have hrw : (m.keys.map fun k => (((lookupOwn m.own k).getD []).map fun d =>
        resultsPerInstallation a k d.appIdentifier).sum) =
      (m.keys.map fun k => ((expectedBucket installations k).map fun d =>
        resultsPerInstallation a k d.appIdentifier).sum) := by
    apply List.map_congr_left
    intro k hk
    rw [hb k hk]
    rfl
  rw [hrw, sum_expectedBucket (resultsPerInstallation a) installations m.keys hnd]
  unfold expectedResultCount
  simp only [List.length_nil, Nat.zero_add]
  have hf : (fun i : Installation => truthy i.deviceToken && decide (i.platformKey ∈ m.keys)) =
      (fun i : Installation =>
        truthy i.deviceToken && decide (i.platformKey ∈ a.availablePushTypes)) := by
    funext i
    simp only [hmem]
  rw [hf]
/-! ## Lemmas on the event loop -/

theorem numberFrom_length (start : Nat) (ps : List SendPromise) :
    (numberFrom start ps).length = ps.length := by
  induction ps generalizing start with
  | nil => rfl
  | cons p rest ih => simp [numberFrom, ih]

theorem numberFrom_id_lt (start : Nat) (ps : List SendPromise) (c : Chain)
    (h : c ∈ numberFrom start ps) : c.id < start + ps.length ∧ c.progress = .resolving := by
  induction ps generalizing start with
  | nil => simp [numberFrom] at h
  | cons p rest ih =>
    simp only [numberFrom, List.mem_cons] at h
    rcases h with rfl | h
    · simp
    · obtain ⟨h1, h2⟩ := ih (start + 1) h
      simp only [List.length_cons]
      exact ⟨by omega, h2⟩

theorem callback_id (sns : Gateway) (c : Chain) : (callback sns c).1.id = c.id := by
  unfold callback
  cases c.progress with
  | resolving =>
    simp only
    cases exchangeTokenPromise c.promise.device
      (sns.createPlatformEndpoint c.id (getPlatformArn c.promise.device c.promise.platformArn))
      <;> rfl
  | publishing arn => rfl
  | fulfilled r => rfl
  | rejected r => rfl
  | threw e => rfl

theorem callback_promise (sns : Gateway) (c : Chain) :
    (callback sns c).1.promise = c.promise := by
  unfold callback
  cases c.progress with
  | resolving =>
    simp only
    cases exchangeTokenPromise c.promise.device
      (sns.createPlatformEndpoint c.id (getPlatformArn c.promise.device c.promise.platformArn))
      <;> rfl
  | publishing arn => rfl
  | fulfilled r => rfl
  | rejected r => rfl
  | threw e => rfl

theorem deliver_length (sns : Gateway) (st : Dispatch) (i : Nat) :
    (deliver sns st i).chains.length = st.chains.length := by
  simp [deliver]

theorem runSchedule_length (sns : Gateway) (st : Dispatch) (schedule : List Nat) :
    (runSchedule sns st schedule).chains.length = st.chains.length := by
  induction schedule generalizing st with
  | nil => rfl
  | cons i rest ih => simp only [runSchedule, ih, deliver_length]

theorem allFulfilled_length (cs : List Chain) (rs : List DispatchResult)
    (h : allFulfilled cs = some rs) : rs.length = cs.length := by
  induction cs generalizing rs with
  | nil => simp only [allFulfilled, Option.some.injEq] at h; subst h; rfl
  | cons c rest ih =>
    unfold allFulfilled at h
    cases hp : c.progress with
    | fulfilled r =>
      cases hr : allFulfilled rest with
      | none => simp [hp, hr] at h
      | some rs1 =>
        simp only [hp, hr, Option.some.injEq] at h
        subst h
        simp [ih rs1 hr]
    | resolving => simp [hp] at h
    | publishing arn => simp [hp] at h
    | rejected r => simp [hp] at h
    | threw e => simp [hp] at h

theorem settle_fulfilled (st : Dispatch) (rs : List DispatchResult)
    (h : settle st = .fulfilled rs) : st.rejection = none ∧ allFulfilled st.chains = some rs := by
  unfold settle at h
  cases hr : st.rejection with
  | some r => simp [hr] at h
  | none =>
    cases ha : allFulfilled st.chains with
    | none => simp [hr, ha] at h
    | some rs1 =>
      simp only [hr, ha, Outcome.fulfilled.injEq] at h
      subst h
      exact ⟨rfl, rfl⟩

/-- The progress of a chain after the gateway has called back `n` times. -/
theorem runSchedule_chains (sns : Gateway) (st : Dispatch) (schedule : List Nat) :
    (runSchedule sns st schedule).chains =
      st.chains.map fun c => (fun c => (callback sns c).1)^[schedule.count c.id] c := by
  induction schedule generalizing st with
  | nil => simp [runSchedule]
  | cons i rest ih =>
    simp only [runSchedule, ih, deliver, List.map_map]
    apply List.map_congr_left
    intro c _
    simp only [Function.comp]
    by_cases h : c.id = i
    · subst h
      simp [callback_id, List.count_cons_self, Function.iterate_succ_apply]
    · have h2 : ¬ i = c.id := fun e => h e.symm
      simp [h, List.count_cons_of_ne h2]

theorem callback_of_succeeds (sns : Gateway) (c : Chain)
    (h : ∀ n p, (sns.createPlatformEndpoint n p).succeeds = true) :
    (callback sns c).2.2 = none ∧
      (c.progress = .resolving → ∃ arn, (callback sns c).1.progress = .publishing arn) := by
  unfold callback
  cases hp : c.progress with
  | resolving =>
    simp only
    have hs := h c.id (getPlatformArn c.promise.device c.promise.platformArn)
    unfold CreateResponse.succeeds at hs
    unfold exchangeTokenPromise
    cases herr : (sns.createPlatformEndpoint c.id
        (getPlatformArn c.promise.device c.promise.platformArn)).err with
    | some e => simp [herr] at hs
    | none =>
      cases hdata : (sns.createPlatformEndpoint c.id
          (getPlatformArn c.promise.device c.promise.platformArn)).data with
      | none => simp [herr, hdata] at hs
      | some d =>
        have ht : truthy d.EndpointArn = true := by simpa [herr, hdata] using hs
        simp [ht]
  | publishing arn => simp
  | fulfilled r => simp
  | rejected r => simp
  | threw e => simp

theorem callback_publishing (sns : Gateway) (c : Chain) (arn : String)
    (h : c.progress = .publishing arn) :
    callback sns c =
      ({ c with
          progress := .fulfilled (sendSNSPayload c.promise.device
            (sns.publish c.id (publishRequest arn c.promise.payload))) },
        [], none) := by
  unfold callback
  simp [h]

theorem callback_fulfilled (sns : Gateway) (c : Chain) (r : DispatchResult)
    (h : c.progress = .fulfilled r) : callback sns c = (c, [], none) := by
  unfold callback
  simp [h]

theorem iterate_callback_fulfilled (sns : Gateway) (c : Chain) (r : DispatchResult) (n : Nat)
    (h : c.progress = .fulfilled r) :
    ((fun c => (callback sns c).1)^[n] c) = c := by
  induction n with
  | zero => rfl
  | succ k ih =>
    rw [Function.iterate_succ_apply]
    simp only [callback_fulfilled sns c r h]
    exact ih

theorem iterate_callback_of_succeeds (sns : Gateway) (c : Chain) (n : Nat)
    (h : ∀ n p, (sns.createPlatformEndpoint n p).succeeds = true)
    (hc : c.progress = .resolving) (hn : 2 ≤ n) :
    ∃ r, ((fun c => (callback sns c).1)^[n] c).progress = .fulfilled r := by
  obtain ⟨k, rfl⟩ : ∃ k, n = k + 2 := ⟨n - 2, by omega⟩
  rw [Function.iterate_succ_apply, Function.iterate_succ_apply]
  obtain ⟨arn, harn⟩ := (callback_of_succeeds sns c h).2 hc
  have h2 := callback_publishing sns (callback sns c).1 arn harn
  refine ⟨sendSNSPayload (callback sns c).1.promise.device
    (sns.publish (callback sns c).1.id (publishRequest arn (callback sns c).1.promise.payload)), ?_⟩
  rw [h2]
  rw [iterate_callback_fulfilled sns _ _ k rfl]

theorem deliver_rejection_none (sns : Gateway) (st : Dispatch) (i : Nat)
    (h : ∀ n p, (sns.createPlatformEndpoint n p).succeeds = true)
    (hr : st.rejection = none) : (deliver sns st i).rejection = none := by
  unfold deliver
  simp only [hr]
  have : (List.filterMap (fun c => (callback sns c).2.2)
      (List.filter (fun c => decide (c.id = i)) st.chains)) = [] := by
    rw [List.filterMap_eq_nil_iff]
    intro c _
    exact (callback_of_succeeds sns c h).1
  simp [this]

theorem runSchedule_rejection_none (sns : Gateway) (st : Dispatch) (schedule : List Nat)
    (h : ∀ n p, (sns.createPlatformEndpoint n p).succeeds = true)
    (hr : st.rejection = none) : (runSchedule sns st schedule).rejection = none := by
  induction schedule generalizing st with
  | nil => exact hr
  | cons i rest ih => exact ih _ (deliver_rejection_none sns st i h hr)

theorem allFulfilled_isSome (cs : List Chain)
    (h : ∀ c ∈ cs, ∃ r, c.progress = .fulfilled r) : ∃ rs, allFulfilled cs = some rs := by
  induction cs with
  | nil => exact ⟨[], rfl⟩
  | cons c rest ih =>
    obtain ⟨r, hr⟩ := h c (List.mem_cons_self _ _)
    obtain ⟨rs, hrs⟩ := ih (fun c hc => h c (List.mem_cons_of_mem _ hc))
    exact ⟨r :: rs, by simp [allFulfilled, hr, hrs]⟩
/-! ## Further lemmas on the classifier -/

theorem mem_keys (m : DeviceMap) (k : String) : k ∈ m.keys ↔ k ∈ m.own.map Prod.fst := by
  unfold DeviceMap.keys
  rw [List.mem_append, (List.perm_insertionSort _ _).mem_iff, List.mem_filter, List.mem_filter]
  constructor
  · rintro (⟨h, _⟩ | ⟨h, _⟩) <;> exact h
  · intro h
    cases hk : arrayIndex? k with
    | none => exact Or.inr ⟨h, by simp [hk]⟩
    | some n => exact Or.inl ⟨h, by simp [hk]⟩

/-- Without the valid platform `__proto__`, the keys of a returned mapping are
the valid platforms, and a platform no record maps to has the empty list. -/
theorem classifyInstallations_keys (installations : List Installation)
    (vps : List String) (m : DeviceMap) (hproto : "__proto__" ∉ vps)
    (hm : classifyInstallations installations vps = .ok m) :
    (∀ k, k ∈ m.keys ↔ k ∈ vps) ∧
      ∀ P ∈ vps, (∀ i ∈ installations, truthy i.deviceToken = true → i.platformKey ≠ P) →
        lookupOwn m.own P = some [] := by
  have hown := (classifyLoop_own installations _ m hm).1
  have hmem : ∀ k, k ∈ m.own.map Prod.fst ↔ k ∈ vps := by
    intro k
    rw [hown, initDeviceMap_mem]
    exact ⟨fun h => h.1, fun h => ⟨h, fun e => hproto (e ▸ h)⟩⟩
  refine ⟨fun k => (mem_keys m k).trans (hmem k), ?_⟩
  intro P hP hnone
  have hb := classifyInstallations_bucket installations vps m P hP hm
  obtain ⟨v, hv⟩ := lookupOwn_isSome_of_mem m.own P ((hmem P).mpr hP)
  rw [bucket_eq, hv] at hb
  simp only [Option.some.injEq] at hb
  rw [hv, hb]
  congr 1
  unfold expectedBucket
  rw [List.map_eq_nil_iff, List.filter_eq_nil_iff]
  intro i hi
  by_cases ht : truthy i.deviceToken = true
  · simp [ht, hnone i hi ht]
  · simp [ht]

/-- A record whose platform key is not a valid platform either makes the
classification throw or leaves it as it is without the record; it throws only
for a record with a token whose key names an inherited property. -/
theorem classifyInstallations_unknownKey (xs ys : List Installation) (r : Installation)
    (vps : List String) (hproto : "__proto__" ∉ vps) (hr : r.platformKey ∉ vps) :
    (classifyInstallations (xs ++ r :: ys) vps = classifyInstallations (xs ++ ys) vps ∨
        ∃ e, classifyInstallations (xs ++ r :: ys) vps = .error e)
      ∧ (truthy r.deviceToken = false ∨ r.platformKey ∉ objectPrototypeKeys →
        classifyInstallations (xs ++ r :: ys) vps = classifyInstallations (xs ++ ys) vps) := by
  unfold classifyInstallations
  rw [classifyLoop_append, classifyLoop_append]
  cases hxs : classifyLoop (initDeviceMap vps) xs with
  | error e => exact ⟨Or.inl rfl, fun _ => rfl⟩
  | ok m1 =>
    obtain ⟨hown, hp⟩ := classifyLoop_own xs _ m1 hxs
    have hp1 : m1.proto = none := by
      rw [initDeviceMap_proto vps hproto] at hp
      cases h : m1.proto with
      | none => rfl
      | some a => simp [h] at hp
    have hk : r.platformKey ∉ m1.own.map Prod.fst := by
      rw [hown, initDeviceMap_mem]
      exact fun h => hr h.1
    simp only [classifyLoop]
    cases hs : classifyStep m1 r with
    | error e =>
      refine ⟨Or.inr ⟨e, rfl⟩, ?_⟩
      intro hsafe
      obtain ⟨m2, h2, _, _⟩ := classifyStep_ok_of_safe m1 r hp1 (by
        intro ht
        rcases hsafe with h | h
        · rw [h] at ht; cases ht
        · exact Or.inr h)
      rw [hs] at h2
      cases h2
    | ok m2 =>
      have := classifyStep_unknownKey m1 m2 r hp1 hk hs
      subst this
      exact ⟨Or.inl rfl, fun _ => rfl⟩
/-! ## Lemmas on the outcome of `send` -/

theorem send_not_rejected (a : Adapter) (libs : Libs) (sns : Gateway) (schedule : List Nat)
    (data : Notification) (installations : List Installation)
    (h : ∀ n p, (sns.createPlatformEndpoint n p).succeeds = true) (reason : Rejection) :
    (send a libs sns schedule data installations).outcome ≠ .rejected reason := by
  unfold send
  cases hm : classifyInstallations installations a.availablePushTypes with
  | error e => simp
  | ok m =>
    simp only
    cases hc : (collectPromises a libs data m m.keys []).2 with
    | some e => simp
    | none =>
      simp only
      unfold settle
      rw [runSchedule_rejection_none sns _ schedule h rfl]
      simp only
      cases allFulfilled (runSchedule sns _ schedule).chains <;> simp

theorem send_fulfilled_length (pushConfig : PushConfig) (a : Adapter) (libs : Libs)
    (sns : Gateway) (schedule : List Nat) (data : Notification)
    (installations : List Installation) (results : List DispatchResult)
    (ha : SNSPushAdapter pushConfig = .ok a)
    (h : (send a libs sns schedule data installations).outcome = .fulfilled results) :
    results.length = expectedResultCount a installations := by
  unfold send at h
  cases hm : classifyInstallations installations a.availablePushTypes with
  | error e => simp [hm] at h
  | ok m =>
    simp only [hm] at h
    obtain ⟨hc1, hc2⟩ := collected_length pushConfig a libs data installations m ha hm
    simp only [hc1] at h
    obtain ⟨_, hall⟩ := settle_fulfilled _ results h
    rw [allFulfilled_length _ _ hall, runSchedule_length, numberFrom_length, hc2]

theorem send_fulfilled_of_complete (pushConfig : PushConfig) (a : Adapter) (libs : Libs)
    (sns : Gateway) (schedule : List Nat) (data : Notification)
    (installations : List Installation) (m : DeviceMap)
    (ha : SNSPushAdapter pushConfig = .ok a)
    (hm : classifyInstallations installations a.availablePushTypes = .ok m)
    (hres : ∀ n p, (sns.createPlatformEndpoint n p).succeeds = true)
    (hsched : ∀ n < expectedResultCount a installations, 2 ≤ schedule.count n) :
    ∃ results, (send a libs sns schedule data installations).outcome = .fulfilled results := by
  unfold send
  simp only [hm]
  obtain ⟨hc1, hc2⟩ := collected_length pushConfig a libs data installations m ha hm
  simp only [hc1]
  unfold settle
  rw [runSchedule_rejection_none sns _ schedule hres rfl]
  simp only
  have hall : ∃ rs, allFulfilled (runSchedule sns
      { chains := numberFrom 0 (collectPromises a libs data m m.keys []).1
        calls := (numberFrom 0 (collectPromises a libs data m m.keys []).1).map createCall
        rejection := none } schedule).chains = some rs := by
    apply allFulfilled_isSome
    intro c hc
    rw [runSchedule_chains] at hc
    simp only [List.mem_map] at hc
    obtain ⟨c0, hc0, rfl⟩ := hc
    obtain ⟨hid, hprog⟩ := numberFrom_id_lt 0 _ c0 hc0
    rw [hc2, Nat.zero_add] at hid
    exact iterate_callback_of_succeeds sns c0 _ hres hprog (hsched c0.id hid)
  obtain ⟨rs, hrs⟩ := hall
  exact ⟨rs, by rw [hrs]⟩
/-! ## Lemmas on a failing resolution -/

theorem allFulfilled_mem (cs : List Chain) (rs : List DispatchResult)
    (h : allFulfilled cs = some rs) : ∀ c ∈ cs, ∃ r, c.progress = .fulfilled r := by
  induction cs generalizing rs with
  | nil => simp
  | cons c rest ih =>
    unfold allFulfilled at h
    cases hp : c.progress with
    | fulfilled r =>
      cases hr : allFulfilled rest with
      | none => simp [hp, hr] at h
      | some rs1 =>
        intro c1 hc1
        rcases List.mem_cons.mp hc1 with rfl | hc1
        · exact ⟨r, hp⟩
        · exact ih rs1 hr c1 hc1
    | resolving => simp [hp] at h
    | publishing arn => simp [hp] at h
    | rejected r => simp [hp] at h
    | threw e => simp [hp] at h

theorem iterate_callback_rejected (sns : Gateway) (c : Chain) (reason : Rejection) (n : Nat)
    (h : c.progress = .rejected reason) :
    ((fun c => (callback sns c).1)^[n] c) = c := by
  induction n with
  | zero => rfl
  | succ k ih =>
    rw [Function.iterate_succ_apply]
    have : callback sns c = (c, [], none) := by
      unfold callback
      simp [h]
    simp only [this]
    exact ih

/-- A chain whose endpoint resolution returns an error is never fulfilled: it
waits for the gateway, then stays rejected. -/
theorem iterate_callback_of_failure (sns : Gateway) (c : Chain) (n : Nat) (err : GatewayError)
    (hc : c.progress = .resolving)
    (hf : (sns.createPlatformEndpoint c.id
      (getPlatformArn c.promise.device c.promise.platformArn)).err = some err) :
    ((fun c => (callback sns c).1)^[n] c).progress = .resolving ∨
      ((fun c => (callback sns c).1)^[n] c).progress =
        .rejected { device := c.promise.device, transmitted := false } := by
  cases n with
  | zero => exact Or.inl hc
  | succ k =>
    right
    rw [Function.iterate_succ_apply]
    have h1 : (callback sns c).1 =
        { c with progress := .rejected { device := c.promise.device, transmitted := false } } := by
      unfold callback
      simp [hc, exchangeTokenPromise, hf]
    rw [h1, iterate_callback_rejected sns _ _ k rfl]
/-! ## Lemmas on the devices of the results -/

theorem callSender_devices (pushConfig : PushConfig) (a : Adapter) (libs : Libs)
    (data : Notification) (pushType : String) (devices : List Device)
    (ps : List SendPromise)
    (ha : SNSPushAdapter pushConfig = .ok a) (hk : pushType ∈ a.availablePushTypes)
    (hps : callSender a libs data pushType devices = .ok ps) :
    ∀ p ∈ ps, ∃ d ∈ devices, p.device = { d with deviceType := some pushType } := by
  obtain ⟨h1, h2, h3, h4⟩ := SNSPushAdapter_ok pushConfig a ha
  have hs := h4 pushType hk
  have hv := h2 pushType hk
  rw [h1] at hk
  cases hpt : pushConfig.pushTypes with
  | none => simp [hpt] at hk
  | some config =>
    simp only [hpt, Option.getD_some] at hk
    obtain ⟨c, hc⟩ := lookupOwn_isSome_of_mem config pushType hk
    have hsns : a.snsConfig = some config := by rw [h3, hpt]
    simp only [validPushTypes, List.mem_cons, List.mem_singleton, List.not_mem_nil,
      or_false] at hv
    unfold callSender at hps
    rw [hs] at hps
    rcases hv with rfl | rfl | rfl
    · simp only [senderFor, if_true, sendToAPNS, readConfig, hsns, hc, Except.ok.injEq] at hps
      subst hps
      intro p hp
      simp only [List.mem_flatMap] at hp
      obtain ⟨V, _, hp⟩ := hp
      rw [sendToVariant_eq, filter_setDeviceType] at hp
      simp only [sendToSNS, setDeviceType, List.mem_map, List.mem_filter] at hp
      obtain ⟨d1, ⟨d, ⟨hd, _⟩, rfl⟩, rfl⟩ := hp
      exact ⟨d, hd, rfl⟩
    · have hps2 : ps = sendToSNS (generateGCMPayload libs data none none)
          (setDeviceType "gcm" devices)
          (match c with | .single config => config.ARN | .many _ => none) := by
        cases c <;>
          simp [senderFor, sendToGCM, platformArn, readConfig, hsns, hc] at hps <;>
          exact hps.symm
      subst hps2
      intro p hp
      simp only [sendToSNS, setDeviceType, List.mem_map] at hp
      obtain ⟨d1, ⟨d, hd, rfl⟩, rfl⟩ := hp
      exact ⟨d, hd, rfl⟩
    · have hps2 : ps = sendToSNS (generateADMPayload data)
          (setDeviceType "adm" devices)
          (match c with | .single config => config.ARN | .many _ => none) := by
        cases c <;>
          simp [senderFor, sendToADM, platformArn, readConfig, hsns, hc] at hps <;>
          exact hps.symm
      subst hps2
      intro p hp
      simp only [sendToSNS, setDeviceType, List.mem_map] at hp
      obtain ⟨d1, ⟨d, hd, rfl⟩, rfl⟩ := hp
      exact ⟨d, hd, rfl⟩

theorem collectPromises_devices (pushConfig : PushConfig) (a : Adapter) (libs : Libs)
    (data : Notification) (m : DeviceMap) (ks : List String) (acc : List SendPromise)
    (ha : SNSPushAdapter pushConfig = .ok a) (hk : ∀ k ∈ ks, k ∈ a.availablePushTypes) :
    ∀ p ∈ (collectPromises a libs data m ks acc).1, p ∈ acc ∨
      ∃ k ∈ ks, ∃ d ∈ (lookupOwn m.own k).getD [], p.device = { d with deviceType := some k } := by
  induction ks generalizing acc with
  | nil => intro p hp; exact Or.inl (by simpa [collectPromises] using hp)
  | cons k rest ih =>
    have hrest : ∀ k ∈ rest, k ∈ a.availablePushTypes :=
      fun k hk1 => hk k (List.mem_cons_of_mem _ hk1)
    intro p hp
    unfold collectPromises at hp
    by_cases hlen : ((lookupOwn m.own k).getD []).length > 0
    · obtain ⟨ps, hps, _⟩ := callSender_ok pushConfig a libs data k
        ((lookupOwn m.own k).getD []) ha (hk k (List.mem_cons_self _ _))
      simp only [hlen, if_true, hps] at hp
      rcases ih (acc ++ ps) hrest p hp with h | ⟨k1, hk1, d, hd, hpd⟩
      · rcases List.mem_append.mp h with h | h
        · exact Or.inl h
        · obtain ⟨d, hd, hpd⟩ := callSender_devices pushConfig a libs data k _ ps ha
            (hk k (List.mem_cons_self _ _)) hps p h
          exact Or.inr ⟨k, List.mem_cons_self _ _, d, hd, hpd⟩
      · exact Or.inr ⟨k1, List.mem_cons_of_mem _ hk1, d, hd, hpd⟩
    · simp only [hlen, if_false] at hp
      rcases ih acc hrest p hp with h | ⟨k1, hk1, d, hd, hpd⟩
      · exact Or.inl h
      · exact Or.inr ⟨k1, List.mem_cons_of_mem _ hk1, d, hd, hpd⟩

/-- Every promise `send` collects belongs to an installation with a token and
a configured platform key, and carries that key as `deviceType`. -/
theorem collected_devices (pushConfig : PushConfig) (a : Adapter) (libs : Libs)
    (data : Notification) (installations : List Installation) (m : DeviceMap)
    (ha : SNSPushAdapter pushConfig = .ok a)
    (hm : classifyInstallations installations a.availablePushTypes = .ok m) :
    ∀ p ∈ (collectPromises a libs data m m.keys []).1,
      ∃ i ∈ installations, truthy i.deviceToken = true ∧
        i.platformKey ∈ a.availablePushTypes ∧
        p.device = { deviceToken := i.deviceToken.getD "", appIdentifier := i.appIdentifier,
                     deviceType := some i.platformKey } := by
  obtain ⟨_, hmem, hb, _⟩ := classify_of_adapter pushConfig a installations m ha hm
  intro p hp
  rcases collectPromises_devices pushConfig a libs data m m.keys [] ha
      (fun k hk => (hmem k).mp hk) p hp with h | ⟨k, hk, d, hd, hpd⟩
  · simp at h
  · rw [hb k hk] at hd
    simp only [Option.getD_some, expectedBucket, List.mem_map, List.mem_filter,
      Bool.and_eq_true, decide_eq_true_eq] at hd
    obtain ⟨i, ⟨hi, ht, hkey⟩, rfl⟩ := hd
    refine ⟨i, hi, ht, ?_, ?_⟩
    · rw [hkey]; exact (hmem k).mp hk
    · rw [hpd, hkey]; rfl

theorem numberFrom_promise (start : Nat) (ps : List SendPromise) (c : Chain)
    (h : c ∈ numberFrom start ps) : c.promise ∈ ps := by
  induction ps generalizing start with
  | nil => simp [numberFrom] at h
  | cons p rest ih =>
    simp only [numberFrom, List.mem_cons] at h
    rcases h with rfl | h
    · exact List.mem_cons_self _ _
    · exact List.mem_cons_of_mem _ (ih (start + 1) h)

theorem callback_reportsOwnDevice (sns : Gateway) (c : Chain) (h : c.reportsOwnDevice) :
    (callback sns c).1.reportsOwnDevice := by
  unfold callback
  cases hp : c.progress with
  | resolving =>
    simp only
    cases exchangeTokenPromise c.promise.device
      (sns.createPlatformEndpoint c.id (getPlatformArn c.promise.device c.promise.platformArn))
      <;> (intro r hr; simp at hr)
  | publishing arn =>
    intro r hr
    simp only [Progress.fulfilled.injEq] at hr
    subst hr
    unfold sendSNSPayload
    cases (sns.publish c.id (publishRequest arn c.promise.payload)).err <;> rfl
  | fulfilled r => exact h
  | rejected r => exact h
  | threw e => exact h

theorem iterate_reportsOwnDevice (sns : Gateway) (c : Chain) (n : Nat)
    (h : c.reportsOwnDevice) :
    ((fun c => (callback sns c).1)^[n] c).reportsOwnDevice ∧
      ((fun c => (callback sns c).1)^[n] c).promise = c.promise := by
  induction n generalizing c with
  | zero => exact ⟨h, rfl⟩
  | succ k ih =>
    rw [Function.iterate_succ_apply]
    obtain ⟨h1, h2⟩ := ih (callback sns c).1 (callback_reportsOwnDevice sns c h)
    exact ⟨h1, h2.trans (callback_promise sns c)⟩

theorem allFulfilled_results (cs : List Chain) (rs : List DispatchResult)
    (h : allFulfilled cs = some rs) : ∀ r ∈ rs, ∃ c ∈ cs, c.progress = .fulfilled r := by
  induction cs generalizing rs with
  | nil =>
    simp only [allFulfilled, Option.some.injEq] at h
    subst h
    simp
  | cons c rest ih =>
    unfold allFulfilled at h
    cases hp : c.progress with
    | fulfilled r0 =>
      cases hr : allFulfilled rest with
      | none => simp [hp, hr] at h
      | some rs1 =>
        simp only [hp, hr, Option.some.injEq] at h
        subst h
        intro r hr1
        rcases List.mem_cons.mp hr1 with rfl | hr1
        · exact ⟨c, List.mem_cons_self _ _, hp⟩
        · obtain ⟨c1, hc1, hc2⟩ := ih rs1 hr r hr1
          exact ⟨c1, List.mem_cons_of_mem _ hc1, hc2⟩
    | resolving => simp [hp] at h
    | publishing arn => simp [hp] at h
    | rejected r => simp [hp] at h
    | threw e => simp [hp] at h

/-- Every result `send` returns is that of an installation with a token and a
configured platform key, reported with that key as `deviceType`. -/
theorem send_results_devices (pushConfig : PushConfig) (a : Adapter) (libs : Libs)
    (sns : Gateway) (schedule : List Nat) (data : Notification)
    (installations : List Installation) (results : List DispatchResult)
    (ha : SNSPushAdapter pushConfig = .ok a)
    (h : (send a libs sns schedule data installations).outcome = .fulfilled results) :
    ∀ r ∈ results, ∃ i ∈ installations, truthy i.deviceToken = true ∧
      i.platformKey ∈ a.availablePushTypes ∧
      r.device = { deviceType := some i.platformKey, deviceToken := i.deviceToken.getD "" } := by
  unfold send at h
  cases hm : classifyInstallations installations a.availablePushTypes with
  | error e => simp [hm] at h
  | ok m =>
    simp only [hm] at h
    obtain ⟨hc1, _⟩ := collected_length pushConfig a libs data installations m ha hm
    simp only [hc1] at h
    obtain ⟨_, hall⟩ := settle_fulfilled _ results h
    intro r hr
    obtain ⟨c, hc, hprog⟩ := allFulfilled_results _ _ hall r hr
    rw [runSchedule_chains] at hc
    simp only [List.mem_map] at hc
    obtain ⟨c0, hc0, rfl⟩ := hc
    have hgood : c0.reportsOwnDevice := by
      intro r1 hr1
      rw [(numberFrom_id_lt 0 _ c0 hc0).2] at hr1
      cases hr1
    obtain ⟨h1, h2⟩ := iterate_reportsOwnDevice sns c0 (schedule.count c0.id) hgood
    have hdev := h1 r hprog
    rw [h2] at hdev
    obtain ⟨i, hi, ht, hkey, hpd⟩ := collected_devices pushConfig a libs data installations m
      ha hm c0.promise (numberFrom_promise 0 _ c0 hc0)
    refine ⟨i, hi, ht, hkey, ?_⟩
    rw [hdev, hpd]
/-! ## Lemmas on the dispatch plan -/

theorem sendToVariant_eq_variantSends (libs : Libs) (data : Notification)
    (devices : List Device) (V : VariantConfig) :
    sendToVariant libs data (setDeviceType "ios" devices) V =
      variantSends libs data devices V := by
  rw [sendToVariant_eq, filter_setDeviceType]
  simp [sendToSNS, setDeviceType, variantSends]

theorem callSender_eq (pushConfig : PushConfig) (a : Adapter) (libs : Libs)
    (data : Notification) (pushType : String) (devices : List Device)
    (ha : SNSPushAdapter pushConfig = .ok a) (hk : pushType ∈ a.availablePushTypes) :
    callSender a libs data pushType devices =
      .ok (platformSends a libs data pushType devices) := by
  obtain ⟨h1, h2, h3, h4⟩ := SNSPushAdapter_ok pushConfig a ha
  have hs := h4 pushType hk
  have hv := h2 pushType hk
  rw [h1] at hk
  cases hpt : pushConfig.pushTypes with
  | none => simp [hpt] at hk
  | some config =>
    simp only [hpt, Option.getD_some] at hk
    obtain ⟨c, hc⟩ := lookupOwn_isSome_of_mem config pushType hk
    have hsns : a.snsConfig = some config := by rw [h3, hpt]
    simp only [validPushTypes, List.mem_cons, List.mem_singleton, List.not_mem_nil,
      or_false] at hv
    unfold callSender
    rw [hs]
    rcases hv with rfl | rfl | rfl
    · simp only [senderFor, if_true, sendToAPNS, readConfig, hsns, hc, platformSends,
        iosVariants]
      congr 1
      apply List.flatMap_congr
      intro V _
      exact sendToVariant_eq_variantSends libs data devices V
    · cases c <;>
        simp [senderFor, sendToGCM, platformArn, readConfig, hsns, hc, platformSends,
          configuredArn, sendToSNS, setDeviceType]
    · cases c <;>
        simp [senderFor, sendToADM, platformArn, readConfig, hsns, hc, platformSends,
          configuredArn, sendToSNS, setDeviceType]

theorem platformSends_nil (a : Adapter) (libs : Libs) (data : Notification)
    (pushType : String) : platformSends a libs data pushType [] = [] := by
  unfold platformSends
  split_ifs <;> simp [variantSends]

theorem collectPromises_eq (pushConfig : PushConfig) (a : Adapter) (libs : Libs)
    (data : Notification) (m : DeviceMap) (ks : List String) (acc : List SendPromise)
    (ha : SNSPushAdapter pushConfig = .ok a) (hk : ∀ k ∈ ks, k ∈ a.availablePushTypes) :
    collectPromises a libs data m ks acc =
      (acc ++ ks.flatMap fun k =>
        platformSends a libs data k ((lookupOwn m.own k).getD []), none) := by
  induction ks generalizing acc with
  | nil => simp [collectPromises]
  | cons k rest ih =>
    have hrest : ∀ k ∈ rest, k ∈ a.availablePushTypes :=
      fun k hk1 => hk k (List.mem_cons_of_mem _ hk1)
    unfold collectPromises
    by_cases hlen : ((lookupOwn m.own k).getD []).length > 0
    · simp only [hlen, if_true,
        callSender_eq pushConfig a libs data k _ ha (hk k (List.mem_cons_self _ _))]
      rw [ih _ hrest]
      simp [List.flatMap_cons]
    · have h0 : (lookupOwn m.own k).getD [] = [] := by
        apply List.eq_nil_of_length_eq_zero
        omega
      simp only [hlen, if_false]
      rw [ih _ hrest]
      simp [List.flatMap_cons, h0, platformSends_nil]

/-- The promises `send` collects, for an adapter built from a configuration
with distinct keys, are the dispatch plan. -/
theorem collected_eq_plan (pushConfig : PushConfig) (a : Adapter) (libs : Libs)
    (data : Notification) (installations : List Installation) (m : DeviceMap)
    (ha : SNSPushAdapter pushConfig = .ok a)
    (hnd : ((pushConfig.pushTypes.getD []).map Prod.fst).Nodup)
    (hm : classifyInstallations installations a.availablePushTypes = .ok m) :
    collectPromises a libs data m m.keys [] =
      (dispatchPlan a libs data installations, none) := by
  obtain ⟨_, hmem, hb, hkeys⟩ := classify_of_adapter pushConfig a installations m ha hm
  obtain ⟨h1, _, _, _⟩ := SNSPushAdapter_ok pushConfig a ha
  rw [collectPromises_eq pushConfig a libs data m m.keys [] ha (fun k hk => (hmem k).mp hk)]
  simp only [List.nil_append, dispatchPlan]
  congr 1
  rw [← hkeys (by rw [h1]; exact hnd)]
  apply List.flatMap_congr
  intro k hk
  rw [hb k hk]
  rfl
/-! ## Lemmas on the results of the chains -/

theorem numberFrom_map_promise (start : Nat) (ps : List SendPromise) :
    (numberFrom start ps).map (fun c => c.promise) = ps := by
  induction ps generalizing start with
  | nil => rfl
  | cons p rest ih => simp [numberFrom, ih]

theorem numberFrom_getElem (start : Nat) (ps : List SendPromise) (c : Chain)
    (h : c ∈ numberFrom start ps) :
    start ≤ c.id ∧ ps[c.id - start]? = some c.promise := by
  induction ps generalizing start with
  | nil => simp [numberFrom] at h
  | cons p rest ih =>
    simp only [numberFrom, List.mem_cons] at h
    rcases h with rfl | h
    · simp
    · obtain ⟨h1, h2⟩ := ih (start + 1) h
      refine ⟨by omega, ?_⟩
      have : c.id - start = (c.id - (start + 1)) + 1 := by omega
      rw [this, List.getElem?_cons_succ]
      exact h2

theorem numberFrom_mem_of_getElem (start : Nat) (ps : List SendPromise) (i : Nat)
    (p : SendPromise) (h : ps[i]? = some p) :
    { id := start + i, promise := p, progress := .resolving } ∈ numberFrom start ps := by
  induction ps generalizing start i with
  | nil => simp at h
  | cons q rest ih =>
    cases i with
    | zero =>
      simp only [List.getElem?_cons_zero, Option.some.injEq] at h
      subst h
      simp [numberFrom]
    | succ j =>
      simp only [List.getElem?_cons_succ] at h
      have := ih (start + 1) j h
      simp only [numberFrom, List.mem_cons]
      right
      have he : start + (j + 1) = start + 1 + j := by omega
      rw [he]
      exact this

theorem callback_threw (sns : Gateway) (c : Chain) (e : JSError)
    (h : c.progress = .threw e) : callback sns c = (c, [], none) := by
  unfold callback
  simp [h]

theorem iterate_callback_threw (sns : Gateway) (c : Chain) (e : JSError) (n : Nat)
    (h : c.progress = .threw e) :
    ((fun c => (callback sns c).1)^[n] c) = c := by
  induction n with
  | zero => rfl
  | succ k ih =>
    rw [Function.iterate_succ_apply]
    simp only [callback_threw sns c e h]
    exact ih

theorem exchangeTokenPromise_resolved (device : Device) (response : CreateResponse)
    (x : Exchange) (h : exchangeTokenPromise device response = .resolved x) :
    response.succeeds = true ∧ x.device = device ∧ x.arn = response.endpointArn := by
  unfold exchangeTokenPromise at h
  cases herr : response.err with
  | some e => simp [herr] at h
  | none =>
    cases hdata : response.data with
    | none => simp [herr, hdata] at h
    | some d =>
      simp only [herr, hdata] at h
      by_cases ht : truthy d.EndpointArn = true
      · simp only [ht, if_true, Settled.resolved.injEq] at h
        subst h
        simp [CreateResponse.succeeds, CreateResponse.endpointArn, herr, hdata, ht]
      · simp [ht] at h

theorem exchangeTokenPromise_of_succeeds (device : Device) (response : CreateResponse)
    (h : response.succeeds = true) :
    exchangeTokenPromise device response =
      .resolved { device := device, arn := response.endpointArn } := by
  unfold CreateResponse.succeeds at h
  unfold exchangeTokenPromise CreateResponse.endpointArn
  cases herr : response.err with
  | some e => simp [herr] at h
  | none =>
    cases hdata : response.data with
    | none => simp [herr, hdata] at h
    | some d =>
      have ht : truthy d.EndpointArn = true := by simpa [herr, hdata] using h
      simp [ht]

/-- The progress of a chain that waits for its endpoint, after `n` callbacks:
it publishes after the first and is fulfilled after the second when the
resolution succeeds, and otherwise never gets further than its rejection or
the exception of its callback. -/
theorem iterate_callback_resolving (sns : Gateway) (c : Chain) (n : Nat)
    (hc : c.progress = .resolving) :
    ((fun c => (callback sns c).1)^[n] c).progress =
      if n = 0 then .resolving
      else
        match exchangeTokenPromise c.promise.device
            (sns.createPlatformEndpoint c.id
              (getPlatformArn c.promise.device c.promise.platformArn)) with
        | .resolved x =>
          if n = 1 then .publishing x.arn
          else .fulfilled (sendSNSPayload c.promise.device
            (sns.publish c.id (publishRequest x.arn c.promise.payload)))
        | .rejected reason => .rejected reason
        | .threw e => .threw e := by
  cases n with
  | zero => simp [hc]
  | succ k =>
    rw [Function.iterate_succ_apply]
    simp only [Nat.succ_ne_zero, if_false]
    cases hx : exchangeTokenPromise c.promise.device
        (sns.createPlatformEndpoint c.id
          (getPlatformArn c.promise.device c.promise.platformArn)) with
    | resolved x =>
      have h1 : (callback sns c).1 = { c with progress := .publishing x.arn } := by
        unfold callback
        simp [hc, hx]
      rw [h1]
      cases k with
      | zero => simp
      | succ j =>
        rw [Function.iterate_succ_apply]
        rw [callback_publishing sns { c with progress := .publishing x.arn } x.arn rfl]
        simp only
        rw [iterate_callback_fulfilled sns _ _ j rfl]
        simp
    | rejected reason =>
      have h1 : (callback sns c).1 = { c with progress := .rejected reason } := by
        unfold callback
        simp [hc, hx]
      rw [h1, iterate_callback_rejected sns _ reason k rfl]
    | threw e =>
      have h1 : (callback sns c).1 = { c with progress := .threw e } := by
        unfold callback
        simp [hc, hx]
      rw [h1, iterate_callback_threw sns _ e k rfl]

theorem iterate_fulfilled_eq (sns : Gateway) (c : Chain) (n : Nat) (r : DispatchResult)
    (hc : c.progress = .resolving)
    (h : ((fun c => (callback sns c).1)^[n] c).progress = .fulfilled r) :
    r = expectedResult sns c := by
  rw [iterate_callback_resolving sns c n hc] at h
  by_cases h0 : n = 0
  · simp [h0] at h
  · simp only [h0, if_false] at h
    cases hx : exchangeTokenPromise c.promise.device
        (sns.createPlatformEndpoint c.id
          (getPlatformArn c.promise.device c.promise.platformArn)) with
    | resolved x =>
      simp only [hx] at h
      by_cases h1 : n = 1
      · simp [h1] at h
      · simp only [h1, if_false, Progress.fulfilled.injEq] at h
        rw [← h, (exchangeTokenPromise_resolved _ _ x hx).2.2]
        rfl
    | rejected reason => simp [hx] at h
    | threw e => simp [hx] at h

theorem allFulfilled_eq_map (cs : List Chain) (rs : List DispatchResult)
    (f : Chain → DispatchResult)
    (hf : ∀ c ∈ cs, ∀ r, c.progress = .fulfilled r → r = f c)
    (h : allFulfilled cs = some rs) : rs = cs.map f := by
  induction cs generalizing rs with
  | nil =>
    simp only [allFulfilled, Option.some.injEq] at h
    subst h
    rfl
  | cons c rest ih =>
    unfold allFulfilled at h
    cases hp : c.progress with
    | fulfilled r0 =>
      cases hr : allFulfilled rest with
      | none => simp [hp, hr] at h
      | some rs1 =>
        simp only [hp, hr, Option.some.injEq] at h
        subst h
        rw [List.map_cons, ih rs1 (fun c hc => hf c (List.mem_cons_of_mem _ hc)) hr,
          hf c (List.mem_cons_self _ _) r0 hp]
    | resolving => simp [hp] at h
    | publishing arn => simp [hp] at h
    | rejected r => simp [hp] at h
    | threw e => simp [hp] at h

theorem iterate_callback_id (sns : Gateway) (c : Chain) (n : Nat) :
    ((fun c => (callback sns c).1)^[n] c).id = c.id ∧
      ((fun c => (callback sns c).1)^[n] c).promise = c.promise := by
  induction n generalizing c with
  | zero => exact ⟨rfl, rfl⟩
  | succ k ih =>
    rw [Function.iterate_succ_apply]
    obtain ⟨h1, h2⟩ := ih (callback sns c).1
    exact ⟨h1.trans (callback_id sns c), h2.trans (callback_promise sns c)⟩

theorem expectedResult_iterate (sns : Gateway) (c : Chain) (n : Nat) :
    expectedResult sns ((fun c => (callback sns c).1)^[n] c) = expectedResult sns c := by
  obtain ⟨h1, h2⟩ := iterate_callback_id sns c n
  unfold expectedResult
  rw [h1, h2]

/-- The results of a fulfilled dispatch are those of its chains, in the order
of the chains, whatever the schedule. -/
theorem runSchedule_results (sns : Gateway) (chains : List Chain) (calls : List GatewayCall)
    (schedule : List Nat) (rs : List DispatchResult)
    (hres : ∀ c ∈ chains, c.progress = .resolving)
    (h : allFulfilled (runSchedule sns
      { chains := chains, calls := calls, rejection := none } schedule).chains = some rs) :
    rs = chains.map (expectedResult sns) := by
  rw [runSchedule_chains] at h
  have h2 := allFulfilled_eq_map _ rs (expectedResult sns) ?_ h
  · rw [h2, List.map_map]
    apply List.map_congr_left
    intro c _
    exact expectedResult_iterate sns c _
  · intro c1 hc1 r hr
    simp only [List.mem_map] at hc1
    obtain ⟨c0, hc0, rfl⟩ := hc1
    rw [expectedResult_iterate]
    exact iterate_fulfilled_eq sns c0 _ r (hres c0 hc0) hr
/-! ## Lemmas on the requests of a run -/

theorem callback_not_resolving (sns : Gateway) (c : Chain) :
    (callback sns c).1.progress ≠ .resolving := by
  unfold callback
  cases hp : c.progress with
  | resolving =>
    simp only
    cases exchangeTokenPromise c.promise.device
      (sns.createPlatformEndpoint c.id (getPlatformArn c.promise.device c.promise.platformArn))
      <;> simp
  | publishing arn => simp
  | fulfilled r => simp [hp]
  | rejected r => simp [hp]
  | threw e => simp [hp]

theorem callback_calls (sns : Gateway) (c : Chain) (call : GatewayCall)
    (h : call ∈ (callback sns c).2.1) :
    c.progress = .resolving ∧
      (sns.createPlatformEndpoint c.id
        (getPlatformArn c.promise.device c.promise.platformArn)).succeeds = true ∧
      call = .publish c.id (publishRequest
        (sns.createPlatformEndpoint c.id
          (getPlatformArn c.promise.device c.promise.platformArn)).endpointArn
        c.promise.payload) := by
  unfold callback at h
  cases hp : c.progress with
  | resolving =>
    simp only [hp] at h
    cases hx : exchangeTokenPromise c.promise.device
        (sns.createPlatformEndpoint c.id
          (getPlatformArn c.promise.device c.promise.platformArn)) with
    | resolved x =>
      simp only [hx, List.mem_singleton] at h
      obtain ⟨h1, _, h3⟩ := exchangeTokenPromise_resolved _ _ x hx
      exact ⟨rfl, h1, by rw [h, h3]⟩
    | rejected reason => simp [hx] at h
    | threw e => simp [hx] at h
  | publishing arn => simp [hp] at h
  | fulfilled r => simp [hp] at h
  | rejected r => simp [hp] at h
  | threw e => simp [hp] at h

theorem callback_calls_of_succeeds (sns : Gateway) (c : Chain)
    (hc : c.progress = .resolving)
    (hs : (sns.createPlatformEndpoint c.id
      (getPlatformArn c.promise.device c.promise.platformArn)).succeeds = true) :
    (callback sns c).2.1 = [.publish c.id (publishRequest
        (sns.createPlatformEndpoint c.id
          (getPlatformArn c.promise.device c.promise.platformArn)).endpointArn
        c.promise.payload)] := by
  unfold callback
  simp [hc, exchangeTokenPromise_of_succeeds _ _ hs]

theorem runSchedule_calls (sns : Gateway) (st : Dispatch) (schedule : List Nat) :
    ∃ extra, (runSchedule sns st schedule).calls = st.calls ++ extra ∧
      ∀ call ∈ extra, IsPublishOf sns st.chains schedule call := by
  induction schedule generalizing st with
  | nil => exact ⟨[], by simp [runSchedule], by simp⟩
  | cons i rest ih =>
    obtain ⟨extra, h1, h2⟩ := ih (deliver sns st i)
    refine ⟨(st.chains.filter fun c => c.id = i).flatMap (fun c => (callback sns c).2.1)
      ++ extra, ?_, ?_⟩
    · simp only [runSchedule]
      rw [h1]
      simp only [deliver, List.append_assoc]
    · intro call hcall
      rcases List.mem_append.mp hcall with h | h
      · simp only [List.mem_flatMap, List.mem_filter, decide_eq_true_eq] at h
        obtain ⟨c, ⟨hc, hid⟩, hcc⟩ := h
        obtain ⟨hp, hs, he⟩ := callback_calls sns c call hcc
        exact ⟨c, hc, hp, by rw [hid]; exact List.mem_cons_self _ _, hs, he⟩
      · obtain ⟨c1, hc1, hp1, hid1, hs1, he1⟩ := h2 call h
        simp only [deliver, List.mem_map] at hc1
        obtain ⟨c, hc, rfl⟩ := hc1
        by_cases hid : c.id = i
        · simp only [hid, if_true] at hp1
          exact absurd hp1 (callback_not_resolving sns c)
        · simp only [hid, if_false] at hp1 hid1 hs1 he1
          exact ⟨c, hc, hp1, List.mem_cons_of_mem _ hid1, hs1, he1⟩

theorem runSchedule_calls_subset (sns : Gateway) (st : Dispatch) (schedule : List Nat)
    (call : GatewayCall) (h : call ∈ st.calls) : call ∈ (runSchedule sns st schedule).calls := by
  obtain ⟨extra, h1, _⟩ := runSchedule_calls sns st schedule
  rw [h1]
  exact List.mem_append_left _ h

theorem runSchedule_publish_issued (sns : Gateway) (st : Dispatch) (schedule : List Nat)
    (c : Chain) (hc : c ∈ st.chains) (hp : c.progress = .resolving) (hid : c.id ∈ schedule)
    (hs : (sns.createPlatformEndpoint c.id
      (getPlatformArn c.promise.device c.promise.platformArn)).succeeds = true) :
    GatewayCall.publish c.id (publishRequest
        (sns.createPlatformEndpoint c.id
          (getPlatformArn c.promise.device c.promise.platformArn)).endpointArn
        c.promise.payload) ∈ (runSchedule sns st schedule).calls := by
  induction schedule generalizing st with
  | nil => simp at hid
  | cons i rest ih =>
    simp only [runSchedule]
    by_cases hi : c.id = i
    · apply runSchedule_calls_subset
      simp only [deliver, List.mem_append, List.mem_flatMap, List.mem_filter,
        decide_eq_true_eq]
      right
      exact ⟨c, ⟨hc, hi⟩, by rw [callback_calls_of_succeeds sns c hp hs]; simp⟩
    · apply ih
      · simp only [deliver, List.mem_map]
        exact ⟨c, hc, by simp [hi]⟩
      · rcases List.mem_cons.mp hid with h | h
        · exact absurd h hi
        · exact h

theorem createTokens_append (xs ys : List GatewayCall) :
    createTokens (xs ++ ys) = createTokens xs ++ createTokens ys := by
  induction xs with
  | nil => rfl
  | cons x rest ih =>
    cases x with
    | createPlatformEndpoint i p => simp [createTokens, ih]
    | publish i p => simp [createTokens, ih]

theorem createTokens_publishes (xs : List GatewayCall)
    (h : ∀ call ∈ xs, ∃ i p, call = .publish i p) : createTokens xs = [] := by
  induction xs with
  | nil => rfl
  | cons x rest ih =>
    obtain ⟨i, p, hx⟩ := h x (List.mem_cons_self _ _)
    subst hx
    simp only [createTokens]
    exact ih (fun call hc => h call (List.mem_cons_of_mem _ hc))

theorem createTokens_createCalls (chains : List Chain) :
    createTokens (chains.map createCall) = chains.map fun c => c.promise.device.deviceToken := by
  induction chains with
  | nil => rfl
  | cons c rest ih => simp [createCall, createTokens, getPlatformArn, ih]
/-! ## Lemmas on a run of `send` -/

theorem numberFrom_id_inj (start : Nat) (ps : List SendPromise) (c1 c2 : Chain)
    (h1 : c1 ∈ numberFrom start ps) (h2 : c2 ∈ numberFrom start ps) (h : c1.id = c2.id) :
    c1 = c2 := by
  obtain ⟨_, g1⟩ := numberFrom_getElem start ps c1 h1
  obtain ⟨_, g2⟩ := numberFrom_getElem start ps c2 h2
  have p1 := (numberFrom_id_lt start ps c1 h1).2
  have p2 := (numberFrom_id_lt start ps c2 h2).2
  rw [h, g2] at g1
  simp only [Option.some.injEq] at g1
  cases c1
  cases c2
  simp_all

/-- A run of `send` that does not throw is the event loop run from the
promises `send` collected. -/
theorem send_eq_run (a : Adapter) (libs : Libs) (sns : Gateway) (schedule : List Nat)
    (data : Notification) (installations : List Installation) :
    (∃ e, send a libs sns schedule data installations = { calls := [], outcome := .threw e }) ∨
      ∃ promises error,
        (send a libs sns schedule data installations).calls =
            (runSchedule sns (startDispatch promises) schedule).calls ∧
          (send a libs sns schedule data installations).outcome =
            match error with
            | some e => .threw e
            | none => settle (runSchedule sns (startDispatch promises) schedule) := by
  unfold send
  cases hm : classifyInstallations installations a.availablePushTypes with
  | error e => exact Or.inl ⟨e, rfl⟩
  | ok m => exact Or.inr ⟨(collectPromises a libs data m m.keys []).1,
      (collectPromises a libs data m m.keys []).2, rfl, rfl⟩

/-- A run of `send` for an adapter built from a configuration with distinct
keys: when the classification returns, it is the event loop run from the
dispatch plan. -/
theorem send_eq_plan_run (pushConfig : PushConfig) (a : Adapter) (libs : Libs)
    (sns : Gateway) (schedule : List Nat) (data : Notification)
    (installations : List Installation) (m : DeviceMap)
    (ha : SNSPushAdapter pushConfig = .ok a)
    (hnd : ((pushConfig.pushTypes.getD []).map Prod.fst).Nodup)
    (hm : classifyInstallations installations a.availablePushTypes = .ok m) :
    send a libs sns schedule data installations =
      { calls := (runSchedule sns (startDispatch (dispatchPlan a libs data installations))
          schedule).calls
        outcome := settle (runSchedule sns
          (startDispatch (dispatchPlan a libs data installations)) schedule) } := by
  unfold send
  simp only [hm, collected_eq_plan pushConfig a libs data installations m ha hnd hm]
  rfl

theorem expectedResult_device (sns : Gateway) (c : Chain) :
    (expectedResult sns c).device = c.promise.reported := by
  unfold expectedResult sendSNSPayload SendPromise.reported
  cases (sns.publish c.id (publishRequest
    (sns.createPlatformEndpoint c.id
      (getPlatformArn c.promise.device c.promise.platformArn)).endpointArn
    c.promise.payload)).err <;> rfl

theorem startDispatch_results (sns : Gateway) (promises : List SendPromise)
    (schedule : List Nat) (rs : List DispatchResult)
    (h : settle (runSchedule sns (startDispatch promises) schedule) = .fulfilled rs) :
    rs = (numberFrom 0 promises).map (expectedResult sns) ∧
      rs.map (fun r => r.device) = promises.map SendPromise.reported := by
  obtain ⟨_, hall⟩ := settle_fulfilled _ rs h
  have h1 := runSchedule_results sns (numberFrom 0 promises) _ schedule rs
    (fun c hc => (numberFrom_id_lt 0 promises c hc).2) hall
  refine ⟨h1, ?_⟩
  rw [h1, List.map_map]
  have : ((fun r : DispatchResult => r.device) ∘ expectedResult sns) =
      (SendPromise.reported ∘ fun c : Chain => c.promise) := by
    funext c
    exact expectedResult_device sns c
  rw [this, ← List.map_map, numberFrom_map_promise]

theorem startDispatch_createTokens (sns : Gateway) (promises : List SendPromise)
    (schedule : List Nat) :
    createTokens (runSchedule sns (startDispatch promises) schedule).calls =
      promises.map fun p => p.device.deviceToken := by
  obtain ⟨extra, h1, h2⟩ := runSchedule_calls sns (startDispatch promises) schedule
  rw [h1, createTokens_append, createTokens_publishes extra, List.append_nil]
  · simp only [startDispatch]
    rw [createTokens_createCalls]
    have : (fun c : Chain => c.promise.device.deviceToken) =
        ((fun p : SendPromise => p.device.deviceToken) ∘ fun c : Chain => c.promise) := rfl
    rw [this, ← List.map_map, numberFrom_map_promise]
  · intro call hc
    obtain ⟨c, _, _, _, _, he⟩ := h2 call hc
    exact ⟨_, _, he⟩
theorem variantSends_reported (libs : Libs) (data : Notification)
    (installations : List Installation) (V : VariantConfig) :
    (variantSends libs data (expectedBucket installations "ios") V).map SendPromise.reported =
      (installations.filter fun i =>
          (truthy i.deviceToken && decide (i.platformKey = "ios")) &&
            matchesAppIdentifier i.appIdentifier V).map
        fun i => { deviceType := some "ios", deviceToken := i.deviceToken.getD "" } := by
  unfold variantSends expectedBucket
  rw [List.filter_map, List.filter_filter, List.map_map, List.map_map]
  have hf : (fun a : Installation =>
        ((fun d : Device => matchesAppIdentifier d.appIdentifier V) ∘ Installation.toDevice) a &&
          (truthy a.deviceToken && decide (a.platformKey = "ios"))) =
      (fun i : Installation => (truthy i.deviceToken && decide (i.platformKey = "ios")) &&
          matchesAppIdentifier i.appIdentifier V) := by
    funext i
    simp only [Function.comp, Installation.toDevice]
    exact Bool.and_comm _ _
  rw [hf]
  apply List.map_congr_left
  intro i _
  rfl

/-- The devices the dispatch plan reports are the expected devices. -/
theorem plan_reported (pushConfig : PushConfig) (a : Adapter) (libs : Libs)
    (data : Notification) (installations : List Installation)
    (ha : SNSPushAdapter pushConfig = .ok a) :
    (dispatchPlan a libs data installations).map SendPromise.reported =
      expectedDevices a installations := by
  obtain ⟨_, hvalid, _, _⟩ := SNSPushAdapter_ok pushConfig a ha
  unfold dispatchPlan expectedDevices
  rw [List.map_flatMap]
  apply List.flatMap_congr
  intro k hk
  have hv := hvalid k hk
  simp only [validPushTypes, List.mem_cons, List.mem_singleton, List.not_mem_nil,
    or_false] at hv
  rcases hv with rfl | rfl | rfl
  · simp only [platformSends, if_true, List.map_flatMap]
    apply List.flatMap_congr
    intro V _
    exact variantSends_reported libs data installations V
  · simp only [platformSends, expectedBucket, List.map_map]
    simp only [show ¬ ("gcm" = "ios") by decide, if_false, if_true, List.map_map]
    apply List.map_congr_left
    intro i _
    rfl
  · simp only [platformSends, expectedBucket, List.map_map]
    simp only [show ¬ ("adm" = "ios") by decide, show ¬ ("adm" = "gcm") by decide,
      if_false, if_true, List.map_map]
    apply List.map_congr_left
    intro i _
    rfl
/-! ## Lemmas on the requests of `send` -/

theorem startDispatch_calls (sns : Gateway) (promises : List SendPromise)
    (schedule : List Nat) (call : GatewayCall)
    (h : call ∈ (runSchedule sns (startDispatch promises) schedule).calls) :
    (∃ c ∈ numberFrom 0 promises, call = createCall c) ∨
      IsPublishOf sns (numberFrom 0 promises) schedule call := by
  obtain ⟨extra, h1, h2⟩ := runSchedule_calls sns (startDispatch promises) schedule
  rw [h1] at h
  rcases List.mem_append.mp h with h | h
  · left
    simp only [startDispatch, List.mem_map] at h
    obtain ⟨c, hc, rfl⟩ := h
    exact ⟨c, hc, rfl⟩
  · exact Or.inr (h2 call h)

theorem startDispatch_create_mem (sns : Gateway) (promises : List SendPromise)
    (schedule : List Nat) (c : Chain) (hc : c ∈ numberFrom 0 promises) :
    createCall c ∈ (runSchedule sns (startDispatch promises) schedule).calls := by
  apply runSchedule_calls_subset
  simp only [startDispatch, List.mem_map]
  exact ⟨c, hc, rfl⟩

/-- In the requests of a run, a chain whose resolution fails has no publish
request, and a chain whose resolution succeeds and that is called back has the
publish request to the endpoint the gateway returned. -/
theorem startDispatch_publish (sns : Gateway) (promises : List SendPromise)
    (schedule : List Nat) (i : Nat) (params : CreateParams)
    (h : GatewayCall.createPlatformEndpoint i params ∈
      (runSchedule sns (startDispatch promises) schedule).calls) :
    ((sns.createPlatformEndpoint i params).succeeds = false →
        ∀ q, GatewayCall.publish i q ∉
          (runSchedule sns (startDispatch promises) schedule).calls)
      ∧ ((sns.createPlatformEndpoint i params).succeeds = true → i ∈ schedule →
        ∃ q, GatewayCall.publish i q ∈
            (runSchedule sns (startDispatch promises) schedule).calls ∧
          q.TargetArn = (sns.createPlatformEndpoint i params).endpointArn) := by
  rcases startDispatch_calls sns promises schedule _ h with ⟨c, hc, he⟩ | ⟨c, _, _, _, _, he⟩
  · simp only [createCall, GatewayCall.createPlatformEndpoint.injEq] at he
    obtain ⟨hid, hpar⟩ := he
    refine ⟨?_, ?_⟩
    · intro hf q hq
      rcases startDispatch_calls sns promises schedule _ hq with
        ⟨c1, _, he1⟩ | ⟨c1, hc1, _, _, hs1, he1⟩
      · simp [createCall] at he1
      · simp only [GatewayCall.publish.injEq] at he1
        have : c1 = c := numberFrom_id_inj 0 promises c1 c hc1 hc (by rw [← he1.1, hid])
        subst this
        rw [← hid, ← hpar, hf] at hs1
        cases hs1
    · intro hs hi
      have := runSchedule_publish_issued sns (startDispatch promises) schedule c
        (by simpa [startDispatch] using hc) (numberFrom_id_lt 0 promises c hc).2
        (by rw [← hid]; exact hi) (by rw [← hid, ← hpar]; exact hs)
      refine ⟨_, by rw [hid]; exact this, ?_⟩
      rw [hid, hpar]
      rfl
  · cases he

/-! ## Claims -/

/-- C1, failing input: three devices across `ios` and `gcm`, endpoint resolution
failing for the second one.  Whatever the order of the callbacks, `send` never
returns a result list; once the gateway has answered, the promise `send`
returned is rejected with the object `exchangeTokenPromise` rejects with,
which holds the device and `transmitted` false. -/
theorem send_rejected_on_resolver_failure :
    (∀ schedule results,
        (send scenarioAdapter scenarioLibs failingGateway schedule {} scenarioBatch).outcome ≠
          .fulfilled results)
      ∧ (send scenarioAdapter scenarioLibs failingGateway [0, 1, 2, 0, 1, 2] {}
          scenarioBatch).outcome =
        .rejected
          { device := { deviceToken := "t2", appIdentifier := none, deviceType := some "gcm" }
            transmitted := false } := by
  refine ⟨?_, by decide⟩
  intro schedule results h
  have hsend : (send scenarioAdapter scenarioLibs failingGateway schedule {}
      scenarioBatch).outcome =
      settle (runSchedule failingGateway
        { chains := numberFrom 0
            [{ device := { deviceToken := "t1", deviceType := some "ios" },
               payload := [("APNS", "apns")], platformArn := some "arn:ios" },
             { device := { deviceToken := "t3", deviceType := some "ios" },
               payload := [("APNS", "apns")], platformArn := some "arn:ios" },
             { device := { deviceToken := "t2", deviceType := some "gcm" },
               payload := [("GCM", "gcm")], platformArn := some "arn:gcm" }]
          calls := (numberFrom 0
            [{ device := { deviceToken := "t1", deviceType := some "ios" },
               payload := [("APNS", "apns")], platformArn := some "arn:ios" },
             { device := { deviceToken := "t3", deviceType := some "ios" },
               payload := [("APNS", "apns")], platformArn := some "arn:ios" },
             { device := { deviceToken := "t2", deviceType := some "gcm" },
               payload := [("GCM", "gcm")], platformArn := some "arn:gcm" }]).map createCall
          rejection := none } schedule) := rfl
  rw [hsend] at h
  obtain ⟨_, hall⟩ := settle_fulfilled _ results h
  rw [runSchedule_chains] at hall
  have hmem := allFulfilled_mem _ _ hall
    ((fun c => (callback failingGateway c).1)^[schedule.count 2]
      { id := 2
        promise := { device := { deviceToken := "t2", deviceType := some "gcm" },
                     payload := [("GCM", "gcm")], platformArn := some "arn:gcm" }
        progress := .resolving })
    (by simp [numberFrom])
  obtain ⟨r, hr⟩ := hmem
  rcases iterate_callback_of_failure failingGateway
      { id := 2
        promise := { device := { deviceToken := "t2", deviceType := some "gcm" },
                     payload := [("GCM", "gcm")], platformArn := some "arn:gcm" }
        progress := .resolving } (schedule.count 2)
      { message := "failed", stack := some "trace" } rfl rfl with h1 | h1
  · rw [h1] at hr; cases hr
  · rw [h1] at hr; cases hr

/-- C2: for every adapter the constructor builds and every batch, every result
list that `send` returns has as many entries as the sum, over the
installations with a non-empty `deviceToken` whose platform key (`pushType`
when non-empty, else `deviceType`) is configured, of one for a `gcm` or `adm`
installation and, for an `ios` installation, the number of configured variants
it matches (an absent or empty `appIdentifier` matches every variant, any other
must equal the `bundleId`).  The list is returned whenever every endpoint
resolution succeeds, the classification does not throw and the gateway answers
every request. -/
theorem send_result_count (pushConfig : PushConfig) (a : Adapter) (libs : Libs)
    (sns : Gateway) (schedule : List Nat) (data : Notification)
    (installations : List Installation) (ha : SNSPushAdapter pushConfig = .ok a) :
    (∀ results, (send a libs sns schedule data installations).outcome = .fulfilled results →
        results.length = expectedResultCount a installations)
      ∧ ((∀ n p, (sns.createPlatformEndpoint n p).succeeds = true) →
          (∀ i ∈ installations, truthy i.deviceToken = true →
            i.platformKey ∈ a.availablePushTypes ∨ i.platformKey ∉ objectPrototypeKeys) →
          (∀ n < expectedResultCount a installations, 2 ≤ schedule.count n) →
          ∃ results,
            (send a libs sns schedule data installations).outcome = .fulfilled results) := by
  refine ⟨?_, ?_⟩
  · intro results h
    exact send_fulfilled_length pushConfig a libs sns schedule data installations results ha h
  · intro hres hsafe hsched
    obtain ⟨_, hvalid, _, _⟩ := SNSPushAdapter_ok pushConfig a ha
    obtain ⟨m, hm⟩ := classifyInstallations_ok_of_safe installations a.availablePushTypes
      (fun h => proto_notMem_validPushTypes (hvalid _ h)) hsafe
    exact send_fulfilled_of_complete pushConfig a libs sns schedule data installations m ha hm
      hres hsched

/-- C2, scenario: three devices across `ios` and `gcm` on a gateway that
succeeds give a list of three results. -/
theorem send_result_count_witness :
    SNSPushAdapter scenarioConfig = .ok scenarioAdapter
      ∧ ∃ results,
          (send scenarioAdapter scenarioLibs scenarioGateway [0, 1, 2, 0, 1, 2] {}
            scenarioBatch).outcome = .fulfilled results
          ∧ results.length = 3 := by
  have ha : SNSPushAdapter scenarioConfig = .ok scenarioAdapter := by decide
  have h := send_result_count scenarioConfig scenarioAdapter scenarioLibs scenarioGateway
    [0, 1, 2, 0, 1, 2] {} scenarioBatch ha
  obtain ⟨results, hr⟩ := h.2 (fun _ _ => rfl) (by decide) (by decide)
  exact ⟨ha, results, hr, by rw [h.1 results hr]; decide⟩


/-- C3, counterexample: two variants, production and sandbox, share the bundle
`bundleA`; the constructor builds the adapter, and a device whose
`appIdentifier` is `bundleA` is sent through both variants, not through one
only. -/
theorem sendToAPNS_shared_bundleId :
    SNSPushAdapter sharedBundleConfig = .ok sharedBundleAdapter
      ∧ (sendToAPNS sharedBundleAdapter scenarioLibs {}
          [{ deviceToken := "t1", appIdentifier := some "bundleA" }]).map
        (fun ps => ps.map fun p => (p.device.deviceToken, p.platformArn, p.payload)) =
          .ok [("t1", some "arn:production", [("APNS", "apns")]),
               ("t1", some "arn:sandbox", [("APNS_SANDBOX", "apns")])] := by
  decide

/-- C3, amended: for every list of configured iOS variants and every `ios`
bucket, `sendToAPNS` sends through variant `V` exactly the devices of the
bucket, in bucket order, whose `appIdentifier` is absent or empty or equals
`V.bundleId`, each with the payload and the ARN of `V`.  Hence a device without
`appIdentifier` is sent through every variant, and a device with one is sent
through exactly the variants whose `bundleId` equals it: through one variant
only when the variants have distinct `bundleId`s. -/
theorem sendToAPNS_variant_devices (a : Adapter) (libs : Libs) (data : Notification)
    (devices : List Device) (config : List (String × PushTypeConfig))
    (iosPushConfig : PushTypeConfig) (hc : a.snsConfig = some config)
    (hi : lookupOwn config "ios" = some iosPushConfig) :
    sendToAPNS a libs data devices =
        .ok ((iosConfigs iosPushConfig).flatMap fun V =>
          (devices.filter fun d =>
              !truthy d.appIdentifier || decide (d.appIdentifier = V.bundleId)).map
            fun d =>
              { device := { d with deviceType := some "ios" }
                payload := generateiOSPayload libs data (V.production.getD false)
                platformArn := V.ARN })
      ∧ (∀ d ∈ devices, truthy d.appIdentifier = false → ∀ V ∈ iosConfigs iosPushConfig,
          d ∈ devices.filter fun d =>
            !truthy d.appIdentifier || decide (d.appIdentifier = V.bundleId))
      ∧ (∀ d ∈ devices, truthy d.appIdentifier = true → ∀ V ∈ iosConfigs iosPushConfig,
          (d ∈ (devices.filter fun d =>
            !truthy d.appIdentifier || decide (d.appIdentifier = V.bundleId))
            ↔ V.bundleId = d.appIdentifier))
      ∧ (((iosConfigs iosPushConfig).map fun V => V.bundleId).Nodup →
          ∀ d ∈ devices, truthy d.appIdentifier = true →
          ∀ V ∈ iosConfigs iosPushConfig, V.bundleId = d.appIdentifier →
          ∀ W ∈ iosConfigs iosPushConfig,
            d ∈ (devices.filter fun d =>
              !truthy d.appIdentifier || decide (d.appIdentifier = W.bundleId)) →
            W = V) := by
  refine ⟨?_, ?_, ?_, ?_⟩
  · simp only [sendToAPNS, readConfig, hc, hi]
    congr 1
    apply List.flatMap_congr
    intro V _
    rw [sendToVariant_eq, filter_setDeviceType]
    simp [sendToSNS, setDeviceType, matchesAppIdentifier]
  · intro d hd ht V _
    simp [List.mem_filter, hd, ht]
  · intro d hd ht V _
    simp only [List.mem_filter, hd, ht, true_and, Bool.not_true, Bool.false_or,
      decide_eq_true_eq]
    exact eq_comm
  · intro hnd d _ ht V hV hVd W hW hmem
    simp only [List.mem_filter, ht, Bool.not_true, Bool.false_or, decide_eq_true_eq] at hmem
    exact List.inj_on_of_nodup_map hnd hW hV (by rw [← hmem.2, hVd])

/-- C3, amended, scenario: with the variants `bundleA` and `bundleB`, a device with
`appIdentifier` `bundleA` gives one send, through variant A, and a device
without `appIdentifier` gives two sends, one through each variant. -/
theorem sendToAPNS_variant_devices_witness :
    (twoVariantAdapter.snsConfig = some [("ios", .many twoVariants)]
      ∧ lookupOwn [("ios", PushTypeConfig.many twoVariants)] "ios" = some (.many twoVariants))
    ∧ (sendToAPNS twoVariantAdapter scenarioLibs {}
          [{ deviceToken := "t1", appIdentifier := some "bundleA" }]).map
        (fun ps => ps.map fun p => p.platformArn) = .ok [some "arn:A"]
    ∧ (sendToAPNS twoVariantAdapter scenarioLibs {} [{ deviceToken := "t2" }]).map
        (fun ps => ps.map fun p => p.platformArn) = .ok [some "arn:A", some "arn:B"] := by
  refine ⟨⟨rfl, rfl⟩, ?_, ?_⟩
  · rw [(sendToAPNS_variant_devices twoVariantAdapter scenarioLibs {}
      [{ deviceToken := "t1", appIdentifier := some "bundleA" }]
      [("ios", .many twoVariants)] (.many twoVariants) rfl rfl).1]
    decide
  · rw [(sendToAPNS_variant_devices twoVariantAdapter scenarioLibs {}
      [{ deviceToken := "t2" }]
      [("ios", .many twoVariants)] (.many twoVariants) rfl rfl).1]
    decide

/-- C4: constructing the adapter raises a `PUSH_MISCONFIGURED` error if and
only if `accessKey` or `secretKey` is missing or empty, or some key of
`pushTypes` is outside `ios`, `gcm`, `adm`; every error of the constructor is of
that kind, and for every other configuration an adapter is built.  The error
is the result of the constructor, so there is then no adapter to call `send` on. -/
theorem construction_error_iff (pushConfig : PushConfig) :
    ((∃ message, SNSPushAdapter pushConfig =
          .error (.parseError PUSH_MISCONFIGURED message)) ↔
        (truthy pushConfig.accessKey = false ∨ truthy pushConfig.secretKey = false ∨
          ∃ k ∈ (pushConfig.pushTypes.getD []).map Prod.fst, k ∉ ["ios", "gcm", "adm"]))
      ∧ (∀ e, SNSPushAdapter pushConfig = .error e →
          ∃ message, e = .parseError PUSH_MISCONFIGURED message)
      ∧ ((∃ a, SNSPushAdapter pushConfig = .ok a) ↔
        ¬ (truthy pushConfig.accessKey = false ∨ truthy pushConfig.secretKey = false ∨
          ∃ k ∈ (pushConfig.pushTypes.getD []).map Prod.fst, k ∉ ["ios", "gcm", "adm"])) := by
  by_cases hkeys : (!truthy pushConfig.accessKey || !truthy pushConfig.secretKey) = true
  · have hres : SNSPushAdapter pushConfig =
        .error (.parseError PUSH_MISCONFIGURED "Need to provide AWS keys") := by
      unfold SNSPushAdapter
      rw [if_pos hkeys]
    have hcond : truthy pushConfig.accessKey = false ∨ truthy pushConfig.secretKey = false := by
      simpa using hkeys
    refine ⟨⟨fun _ => ?_, fun _ => ⟨_, hres⟩⟩, ?_, ⟨?_, ?_⟩⟩
    · rcases hcond with h | h
      · exact Or.inl h
      · exact Or.inr (Or.inl h)
    · intro e he
      rw [hres] at he
      cases he
      exact ⟨_, rfl⟩
    · rintro ⟨a, ha⟩
      rw [hres] at ha
      cases ha
    · intro hn
      exfalso
      apply hn
      rcases hcond with h | h
      · exact Or.inl h
      · exact Or.inr (Or.inl h)
  · have hk1 : ¬ truthy pushConfig.accessKey = false := by
      intro h; apply hkeys; simp [h]
    have hk2 : ¬ truthy pushConfig.secretKey = false := by
      intro h; apply hkeys; simp [h]
    by_cases hv : ∀ k ∈ (pushConfig.pushTypes.getD []).map Prod.fst, k ∈ validPushTypes
    · obtain ⟨sm, h1, _⟩ := registerPushTypes_ok ((pushConfig.pushTypes.getD []).map Prod.fst)
        ((pushConfig.pushTypes.getD []).map Prod.fst) [] [] hv
      have hres : ∃ a, SNSPushAdapter pushConfig = .ok a := by
        unfold SNSPushAdapter
        rw [if_neg hkeys]
        simp only [h1]
        exact ⟨_, rfl⟩
      obtain ⟨a, ha⟩ := hres
      have hnot : ¬ (truthy pushConfig.accessKey = false ∨ truthy pushConfig.secretKey = false ∨
          ∃ k ∈ (pushConfig.pushTypes.getD []).map Prod.fst, k ∉ ["ios", "gcm", "adm"]) := by
        rintro (h | h | ⟨k, hk, hk3⟩)
        · exact hk1 h
        · exact hk2 h
        · exact hk3 (hv k hk)
      refine ⟨⟨?_, fun h => absurd h hnot⟩, ?_, ⟨fun _ => hnot, fun _ => ⟨a, ha⟩⟩⟩
      · rintro ⟨msg, hm⟩
        rw [ha] at hm
        cases hm
      · intro e he
        rw [ha] at he
        cases he
    · have hex : ∃ k ∈ (pushConfig.pushTypes.getD []).map Prod.fst, k ∉ validPushTypes := by
        push_neg at hv
        exact hv
      have he := registerPushTypes_error ((pushConfig.pushTypes.getD []).map Prod.fst)
        ((pushConfig.pushTypes.getD []).map Prod.fst) [] [] hex
      have hres : SNSPushAdapter pushConfig = .error (.parseError PUSH_MISCONFIGURED
          ("Push to " ++ ",".intercalate ((pushConfig.pushTypes.getD []).map Prod.fst)
            ++ " is not supported")) := by
        unfold SNSPushAdapter
        rw [if_neg hkeys]
        simp only [he]
      refine ⟨⟨fun _ => Or.inr (Or.inr hex), fun _ => ⟨_, hres⟩⟩, ?_, ⟨?_, ?_⟩⟩
      · intro e h
        rw [hres] at h
        cases h
        exact ⟨_, rfl⟩
      · rintro ⟨a, ha⟩
        rw [hres] at ha
        cases ha
      · intro hn
        exact absurd (Or.inr (Or.inr hex)) hn

/-- C4, scenario: a `pushTypes` key `wns` makes the constructor raise the
configuration error. -/
theorem construction_error_iff_witness :
    ∃ message, SNSPushAdapter
        { accessKey := some "key", secretKey := some "secret",
          pushTypes := some [("wns", .single {})] } =
      .error (.parseError PUSH_MISCONFIGURED message) :=
  (construction_error_iff
      { accessKey := some "key", secretKey := some "secret",
        pushTypes := some [("wns", .single {})] }).1.mpr
    (Or.inr (Or.inr ⟨"wns", by decide, by decide⟩))

/-- C5: for every installations list, every list of valid platforms and every
platform `P` of that list, the bucket of `P` in a mapping that
`classifyInstallations` returns is the input list restricted to the records
with a token (a non-empty `deviceToken`) whose platform key (`pushType` when
non-empty, else `deviceType`) is `P`, each mapped to the record holding its
`deviceToken` and `appIdentifier` and nothing else, in input order and with
duplicates kept.  A mapping is returned whenever no record with a token has a
platform key that names a property inherited from `Object.prototype` without
being a valid platform. -/
theorem classifyInstallations_buckets (installations : List Installation)
    (validPlatforms : List String) :
    (∀ m, classifyInstallations installations validPlatforms = .ok m →
        ∀ P ∈ validPlatforms, m.bucket P = some
          ((installations.filter fun i =>
              truthy i.deviceToken && decide (i.platformKey = P)).map
            fun i => { deviceToken := i.deviceToken.getD "", appIdentifier := i.appIdentifier,
                       deviceType := none }))
      ∧ ("__proto__" ∉ validPlatforms →
          (∀ i ∈ installations, truthy i.deviceToken = true →
            i.platformKey ∈ validPlatforms ∨ i.platformKey ∉ objectPrototypeKeys) →
          ∃ m, classifyInstallations installations validPlatforms = .ok m) := by
  refine ⟨?_, ?_⟩
  · intro m hm P hP
    exact classifyInstallations_bucket installations validPlatforms m P hP hm
  · intro hproto hsafe
    exact classifyInstallations_ok_of_safe installations validPlatforms hproto hsafe

/-- C5, scenario: two `ios` records, one of them through `pushType`, a record
without token and a `gcm` record; the `ios` bucket keeps the two in input order. -/
theorem classifyInstallations_buckets_witness :
    ∃ m, classifyInstallations
        [{ deviceToken := some "t1", deviceType := some "ios", appIdentifier := some "app" },
         { deviceType := some "ios" },
         { deviceToken := some "t2", deviceType := some "gcm" },
         { deviceToken := some "t1", deviceType := some "android", pushType := some "ios" }]
        ["ios", "gcm"] = .ok m
      ∧ m.bucket "ios" = some
          [{ deviceToken := "t1", appIdentifier := some "app" }, { deviceToken := "t1" }] := by
  obtain ⟨m, hm⟩ := (classifyInstallations_buckets
      [{ deviceToken := some "t1", deviceType := some "ios", appIdentifier := some "app" },
       { deviceType := some "ios" },
       { deviceToken := some "t2", deviceType := some "gcm" },
       { deviceToken := some "t1", deviceType := some "android", pushType := some "ios" }]
      ["ios", "gcm"]).2 (by decide) (by decide)
  refine ⟨m, hm, ?_⟩
  rw [(classifyInstallations_buckets _ _).1 m hm "ios" (by decide)]
  decide


/-- C6, counterexample: with the valid platform `__proto__` the assignment
`deviceMap['__proto__'] = []` replaces the prototype, so the returned mapping
has no key at all. -/
theorem classifyInstallations_proto_key :
    (classifyInstallations [] ["__proto__"]).map DeviceMap.keys = .ok [] := by
  decide

/-- C6, amended: for every installations list and every list of valid platforms
without `__proto__`, the keys of a mapping `classifyInstallations` returns are
exactly the valid platforms: every one of them is an own key that holds an
array, the empty array when no record maps to it, and there is no other key.
A mapping is returned whenever no record with a token has a platform key that
names a property inherited from `Object.prototype` without being a valid
platform.  The lists `send` passes, the configured platforms of an adapter the
constructor built, never hold `__proto__`. -/
theorem classifyInstallations_key_set (installations : List Installation)
    (validPlatforms : List String) (hproto : "__proto__" ∉ validPlatforms) :
    (∀ m, classifyInstallations installations validPlatforms = .ok m →
        (∀ k, k ∈ m.keys ↔ k ∈ validPlatforms)
          ∧ (∀ P ∈ validPlatforms, ∃ devices, lookupOwn m.own P = some devices)
          ∧ (∀ P ∈ validPlatforms,
              (∀ i ∈ installations, truthy i.deviceToken = true → i.platformKey ≠ P) →
              lookupOwn m.own P = some []))
      ∧ ((∀ i ∈ installations, truthy i.deviceToken = true →
            i.platformKey ∈ validPlatforms ∨ i.platformKey ∉ objectPrototypeKeys) →
          ∃ m, classifyInstallations installations validPlatforms = .ok m)
      ∧ (∀ pushConfig a, SNSPushAdapter pushConfig = .ok a →
          "__proto__" ∉ a.availablePushTypes) := by
  refine ⟨?_, ?_, ?_⟩
  · intro m hm
    obtain ⟨h1, h2⟩ := classifyInstallations_keys installations validPlatforms m hproto hm
    refine ⟨h1, ?_, h2⟩
    intro P hP
    exact lookupOwn_isSome_of_mem m.own P ((mem_keys m P).mp ((h1 P).mpr hP))
  · intro hsafe
    exact classifyInstallations_ok_of_safe installations validPlatforms hproto hsafe
  · intro pushConfig a ha h
    exact proto_notMem_validPushTypes ((SNSPushAdapter_ok pushConfig a ha).2.1 _ h)

/-- C6, scenario: with the valid platforms `ios` and `gcm` and one `ios`
record, the mapping has the keys `ios` and `gcm`, and `gcm` holds the empty
array. -/
theorem classifyInstallations_key_set_witness :
    ∃ m, classifyInstallations [{ deviceToken := some "t1", deviceType := some "ios" }]
        ["ios", "gcm"] = .ok m
      ∧ (∀ k, k ∈ m.keys ↔ k ∈ ["ios", "gcm"])
      ∧ lookupOwn m.own "gcm" = some [] := by
  have h := classifyInstallations_key_set
    [{ deviceToken := some "t1", deviceType := some "ios" }] ["ios", "gcm"] (by decide)
  obtain ⟨m, hm⟩ := h.2.1 (by decide)
  obtain ⟨h1, _, h3⟩ := h.1 m hm
  exact ⟨m, hm, h1, h3 "gcm" (by decide) (by decide)⟩

/-- C7, failing input: a record whose platform key is `constructor`, which is
not a valid platform, makes `classifyInstallations` throw. -/
theorem classifyInstallations_inherited_key_throws :
    classifyInstallations [{ deviceToken := some "t", deviceType := some "constructor" }]
        ["ios"] =
      .error (.typeError "deviceMap[pushType].push is not a function") := by
  decide

/-- C8: an installation whose `deviceToken` is empty or absent is dropped
silently.  The classification of a batch, also when it throws, is that of the
batch without the installation, so the installation raises no error and is in
no bucket; a run of `send`, requests to the gateway and outcome, is that of the
batch without it; no device of a bucket and no result of `send` has an empty
token. -/
theorem noToken_dropped (r : Installation) (hr : truthy r.deviceToken = false) :
    (∀ xs ys validPlatforms,
        classifyInstallations (xs ++ r :: ys) validPlatforms =
          classifyInstallations (xs ++ ys) validPlatforms)
      ∧ (∀ a libs sns schedule data xs ys,
          send a libs sns schedule data (xs ++ r :: ys) =
            send a libs sns schedule data (xs ++ ys))
      ∧ (∀ installations validPlatforms m, 
          classifyInstallations installations validPlatforms = .ok m →
          ∀ P ∈ validPlatforms, ∀ devices, m.bucket P = some devices →
            ∀ d ∈ devices, d.deviceToken ≠ "")
      ∧ (∀ pushConfig a libs sns schedule data installations results,
          SNSPushAdapter pushConfig = .ok a →
          (send a libs sns schedule data installations).outcome = .fulfilled results →
          ∀ res ∈ results, res.device.deviceToken ≠ "") := by
  have htok : ∀ o : Option String, truthy o = true → o.getD "" ≠ "" := by
    intro o ho
    cases o with
    | none => simp [truthy] at ho
    | some s => simpa [truthy] using ho
  refine ⟨?_, ?_, ?_, ?_⟩
  · intro xs ys vps
    exact classifyInstallations_noToken xs ys r vps hr
  · intro a libs sns schedule data xs ys
    unfold send
    rw [classifyInstallations_noToken xs ys r _ hr]
  · intro installations vps m hm P hP devices hb d hd
    rw [classifyInstallations_bucket installations vps m P hP hm] at hb
    simp only [Option.some.injEq] at hb
    subst hb
    simp only [expectedBucket, List.mem_map, List.mem_filter, Bool.and_eq_true] at hd
    obtain ⟨i, ⟨_, ht, _⟩, rfl⟩ := hd
    exact htok _ ht
  · intro pushConfig a libs sns schedule data installations results ha h res hres
    obtain ⟨i, _, ht, _, hdev⟩ := send_results_devices pushConfig a libs sns schedule data
      installations results ha h res hres
    rw [hdev]
    exact htok _ ht

/-- C8, scenario: the three devices with, between them, a record whose token
is empty and a record without token give the run of the three devices alone. -/
theorem noToken_dropped_witness :
    send scenarioAdapter scenarioLibs scenarioGateway [0, 1, 2, 0, 1, 2] {}
        [{ deviceToken := some "t1", deviceType := some "ios" },
         { deviceToken := some "", deviceType := some "ios" },
         { deviceType := some "gcm" },
         { deviceToken := some "t2", deviceType := some "gcm" },
         { deviceToken := some "t3", deviceType := some "ios" }] =
      send scenarioAdapter scenarioLibs scenarioGateway [0, 1, 2, 0, 1, 2] {} scenarioBatch :=
  ((noToken_dropped { deviceToken := some "", deviceType := some "ios" } rfl).2.1
      scenarioAdapter scenarioLibs scenarioGateway [0, 1, 2, 0, 1, 2] {}
      [{ deviceToken := some "t1", deviceType := some "ios" }]
      [{ deviceType := some "gcm" },
       { deviceToken := some "t2", deviceType := some "gcm" },
       { deviceToken := some "t3", deviceType := some "ios" }]).trans
    ((noToken_dropped { deviceType := some "gcm" } rfl).2.1
      scenarioAdapter scenarioLibs scenarioGateway [0, 1, 2, 0, 1, 2] {}
      [{ deviceToken := some "t1", deviceType := some "ios" }]
      [{ deviceToken := some "t2", deviceType := some "gcm" },
       { deviceToken := some "t3", deviceType := some "ios" }])

/-- C9: `send` classifies by the platforms configured at construction, the keys
of `pushTypes`.  An installation whose platform key is not one of them
contributes no result and causes no request to the gateway: the run of `send`
on a batch that holds it either is the run on the batch without it, or is an
exception thrown by the classification before any request was made; it is the
run without it whenever the installation has no token or its key names no
property inherited from `Object.prototype`.  No result is reported under a
key that is not configured. -/
theorem unconfigured_platform_contributes_nothing (pushConfig : PushConfig) (a : Adapter)
    (r : Installation) (ha : SNSPushAdapter pushConfig = .ok a)
    (hr : r.platformKey ∉ a.availablePushTypes) :
    a.availablePushTypes = (pushConfig.pushTypes.getD []).map Prod.fst
      ∧ (∀ libs sns schedule data xs ys,
          send a libs sns schedule data (xs ++ r :: ys) =
              send a libs sns schedule data (xs ++ ys) ∨
            ∃ e, send a libs sns schedule data (xs ++ r :: ys) =
              { calls := [], outcome := .threw e })
      ∧ (truthy r.deviceToken = false ∨ r.platformKey ∉ objectPrototypeKeys →
          ∀ libs sns schedule data xs ys,
            send a libs sns schedule data (xs ++ r :: ys) =
              send a libs sns schedule data (xs ++ ys))
      ∧ (∀ libs sns schedule data installations results,
          (send a libs sns schedule data installations).outcome = .fulfilled results →
          ∀ res ∈ results, res.device.deviceType ≠ some r.platformKey) := by
  obtain ⟨h1, hvalid, _, _⟩ := SNSPushAdapter_ok pushConfig a ha
  have hproto : "__proto__" ∉ a.availablePushTypes :=
    fun h => proto_notMem_validPushTypes (hvalid _ h)
  refine ⟨h1, ?_, ?_, ?_⟩
  · intro libs sns schedule data xs ys
    rcases (classifyInstallations_unknownKey xs ys r a.availablePushTypes hproto hr).1
      with h | ⟨e, he⟩
    · left
      unfold send
      rw [h]
    · right
      refine ⟨e, ?_⟩
      unfold send
      rw [he]
  · intro hsafe libs sns schedule data xs ys
    unfold send
    rw [(classifyInstallations_unknownKey xs ys r a.availablePushTypes hproto hr).2 hsafe]
  · intro libs sns schedule data installations results h res hres
    obtain ⟨i, _, _, hkey, hdev⟩ := send_results_devices pushConfig a libs sns schedule data
      installations results ha h res hres
    rw [hdev]
    intro heq
    simp only [Option.some.injEq] at heq
    exact hr (heq ▸ hkey)

/-- C9, scenario: with `ios` alone configured, a batch that holds one `adm`
installation makes no request to the gateway and returns the empty list. -/
theorem unconfigured_platform_contributes_nothing_witness :
    SNSPushAdapter iosOnlyConfig = .ok twoVariantAdapter
      ∧ send twoVariantAdapter scenarioLibs scenarioGateway [0, 0] {}
          [{ deviceToken := some "t9", deviceType := some "adm" }] =
        { calls := [], outcome := .fulfilled [] } := by
  have ha : SNSPushAdapter iosOnlyConfig = .ok twoVariantAdapter := by decide
  refine ⟨ha, ?_⟩
  have h := (unconfigured_platform_contributes_nothing iosOnlyConfig twoVariantAdapter
    { deviceToken := some "t9", deviceType := some "adm" } ha (by decide)).2.2.1
    (Or.inr (by decide)) scenarioLibs scenarioGateway [0, 0] {} [] []
  rw [List.nil_append] at h
  rw [h]
  decide

/-- C10: when the publish call of a device whose endpoint resolved returns an
error, `sendSNSPayload` resolves to the result of that device with
`transmitted` false, whose `response` is the stack of the error when it carries
one; the chain is fulfilled, not rejected, so that `send` is never rejected
when every endpoint resolution succeeds, whatever the publish calls return. -/
theorem publish_error_resolves :
    (∀ (device : Device) (err : GatewayError) (data : Option PublishData),
        sendSNSPayload device { err := some err, data := data } =
          { device := { deviceType := device.deviceType, deviceToken := device.deviceToken }
            transmitted := false
            response := if truthy err.stack then .stack (err.stack.getD "") else .absent })
      ∧ (∀ (sns : Gateway) (c : Chain) (arn : String), c.progress = .publishing arn →
          (callback sns c).1.progress = .fulfilled (sendSNSPayload c.promise.device
              (sns.publish c.id (publishRequest arn c.promise.payload)))
            ∧ (callback sns c).2.2 = none)
      ∧ (∀ (a : Adapter) (libs : Libs) (sns : Gateway) (schedule : List Nat)
          (data : Notification) (installations : List Installation),
          (∀ n p, (sns.createPlatformEndpoint n p).succeeds = true) →
          ∀ reason, (send a libs sns schedule data installations).outcome ≠ .rejected reason) := by
  refine ⟨fun _ _ _ => rfl, ?_, ?_⟩
  · intro sns c arn h
    rw [callback_publishing sns c arn h]
    exact ⟨rfl, rfl⟩
  · intro a libs sns schedule data installations h reason
    exact send_not_rejected a libs sns schedule data installations h reason

/-- C10, scenario: every publish fails with an error carrying a stack; `send`
is not rejected and returns three results with `transmitted` false and the
stack as `response`. -/
theorem publish_error_resolves_witness :
    (∀ reason, (send scenarioAdapter scenarioLibs publishFailingGateway [0, 1, 2, 0, 1, 2] {}
        scenarioBatch).outcome ≠ .rejected reason)
      ∧ (send scenarioAdapter scenarioLibs publishFailingGateway [0, 1, 2, 0, 1, 2] {}
          scenarioBatch).outcome = .fulfilled
        [{ device := { deviceType := some "ios", deviceToken := "t1" }, transmitted := false,
           response := .stack "trace" },
         { device := { deviceType := some "ios", deviceToken := "t3" }, transmitted := false,
           response := .stack "trace" },
         { device := { deviceType := some "gcm", deviceToken := "t2" }, transmitted := false,
           response := .stack "trace" }] :=
  ⟨publish_error_resolves.2.2 scenarioAdapter scenarioLibs publishFailingGateway
      [0, 1, 2, 0, 1, 2] {} scenarioBatch (fun _ _ => rfl), by decide⟩

/-- C11, failing input: the gateway answers an endpoint creation without error
and without endpoint identifier.  The callback of `exchangeTokenPromise` then
throws a `TypeError` on `err.stack`, `err` being `null`, before it reaches
`reject`: the promise is neither resolved nor rejected, whereas a gateway error
rejects it with the device and `transmitted` false.  In the scenario of three
devices, the second of which is answered so, the promise `send` returned never
settles, although the gateway has answered every request. -/
theorem exchangeTokenPromise_throws_without_endpoint :
    (∀ device : Device,
        exchangeTokenPromise device { err := none, data := some { EndpointArn := none } } =
          .threw (.typeError "Cannot read property 'stack' of null"))
      ∧ (∀ (device : Device) (err : GatewayError) (data : Option CreateData),
          exchangeTokenPromise device { err := some err, data := data } =
            .rejected { device := device, transmitted := false })
      ∧ (send scenarioAdapter scenarioLibs noEndpointGateway [0, 1, 2, 0, 1, 2] {}
          scenarioBatch).outcome = .pending := by
  refine ⟨fun _ => rfl, fun _ _ _ => rfl, by decide⟩

/-- C12: for every notification, `generateiOSPayload` returns an envelope with
one key, `APNS` when `production` is true and `APNS_SANDBOX` when it is false,
whose value is the compiled notification, the same under both keys; the sends
of a variant carry the envelope for its `production` flag, a variant without
the flag counting as not in production. -/
theorem generateiOSPayload_key :
    (∀ (libs : Libs) (data : Notification),
        generateiOSPayload libs data true =
          [("APNS", libs.apnsCompile data.data data.expirationTime)])
      ∧ (∀ (libs : Libs) (data : Notification),
          generateiOSPayload libs data false =
            [("APNS_SANDBOX", libs.apnsCompile data.data data.expirationTime)])
      ∧ (∀ (libs : Libs) (data : Notification) (production : Bool),
          (generateiOSPayload libs data production).length = 1)
      ∧ (∀ (libs : Libs) (data : Notification) (devices : List Device) (V : VariantConfig),
          ∀ p ∈ sendToVariant libs data devices V,
            p.payload =
              [(if V.production = some true then "APNS" else "APNS_SANDBOX",
                libs.apnsCompile data.data data.expirationTime)]) := by
  refine ⟨fun _ _ => rfl, fun _ _ => rfl, fun _ _ _ => rfl, ?_⟩
  intro libs data devices V p hp
  rw [sendToVariant_eq] at hp
  simp only [sendToSNS, List.mem_map] at hp
  obtain ⟨d, _, rfl⟩ := hp
  cases hV : V.production with
  | none => simp [generateiOSPayload]
  | some b => cases b <;> simp [generateiOSPayload]

/-- C13, counterexample: a supplied push identifier that is the empty string,
or a supplied timestamp `0`, is replaced.  With the push identifier `""` the
generator receives the random string, so that two calls with the same inputs
return different envelopes; with the timestamp `0` it receives the clock. -/
theorem generateGCMPayload_falsy_replaced :
    generateGCMPayload (echoLibs "aaaaaaaaaa" 3) {} (some "") (some 5) =
        [("GCM", "aaaaaaaaaa:ttttt")]
      ∧ generateGCMPayload (echoLibs "aaaaaaaaaa" 3) {} (some "") (some 5) ≠
        generateGCMPayload (echoLibs "bbbbbbbbbb" 3) {} (some "") (some 5)
      ∧ generateGCMPayload (echoLibs "aaaaaaaaaa" 3) {} (some "id") (some 0) =
        [("GCM", "id:ttt")] := by
  decide

/-- C13, amended: for every notification and every supplied push identifier
other than the empty string and timestamp other than `0`, `generateGCMPayload`
passes them to the GCM payload generator and returns its text under the single
key `GCM`; no random string and no clock reading enters, so that two calls
with the same inputs return the same envelope. -/
theorem generateGCMPayload_deterministic (libs : Libs) (data : Notification)
    (pushId : String) (timeStamp : Nat) (hid : pushId ≠ "") (ht : timeStamp ≠ 0) :
    generateGCMPayload libs data (some pushId) (some timeStamp) =
        [("GCM", libs.gcmPayload data.data pushId timeStamp data.expirationTime)]
      ∧ ∀ libs2 : Libs, libs2.gcmPayload = libs.gcmPayload →
          generateGCMPayload libs2 data (some pushId) (some timeStamp) =
            generateGCMPayload libs data (some pushId) (some timeStamp) := by
  have h : ∀ l : Libs, generateGCMPayload l data (some pushId) (some timeStamp) =
      [("GCM", l.gcmPayload data.data pushId timeStamp data.expirationTime)] := by
    intro l
    simp [generateGCMPayload, truthy, hid, ht]
  refine ⟨h libs, ?_⟩
  intro libs2 h2
  rw [h libs2, h libs, h2]

/-- C13, scenario: with the push identifier `id` and the timestamp `5`, two
libraries with different random strings and clocks give the same envelope. -/
theorem generateGCMPayload_deterministic_witness :
    generateGCMPayload (echoLibs "aaaaaaaaaa" 3) {} (some "id") (some 5) =
        [("GCM", "id:ttttt")]
      ∧ generateGCMPayload (echoLibs "bbbbbbbbbb" 4) {} (some "id") (some 5) =
        generateGCMPayload (echoLibs "aaaaaaaaaa" 3) {} (some "id") (some 5) :=
  ⟨(generateGCMPayload_deterministic (echoLibs "aaaaaaaaaa" 3) {} "id" 5
      (by decide) (by decide)).1,
    (generateGCMPayload_deterministic (echoLibs "aaaaaaaaaa" 3) {} "id" 5
      (by decide) (by decide)).2 (echoLibs "bbbbbbbbbb" 4) rfl⟩

/-- C14: for every notification, `generateADMPayload` returns an envelope with
the single key `ADM`, whose value is the JSON text of the object with the one
member `data`; the `expirationTime` does not enter, so that two notifications
that differ in it alone give the same envelope. -/
theorem generateADMPayload_data_only :
    (∀ (d : String) (expirationTime : Option Nat),
        generateADMPayload { data := some d, expirationTime := expirationTime } =
          [("ADM", "\x7b\"data\":" ++ d ++ "\x7d")])
      ∧ (∀ expirationTime : Option Nat,
          generateADMPayload { data := none, expirationTime := expirationTime } =
            [("ADM", "\x7b\x7d")])
      ∧ (∀ (data : Option String) (e1 e2 : Option Nat),
          generateADMPayload { data := data, expirationTime := e1 } =
            generateADMPayload { data := data, expirationTime := e2 })
      ∧ (∀ data : Notification, (generateADMPayload data).length = 1) := by
  refine ⟨fun _ _ => rfl, fun _ => rfl, fun _ _ _ => rfl, fun _ => rfl⟩

/-- C15, counterexample: two devices whose chains complete in the order
opposite to the one they were started in.  The publish of the second chain is
requested and answered before that of the first, and the result list still
holds the result of the first chain first. -/
theorem send_results_not_in_completion_order :
    send scenarioAdapter scenarioLibs scenarioGateway [1, 1, 0, 0] {} twoDeviceBatch =
        { calls :=
            [.createPlatformEndpoint 0 { PlatformApplicationArn := some "arn:ios", Token := "t1" },
             .createPlatformEndpoint 1 { PlatformApplicationArn := some "arn:gcm", Token := "t2" },
             .publish 1 { Message := "\x7b\"GCM\":\"gcm\"\x7d", MessageStructure := "json",
                          TargetArn := "arn:endpoint" },
             .publish 0 { Message := "\x7b\"APNS\":\"apns\"\x7d", MessageStructure := "json",
                          TargetArn := "arn:endpoint" }]
          outcome := .fulfilled
            [{ device := { deviceType := some "ios", deviceToken := "t1" }, transmitted := true,
               response := .data (some { MessageId := some "id" }) },
             { device := { deviceType := some "gcm", deviceToken := "t2" }, transmitted := true,
               response := .data (some { MessageId := some "id" }) }] }
      ∧ (send scenarioAdapter scenarioLibs scenarioGateway [1, 1, 0, 0] {}
          twoDeviceBatch).outcome ≠
        .fulfilled
          [{ device := { deviceType := some "gcm", deviceToken := "t2" }, transmitted := true,
             response := .data (some { MessageId := some "id" }) },
           { device := { deviceType := some "ios", deviceToken := "t1" }, transmitted := true,
             response := .data (some { MessageId := some "id" }) }] := by
  decide

/-- C15, amended: the list `send` returns is ordered by the order in which the
chains were started, not by the order in which they complete: the tokens of
the results are, in order, the tokens of the endpoint-creation requests in the
order these were made, and a run of the same batch against the same answers of
the gateway in another order of completion returns the same list. -/
theorem send_results_in_start_order (a : Adapter) (libs : Libs) (sns : Gateway)
    (schedule : List Nat) (data : Notification) (installations : List Installation)
    (results : List DispatchResult)
    (h : (send a libs sns schedule data installations).outcome = .fulfilled results) :
    results.map (fun r => r.device.deviceToken) =
        createTokens (send a libs sns schedule data installations).calls
      ∧ ∀ schedule2 results2,
          (send a libs sns schedule2 data installations).outcome = .fulfilled results2 →
          results2 = results := by
  unfold send at h ⊢
  cases hm : classifyInstallations installations a.availablePushTypes with
  | error e => simp [hm] at h
  | ok m =>
    simp only [hm] at h ⊢
    cases hc : (collectPromises a libs data m m.keys []).2 with
    | some e => simp [hc] at h
    | none =>
      simp only [hc] at h
      obtain ⟨h1, h2⟩ := startDispatch_results sns _ schedule results h
      refine ⟨?_, ?_⟩
      · have ht := startDispatch_createTokens sns (collectPromises a libs data m m.keys []).1
          schedule
        simp only [startDispatch] at ht
        rw [ht]
        have : (fun r : DispatchResult => r.device.deviceToken) =
            ((fun d : ReportedDevice => d.deviceToken) ∘ fun r : DispatchResult => r.device) :=
          rfl
        rw [this, ← List.map_map, h2, List.map_map]
        rfl
      · intro schedule2 results2 hs2
        simp only [hc] at hs2
        obtain ⟨h3, _⟩ := startDispatch_results sns _ schedule2 results2 hs2
        rw [h3, h1]

/-- C15, scenario: the two devices completing in the opposite order give the
tokens `t1`, `t2`, those of the endpoint-creation requests in their order. -/
theorem send_results_in_start_order_witness :
    ∃ results,
      (send scenarioAdapter scenarioLibs scenarioGateway [1, 1, 0, 0] {}
        twoDeviceBatch).outcome = .fulfilled results
      ∧ results.map (fun r => r.device.deviceToken) = ["t1", "t2"] := by
  have h : (send scenarioAdapter scenarioLibs scenarioGateway [1, 1, 0, 0] {}
      twoDeviceBatch).outcome = .fulfilled
        [{ device := { deviceType := some "ios", deviceToken := "t1" }, transmitted := true,
           response := .data (some { MessageId := some "id" }) },
         { device := { deviceType := some "gcm", deviceToken := "t2" }, transmitted := true,
           response := .data (some { MessageId := some "id" }) }] := by decide
  refine ⟨_, h, ?_⟩
  rw [(send_results_in_start_order scenarioAdapter scenarioLibs scenarioGateway [1, 1, 0, 0] {}
    twoDeviceBatch _ h).1]
  decide

/-- C16: for every adapter built from a configuration (an object, whose keys
are distinct) and every run of `send`, each request to the gateway belongs to
one send of the dispatch plan, a device with the payload and the ARN of the
platform variant it is sent through.  An endpoint-creation request is that
ARN with the token of the device; a publish request is the JSON text of that
payload, the structure `json`, and the endpoint identifier the gateway returned
to the endpoint-creation request of the same send.  Every send of the plan
has its endpoint-creation request when the classification returns. -/
theorem gateway_requests_exact (pushConfig : PushConfig) (a : Adapter) (libs : Libs)
    (sns : Gateway) (schedule : List Nat) (data : Notification)
    (installations : List Installation)
    (ha : SNSPushAdapter pushConfig = .ok a)
    (hnd : ((pushConfig.pushTypes.getD []).map Prod.fst).Nodup) :
    (∀ call ∈ (send a libs sns schedule data installations).calls,
        ∃ i p, (dispatchPlan a libs data installations)[i]? = some p ∧
          (call = .createPlatformEndpoint i
              { PlatformApplicationArn := p.platformArn, Token := p.device.deviceToken } ∨
            ((sns.createPlatformEndpoint i
                { PlatformApplicationArn := p.platformArn,
                  Token := p.device.deviceToken }).succeeds = true ∧
              call = .publish i
                { Message := jsonStringify p.payload
                  MessageStructure := "json"
                  TargetArn := (sns.createPlatformEndpoint i
                    { PlatformApplicationArn := p.platformArn,
                      Token := p.device.deviceToken }).endpointArn })))
      ∧ (∀ m, classifyInstallations installations a.availablePushTypes = .ok m →
          ∀ i p, (dispatchPlan a libs data installations)[i]? = some p →
            GatewayCall.createPlatformEndpoint i
                { PlatformApplicationArn := p.platformArn, Token := p.device.deviceToken } ∈
              (send a libs sns schedule data installations).calls)
      ∧ (∀ p ∈ dispatchPlan a libs data installations,
          (∃ V ∈ iosVariants a, ∃ d ∈ expectedBucket installations "ios",
              matchesAppIdentifier d.appIdentifier V = true ∧
              p = { device := { d with deviceType := some "ios" }
                    payload := generateiOSPayload libs data (V.production.getD false)
                    platformArn := V.ARN }) ∨
            (∃ d ∈ expectedBucket installations "gcm",
              p = { device := { d with deviceType := some "gcm" }
                    payload := generateGCMPayload libs data none none
                    platformArn := configuredArn a "gcm" }) ∨
            (∃ d ∈ expectedBucket installations "adm",
              p = { device := { d with deviceType := some "adm" }
                    payload := generateADMPayload data
                    platformArn := configuredArn a "adm" })) := by
  refine ⟨?_, ?_, ?_⟩
  · intro call hcall
    cases hm : classifyInstallations installations a.availablePushTypes with
    | error e =>
      unfold send at hcall
      simp [hm] at hcall
    | ok m =>
      rw [send_eq_plan_run pushConfig a libs sns schedule data installations m ha hnd hm]
        at hcall
      rcases startDispatch_calls sns _ schedule call hcall with
        ⟨c, hc, he⟩ | ⟨c, hc, _, _, hs, he⟩
      · obtain ⟨_, hg⟩ := numberFrom_getElem 0 _ c hc
        exact ⟨c.id, c.promise, hg, Or.inl he⟩
      · obtain ⟨_, hg⟩ := numberFrom_getElem 0 _ c hc
        exact ⟨c.id, c.promise, hg, Or.inr ⟨hs, he⟩⟩
  · intro m hm i p hp
    rw [send_eq_plan_run pushConfig a libs sns schedule data installations m ha hnd hm]
    have hc := numberFrom_mem_of_getElem 0 _ i p hp
    have := startDispatch_create_mem sns _ schedule _ hc
    simpa [createCall, getPlatformArn] using this
  · intro p hp
    obtain ⟨_, hvalid, _, _⟩ := SNSPushAdapter_ok pushConfig a ha
    simp only [dispatchPlan, List.mem_flatMap] at hp
    obtain ⟨k, hk, hp⟩ := hp
    have hv := hvalid k hk
    simp only [validPushTypes, List.mem_cons, List.mem_singleton, List.not_mem_nil,
      or_false] at hv
    rcases hv with rfl | rfl | rfl
    · left
      simp only [platformSends, if_true, List.mem_flatMap, variantSends, List.mem_map,
        List.mem_filter] at hp
      obtain ⟨V, hV, d, ⟨hd, hmatch⟩, rfl⟩ := hp
      exact ⟨V, hV, d, hd, hmatch, rfl⟩
    · right; left
      simp only [platformSends, show ¬ ("gcm" = "ios") by decide, if_false, if_true,
        List.mem_map] at hp
      obtain ⟨d, hd, rfl⟩ := hp
      exact ⟨d, hd, rfl⟩
    · right; right
      simp only [platformSends, show ¬ ("adm" = "ios") by decide,
        show ¬ ("adm" = "gcm") by decide, if_false, if_true, List.mem_map] at hp
      obtain ⟨d, hd, rfl⟩ := hp
      exact ⟨d, hd, rfl⟩

/-- C16, scenario: the requests of the three devices: each endpoint creation
with the ARN of its platform and its own token, each publish with the payload
of its platform and the endpoint returned for it. -/
theorem gateway_requests_exact_witness :
    (send scenarioAdapter scenarioLibs scenarioGateway [0, 1, 2, 0, 1, 2] {}
        scenarioBatch).calls =
      [.createPlatformEndpoint 0 { PlatformApplicationArn := some "arn:ios", Token := "t1" },
       .createPlatformEndpoint 1 { PlatformApplicationArn := some "arn:ios", Token := "t3" },
       .createPlatformEndpoint 2 { PlatformApplicationArn := some "arn:gcm", Token := "t2" },
       .publish 0 { Message := "\x7b\"APNS\":\"apns\"\x7d", MessageStructure := "json",
                    TargetArn := "arn:endpoint" },
       .publish 1 { Message := "\x7b\"APNS\":\"apns\"\x7d", MessageStructure := "json",
                    TargetArn := "arn:endpoint" },
       .publish 2 { Message := "\x7b\"GCM\":\"gcm\"\x7d", MessageStructure := "json",
                    TargetArn := "arn:endpoint" }]
      ∧ ∀ call ∈ (send scenarioAdapter scenarioLibs scenarioGateway [0, 1, 2, 0, 1, 2] {}
          scenarioBatch).calls,
        ∃ i p, (dispatchPlan scenarioAdapter scenarioLibs {} scenarioBatch)[i]? = some p ∧
          (call = .createPlatformEndpoint i
              { PlatformApplicationArn := p.platformArn, Token := p.device.deviceToken } ∨
            ((scenarioGateway.createPlatformEndpoint i
                { PlatformApplicationArn := p.platformArn,
                  Token := p.device.deviceToken }).succeeds = true ∧
              call = .publish i
                { Message := jsonStringify p.payload
                  MessageStructure := "json"
                  TargetArn := (scenarioGateway.createPlatformEndpoint i
                    { PlatformApplicationArn := p.platformArn,
                      Token := p.device.deviceToken }).endpointArn })) :=
  ⟨by decide,
    (gateway_requests_exact scenarioConfig scenarioAdapter scenarioLibs scenarioGateway
      [0, 1, 2, 0, 1, 2] {} scenarioBatch (by decide) (by decide)).1⟩

/-- C17, counterexample: a publish answered without error and without message
identifier, or without any data, is reported with `transmitted` true. -/
theorem sendSNSPayload_transmitted_without_messageId :
    (sendSNSPayload { deviceToken := "t1", deviceType := some "ios" }
        { err := none, data := some { MessageId := none } }).transmitted = true
      ∧ (sendSNSPayload { deviceToken := "t1", deviceType := some "ios" }
        { err := none, data := none }).transmitted = true := by
  decide

/-- C17, amended: for every publish outcome, the result of `sendSNSPayload`
has `transmitted` true if and only if the gateway returned no error, whether
or not the response carries a message identifier; the response is then handed
on as it is. -/
theorem sendSNSPayload_transmitted_iff (device : Device) (response : PublishResponse) :
    ((sendSNSPayload device response).transmitted = true ↔ response.err = none)
      ∧ (response.err = none →
          (sendSNSPayload device response).response = .data response.data) := by
  unfold sendSNSPayload
  cases h : response.err with
  | none => simp
  | some e => simp

/-- C17, scenario: a publish answered with a message identifier is reported
with `transmitted` true and that response. -/
theorem sendSNSPayload_transmitted_iff_witness :
    (sendSNSPayload { deviceToken := "t1", deviceType := some "ios" }
        { err := none, data := some { MessageId := some "id" } }).transmitted = true
      ∧ (sendSNSPayload { deviceToken := "t1", deviceType := some "ios" }
        { err := none, data := some { MessageId := some "id" } }).response =
          .data (some { MessageId := some "id" }) :=
  ⟨(sendSNSPayload_transmitted_iff { deviceToken := "t1", deviceType := some "ios" }
      { err := none, data := some { MessageId := some "id" } }).1.mpr rfl,
    (sendSNSPayload_transmitted_iff { deviceToken := "t1", deviceType := some "ios" }
      { err := none, data := some { MessageId := some "id" } }).2 rfl⟩

/-- C18: in every run of `send`, for every endpoint-creation request made for
a device: if the resolution fails (the gateway answers with an error, or
without endpoint identifier) no publish request is ever made for that chain;
if it succeeds and the gateway calls back, the publish request of that chain
is made, to the endpoint returned, whatever happens to the other chains. -/
theorem resolution_failure_skips_publish (a : Adapter) (libs : Libs) (sns : Gateway)
    (schedule : List Nat) (data : Notification) (installations : List Installation)
    (i : Nat) (params : CreateParams)
    (h : GatewayCall.createPlatformEndpoint i params ∈
      (send a libs sns schedule data installations).calls) :
    ((sns.createPlatformEndpoint i params).succeeds = false →
        ∀ q, GatewayCall.publish i q ∉ (send a libs sns schedule data installations).calls)
      ∧ ((sns.createPlatformEndpoint i params).succeeds = true → i ∈ schedule →
        ∃ q, GatewayCall.publish i q ∈ (send a libs sns schedule data installations).calls ∧
          q.TargetArn = (sns.createPlatformEndpoint i params).endpointArn) := by
  rcases send_eq_run a libs sns schedule data installations with ⟨e, he⟩ | ⟨ps, err, hc, _⟩
  · rw [he] at h
    simp at h
  · rw [hc] at h ⊢
    exact startDispatch_publish sns ps schedule i params h

/-- C18, scenario: of the three devices the one with the token `t2`, whose
resolution fails, has no publish request, and the two others have theirs. -/
theorem resolution_failure_skips_publish_witness :
    (∀ q, GatewayCall.publish 2 q ∉
        (send scenarioAdapter scenarioLibs failingGateway [0, 1, 2, 0, 1, 2] {}
          scenarioBatch).calls)
      ∧ (∃ q, GatewayCall.publish 0 q ∈
          (send scenarioAdapter scenarioLibs failingGateway [0, 1, 2, 0, 1, 2] {}
            scenarioBatch).calls ∧ q.TargetArn = "arn:endpoint")
      ∧ (∃ q, GatewayCall.publish 1 q ∈
          (send scenarioAdapter scenarioLibs failingGateway [0, 1, 2, 0, 1, 2] {}
            scenarioBatch).calls ∧ q.TargetArn = "arn:endpoint") :=
  ⟨(resolution_failure_skips_publish scenarioAdapter scenarioLibs failingGateway
      [0, 1, 2, 0, 1, 2] {} scenarioBatch 2
      { PlatformApplicationArn := some "arn:gcm", Token := "t2" } (by decide)).1 (by decide),
    (resolution_failure_skips_publish scenarioAdapter scenarioLibs failingGateway
      [0, 1, 2, 0, 1, 2] {} scenarioBatch 0
      { PlatformApplicationArn := some "arn:ios", Token := "t1" } (by decide)).2
      (by decide) (by decide),
    (resolution_failure_skips_publish scenarioAdapter scenarioLibs failingGateway
      [0, 1, 2, 0, 1, 2] {} scenarioBatch 1
      { PlatformApplicationArn := some "arn:ios", Token := "t3" } (by decide)).2
      (by decide) (by decide)⟩

/-- C19: for every adapter built from a configuration (an object, whose keys
are distinct) and every batch on which `send` completes, the devices of the
returned results are, in order, the expected devices: platform by platform in
the order of the configured keys, on `ios` variant by variant in the order of
the configuration, and within a platform or variant in the input order of the
installations of that bucket.  Neither the answers of the gateway nor the
order in which they arrive enter. -/
theorem send_result_order (pushConfig : PushConfig) (a : Adapter) (libs : Libs)
    (sns : Gateway) (schedule : List Nat) (data : Notification)
    (installations : List Installation) (results : List DispatchResult)
    (ha : SNSPushAdapter pushConfig = .ok a)
    (hnd : ((pushConfig.pushTypes.getD []).map Prod.fst).Nodup)
    (h : (send a libs sns schedule data installations).outcome = .fulfilled results) :
    results.map (fun r => r.device) = expectedDevices a installations := by
  cases hm : classifyInstallations installations a.availablePushTypes with
  | error e =>
    unfold send at h
    simp [hm] at h
  | ok m =>
    rw [send_eq_plan_run pushConfig a libs sns schedule data installations m ha hnd hm] at h
    rw [(startDispatch_results sns _ schedule results h).2]
    exact plan_reported pushConfig a libs data installations ha

/-- C19, scenario: the three devices, answered in the order opposite to the one
they were started in, are reported `ios` first, in input order, then `gcm`. -/
theorem send_result_order_witness :
    ∃ results,
      (send scenarioAdapter scenarioLibs scenarioGateway [2, 2, 1, 1, 0, 0] {}
        scenarioBatch).outcome = .fulfilled results
      ∧ results.map (fun r => r.device) =
        [{ deviceType := some "ios", deviceToken := "t1" },
         { deviceType := some "ios", deviceToken := "t3" },
         { deviceType := some "gcm", deviceToken := "t2" }] := by
  have h : (send scenarioAdapter scenarioLibs scenarioGateway [2, 2, 1, 1, 0, 0] {}
      scenarioBatch).outcome = .fulfilled
        [{ device := { deviceType := some "ios", deviceToken := "t1" }, transmitted := true,
           response := .data (some { MessageId := some "id" }) },
         { device := { deviceType := some "ios", deviceToken := "t3" }, transmitted := true,
           response := .data (some { MessageId := some "id" }) },
         { device := { deviceType := some "gcm", deviceToken := "t2" }, transmitted := true,
           response := .data (some { MessageId := some "id" }) }] := by decide
  refine ⟨_, h, ?_⟩
  rw [send_result_order scenarioConfig scenarioAdapter scenarioLibs scenarioGateway
    [2, 2, 1, 1, 0, 0] {} scenarioBatch _ (by decide) (by decide) h]
  decide

/-- C20: every result `send` returns is that of an installation of the batch
with a token and a configured platform key, and its `device.deviceType` is that
platform key (`pushType` when non-empty, else `deviceType`), the bucket the
installation was routed through, whatever the `deviceType` of the installation. -/
theorem result_deviceType_is_platform_key (pushConfig : PushConfig) (a : Adapter)
    (libs : Libs) (sns : Gateway) (schedule : List Nat) (data : Notification)
    (installations : List Installation) (results : List DispatchResult)
    (ha : SNSPushAdapter pushConfig = .ok a)
    (h : (send a libs sns schedule data installations).outcome = .fulfilled results) :
    ∀ r ∈ results, ∃ i ∈ installations, truthy i.deviceToken = true ∧
      i.platformKey ∈ a.availablePushTypes ∧
      r.device.deviceToken = i.deviceToken.getD "" ∧
      r.device.deviceType = some i.platformKey ∧
      r.device.deviceType =
        some (toPropertyKey (if truthy i.pushType then i.pushType else i.deviceType)) := by
  intro r hr
  obtain ⟨i, hi, ht, hk, hdev⟩ := send_results_devices pushConfig a libs sns schedule data
    installations results ha h r hr
  refine ⟨i, hi, ht, hk, ?_, ?_, ?_⟩
  · rw [hdev]
  · rw [hdev]
  · rw [hdev]
    rfl

/-- C20, scenario: an installation with `deviceType` `android` and `pushType`
`gcm` is reported with `deviceType` `gcm`. -/
theorem result_deviceType_is_platform_key_witness :
    ∃ results,
      (send scenarioAdapter scenarioLibs scenarioGateway [0, 0] {}
        [{ deviceToken := some "t1", deviceType := some "android",
           pushType := some "gcm" }]).outcome = .fulfilled results
      ∧ results.map (fun r => r.device) = [{ deviceType := some "gcm", deviceToken := "t1" }]
      ∧ ∀ r ∈ results,
          ∃ i ∈ [({ deviceToken := some "t1", deviceType := some "android",
                    pushType := some "gcm" } : Installation)],
            r.device.deviceType = some i.platformKey := by
  have h : (send scenarioAdapter scenarioLibs scenarioGateway [0, 0] {}
      [{ deviceToken := some "t1", deviceType := some "android",
         pushType := some "gcm" }]).outcome = .fulfilled
        [{ device := { deviceType := some "gcm", deviceToken := "t1" }, transmitted := true,
           response := .data (some { MessageId := some "id" }) }] := by decide
  refine ⟨_, h, by decide, ?_⟩
  intro r hr
  obtain ⟨i, hi, _, _, _, hty, _⟩ := result_deviceType_is_platform_key scenarioConfig
    scenarioAdapter scenarioLibs scenarioGateway [0, 0] {} _ _ (by decide) h r hr
  exact ⟨i, hi, hty⟩

end SNS
